import Mathlib

/-! # English-Tutor-AI: the server's completion client and speech analyzer

A shallow embedding of `src/index.js`.

Conventions of the embedding.

* A JavaScript string is a sequence of UTF-16 code units.  The embedding holds the well-formed
  strings, as the lists of their code points (`JsString`); `utf16Length` is the number of code
  units, which is the value of the property `length`.
* `toLowerCase` is the default case conversion of the Unicode Standard, with the tables of
  version 14.0 of the Unicode Character Database.
* A quotient of two array lengths compared with a decimal literal (`> 0.8`, `< 0.6`, `> 0.1`,
  `> 0.05`) is taken in `ℚ`.  For lengths a JavaScript string can have, the correctly rounded
  double quotient lies on the same side of the literal as the exact quotient.
* A value that comes from outside (a payload, a field of a payload, a response body) is a JSON
  value (`Json`); a call of a string method on a value that is not a string throws.
* The numbers of the retry loop are doubles that hold an integer, or an infinity (`JsInteger`);
  an integer is rounded to the nearest double, ties to the even mantissa.
* Effects of the completion client (HTTP calls, sleeps) are recorded in an explicit trace.
-/

namespace EnglishTutor

/-! ## Strings -/

/-- A JavaScript string, as the list of its characters. -/
abbrev JsString := List Char

/-- The characters matched by the regular-expression class `\s`, which are also the characters
removed by `String.prototype.trim`. -/
def isWhiteSpace (c : Char) : Bool :=
  let n := c.toNat
  n = 0x09 || n = 0x0A || n = 0x0B || n = 0x0C || n = 0x0D || n = 0x20 || n = 0xA0
    || n = 0x1680 || (0x2000 ≤ n && n ≤ 0x200A) || n = 0x2028 || n = 0x2029 || n = 0x202F
    || n = 0x205F || n = 0x3000 || n = 0xFEFF

/-- The characters matched by the class `[.!?]`. -/
def isSentenceEnd (c : Char) : Bool :=
  c = '.' || c = '!' || c = '?'

/-- The characters matched by the class `\w`. -/
def isWordChar (c : Char) : Bool :=
  c.isAlphanum || c = '_'

/-- The code points above U+007F with a simple lowercase mapping in the Unicode Character
Database 14.0, as runs `(first, last, step, lower)`: the code points `first`, `first + step`,
... up to `last` map to `lower`, `lower + step`, ... -/
def lowerCaseRanges : List (Nat × Nat × Nat × Nat) :=
  [(0xC0, 0xD6, 1, 0xE0), (0xD8, 0xDE, 1, 0xF8), (0x100, 0x12E, 2, 0x101),
   (0x132, 0x136, 2, 0x133), (0x139, 0x147, 2, 0x13A), (0x14A, 0x176, 2, 0x14B),
   (0x178, 0x178, 1, 0xFF), (0x179, 0x17D, 2, 0x17A), (0x181, 0x181, 1, 0x253),
   (0x182, 0x184, 2, 0x183), (0x186, 0x186, 1, 0x254), (0x187, 0x187, 1, 0x188),
   (0x189, 0x18A, 1, 0x256), (0x18B, 0x18B, 1, 0x18C), (0x18E, 0x18E, 1, 0x1DD),
   (0x18F, 0x18F, 1, 0x259), (0x190, 0x190, 1, 0x25B), (0x191, 0x191, 1, 0x192),
   (0x193, 0x193, 1, 0x260), (0x194, 0x194, 1, 0x263), (0x196, 0x196, 1, 0x269),
   (0x197, 0x197, 1, 0x268), (0x198, 0x198, 1, 0x199), (0x19C, 0x19C, 1, 0x26F),
   (0x19D, 0x19D, 1, 0x272), (0x19F, 0x19F, 1, 0x275), (0x1A0, 0x1A4, 2, 0x1A1),
   (0x1A6, 0x1A6, 1, 0x280), (0x1A7, 0x1A7, 1, 0x1A8), (0x1A9, 0x1A9, 1, 0x283),
   (0x1AC, 0x1AC, 1, 0x1AD), (0x1AE, 0x1AE, 1, 0x288), (0x1AF, 0x1AF, 1, 0x1B0),
   (0x1B1, 0x1B2, 1, 0x28A), (0x1B3, 0x1B5, 2, 0x1B4), (0x1B7, 0x1B7, 1, 0x292),
   (0x1B8, 0x1B8, 1, 0x1B9), (0x1BC, 0x1BC, 1, 0x1BD), (0x1C4, 0x1C4, 1, 0x1C6),
   (0x1C5, 0x1C5, 1, 0x1C6), (0x1C7, 0x1C7, 1, 0x1C9), (0x1C8, 0x1C8, 1, 0x1C9),
   (0x1CA, 0x1CA, 1, 0x1CC), (0x1CB, 0x1DB, 2, 0x1CC), (0x1DE, 0x1EE, 2, 0x1DF),
   (0x1F1, 0x1F1, 1, 0x1F3), (0x1F2, 0x1F4, 2, 0x1F3), (0x1F6, 0x1F6, 1, 0x195),
   (0x1F7, 0x1F7, 1, 0x1BF), (0x1F8, 0x21E, 2, 0x1F9), (0x220, 0x220, 1, 0x19E),
   (0x222, 0x232, 2, 0x223), (0x23A, 0x23A, 1, 0x2C65), (0x23B, 0x23B, 1, 0x23C),
   (0x23D, 0x23D, 1, 0x19A), (0x23E, 0x23E, 1, 0x2C66), (0x241, 0x241, 1, 0x242),
   (0x243, 0x243, 1, 0x180), (0x244, 0x244, 1, 0x289), (0x245, 0x245, 1, 0x28C),
   (0x246, 0x24E, 2, 0x247), (0x370, 0x372, 2, 0x371), (0x376, 0x376, 1, 0x377),
   (0x37F, 0x37F, 1, 0x3F3), (0x386, 0x386, 1, 0x3AC), (0x388, 0x38A, 1, 0x3AD),
   (0x38C, 0x38C, 1, 0x3CC), (0x38E, 0x38F, 1, 0x3CD), (0x391, 0x3A1, 1, 0x3B1),
   (0x3A3, 0x3AB, 1, 0x3C3), (0x3CF, 0x3CF, 1, 0x3D7), (0x3D8, 0x3EE, 2, 0x3D9),
   (0x3F4, 0x3F4, 1, 0x3B8), (0x3F7, 0x3F7, 1, 0x3F8), (0x3F9, 0x3F9, 1, 0x3F2),
   (0x3FA, 0x3FA, 1, 0x3FB), (0x3FD, 0x3FF, 1, 0x37B), (0x400, 0x40F, 1, 0x450),
   (0x410, 0x42F, 1, 0x430), (0x460, 0x480, 2, 0x461), (0x48A, 0x4BE, 2, 0x48B),
   (0x4C0, 0x4C0, 1, 0x4CF), (0x4C1, 0x4CD, 2, 0x4C2), (0x4D0, 0x52E, 2, 0x4D1),
   (0x531, 0x556, 1, 0x561), (0x10A0, 0x10C5, 1, 0x2D00), (0x10C7, 0x10C7, 1, 0x2D27),
   (0x10CD, 0x10CD, 1, 0x2D2D), (0x13A0, 0x13EF, 1, 0xAB70), (0x13F0, 0x13F5, 1, 0x13F8),
   (0x1C90, 0x1CBA, 1, 0x10D0), (0x1CBD, 0x1CBF, 1, 0x10FD), (0x1E00, 0x1E94, 2, 0x1E01),
   (0x1E9E, 0x1E9E, 1, 0xDF), (0x1EA0, 0x1EFE, 2, 0x1EA1), (0x1F08, 0x1F0F, 1, 0x1F00),
   (0x1F18, 0x1F1D, 1, 0x1F10), (0x1F28, 0x1F2F, 1, 0x1F20), (0x1F38, 0x1F3F, 1, 0x1F30),
   (0x1F48, 0x1F4D, 1, 0x1F40), (0x1F59, 0x1F5F, 2, 0x1F51), (0x1F68, 0x1F6F, 1, 0x1F60),
   (0x1F88, 0x1F8F, 1, 0x1F80), (0x1F98, 0x1F9F, 1, 0x1F90), (0x1FA8, 0x1FAF, 1, 0x1FA0),
   (0x1FB8, 0x1FB9, 1, 0x1FB0), (0x1FBA, 0x1FBB, 1, 0x1F70), (0x1FBC, 0x1FBC, 1, 0x1FB3),
   (0x1FC8, 0x1FCB, 1, 0x1F72), (0x1FCC, 0x1FCC, 1, 0x1FC3), (0x1FD8, 0x1FD9, 1, 0x1FD0),
   (0x1FDA, 0x1FDB, 1, 0x1F76), (0x1FE8, 0x1FE9, 1, 0x1FE0), (0x1FEA, 0x1FEB, 1, 0x1F7A),
   (0x1FEC, 0x1FEC, 1, 0x1FE5), (0x1FF8, 0x1FF9, 1, 0x1F78), (0x1FFA, 0x1FFB, 1, 0x1F7C),
   (0x1FFC, 0x1FFC, 1, 0x1FF3), (0x2126, 0x2126, 1, 0x3C9), (0x212A, 0x212A, 1, 0x6B),
   (0x212B, 0x212B, 1, 0xE5), (0x2132, 0x2132, 1, 0x214E), (0x2160, 0x216F, 1, 0x2170),
   (0x2183, 0x2183, 1, 0x2184), (0x24B6, 0x24CF, 1, 0x24D0), (0x2C00, 0x2C2F, 1, 0x2C30),
   (0x2C60, 0x2C60, 1, 0x2C61), (0x2C62, 0x2C62, 1, 0x26B), (0x2C63, 0x2C63, 1, 0x1D7D),
   (0x2C64, 0x2C64, 1, 0x27D), (0x2C67, 0x2C6B, 2, 0x2C68), (0x2C6D, 0x2C6D, 1, 0x251),
   (0x2C6E, 0x2C6E, 1, 0x271), (0x2C6F, 0x2C6F, 1, 0x250), (0x2C70, 0x2C70, 1, 0x252),
   (0x2C72, 0x2C72, 1, 0x2C73), (0x2C75, 0x2C75, 1, 0x2C76), (0x2C7E, 0x2C7F, 1, 0x23F),
   (0x2C80, 0x2CE2, 2, 0x2C81), (0x2CEB, 0x2CED, 2, 0x2CEC), (0x2CF2, 0x2CF2, 1, 0x2CF3),
   (0xA640, 0xA66C, 2, 0xA641), (0xA680, 0xA69A, 2, 0xA681), (0xA722, 0xA72E, 2, 0xA723),
   (0xA732, 0xA76E, 2, 0xA733), (0xA779, 0xA77B, 2, 0xA77A), (0xA77D, 0xA77D, 1, 0x1D79),
   (0xA77E, 0xA786, 2, 0xA77F), (0xA78B, 0xA78B, 1, 0xA78C), (0xA78D, 0xA78D, 1, 0x265),
   (0xA790, 0xA792, 2, 0xA791), (0xA796, 0xA7A8, 2, 0xA797), (0xA7AA, 0xA7AA, 1, 0x266),
   (0xA7AB, 0xA7AB, 1, 0x25C), (0xA7AC, 0xA7AC, 1, 0x261), (0xA7AD, 0xA7AD, 1, 0x26C),
   (0xA7AE, 0xA7AE, 1, 0x26A), (0xA7B0, 0xA7B0, 1, 0x29E), (0xA7B1, 0xA7B1, 1, 0x287),
   (0xA7B2, 0xA7B2, 1, 0x29D), (0xA7B3, 0xA7B3, 1, 0xAB53), (0xA7B4, 0xA7C2, 2, 0xA7B5),
   (0xA7C4, 0xA7C4, 1, 0xA794), (0xA7C5, 0xA7C5, 1, 0x282), (0xA7C6, 0xA7C6, 1, 0x1D8E),
   (0xA7C7, 0xA7C9, 2, 0xA7C8), (0xA7D0, 0xA7D0, 1, 0xA7D1), (0xA7D6, 0xA7D8, 2, 0xA7D7),
   (0xA7F5, 0xA7F5, 1, 0xA7F6), (0xFF21, 0xFF3A, 1, 0xFF41), (0x10400, 0x10427, 1, 0x10428),
   (0x104B0, 0x104D3, 1, 0x104D8), (0x10570, 0x1057A, 1, 0x10597), (0x1057C, 0x1058A, 1, 0x105A3),
   (0x1058C, 0x10592, 1, 0x105B3), (0x10594, 0x10595, 1, 0x105BB), (0x10C80, 0x10CB2, 1, 0x10CC0),
   (0x118A0, 0x118BF, 1, 0x118C0), (0x16E40, 0x16E5F, 1, 0x16E60), (0x1E900, 0x1E921, 1, 0x1E922)]

/-- The code points with the property `Cased`, as ranges `(first, last)`. -/
def casedRanges : List (Nat × Nat) :=
  [(0x41, 0x5A), (0x61, 0x7A), (0xAA, 0xAA), (0xB5, 0xB5), (0xBA, 0xBA), (0xC0, 0xD6),
   (0xD8, 0xF6), (0xF8, 0x1BA), (0x1BC, 0x1BF), (0x1C4, 0x293), (0x295, 0x2B8), (0x2C0, 0x2C1),
   (0x2E0, 0x2E4), (0x345, 0x345), (0x370, 0x373), (0x376, 0x377), (0x37A, 0x37D), (0x37F, 0x37F),
   (0x386, 0x386), (0x388, 0x38A), (0x38C, 0x38C), (0x38E, 0x3A1), (0x3A3, 0x3F5), (0x3F7, 0x481),
   (0x48A, 0x52F), (0x531, 0x556), (0x560, 0x588), (0x10A0, 0x10C5), (0x10C7, 0x10C7),
   (0x10CD, 0x10CD), (0x10D0, 0x10FA), (0x10FD, 0x10FF), (0x13A0, 0x13F5), (0x13F8, 0x13FD),
   (0x1C80, 0x1C88), (0x1C90, 0x1CBA), (0x1CBD, 0x1CBF), (0x1D00, 0x1DBF), (0x1E00, 0x1F15),
   (0x1F18, 0x1F1D), (0x1F20, 0x1F45), (0x1F48, 0x1F4D), (0x1F50, 0x1F57), (0x1F59, 0x1F59),
   (0x1F5B, 0x1F5B), (0x1F5D, 0x1F5D), (0x1F5F, 0x1F7D), (0x1F80, 0x1FB4), (0x1FB6, 0x1FBC),
   (0x1FBE, 0x1FBE), (0x1FC2, 0x1FC4), (0x1FC6, 0x1FCC), (0x1FD0, 0x1FD3), (0x1FD6, 0x1FDB),
   (0x1FE0, 0x1FEC), (0x1FF2, 0x1FF4), (0x1FF6, 0x1FFC), (0x2071, 0x2071), (0x207F, 0x207F),
   (0x2090, 0x209C), (0x2102, 0x2102), (0x2107, 0x2107), (0x210A, 0x2113), (0x2115, 0x2115),
   (0x2119, 0x211D), (0x2124, 0x2124), (0x2126, 0x2126), (0x2128, 0x2128), (0x212A, 0x212D),
   (0x212F, 0x2134), (0x2139, 0x2139), (0x213C, 0x213F), (0x2145, 0x2149), (0x214E, 0x214E),
   (0x2160, 0x217F), (0x2183, 0x2184), (0x24B6, 0x24E9), (0x2C00, 0x2CE4), (0x2CEB, 0x2CEE),
   (0x2CF2, 0x2CF3), (0x2D00, 0x2D25), (0x2D27, 0x2D27), (0x2D2D, 0x2D2D), (0xA640, 0xA66D),
   (0xA680, 0xA69D), (0xA722, 0xA787), (0xA78B, 0xA78E), (0xA790, 0xA7CA), (0xA7D0, 0xA7D1),
   (0xA7D3, 0xA7D3), (0xA7D5, 0xA7D9), (0xA7F5, 0xA7F6), (0xA7F8, 0xA7FA), (0xAB30, 0xAB5A),
   (0xAB5C, 0xAB68), (0xAB70, 0xABBF), (0xFB00, 0xFB06), (0xFB13, 0xFB17), (0xFF21, 0xFF3A),
   (0xFF41, 0xFF5A), (0x10400, 0x1044F), (0x104B0, 0x104D3), (0x104D8, 0x104FB),
   (0x10570, 0x1057A), (0x1057C, 0x1058A), (0x1058C, 0x10592), (0x10594, 0x10595),
   (0x10597, 0x105A1), (0x105A3, 0x105B1), (0x105B3, 0x105B9), (0x105BB, 0x105BC),
   (0x10780, 0x10780), (0x10783, 0x10785), (0x10787, 0x107B0), (0x107B2, 0x107BA),
   (0x10C80, 0x10CB2), (0x10CC0, 0x10CF2), (0x118A0, 0x118DF), (0x16E40, 0x16E7F),
   (0x1D400, 0x1D454), (0x1D456, 0x1D49C), (0x1D49E, 0x1D49F), (0x1D4A2, 0x1D4A2),
   (0x1D4A5, 0x1D4A6), (0x1D4A9, 0x1D4AC), (0x1D4AE, 0x1D4B9), (0x1D4BB, 0x1D4BB),
   (0x1D4BD, 0x1D4C3), (0x1D4C5, 0x1D505), (0x1D507, 0x1D50A), (0x1D50D, 0x1D514),
   (0x1D516, 0x1D51C), (0x1D51E, 0x1D539), (0x1D53B, 0x1D53E), (0x1D540, 0x1D544),
   (0x1D546, 0x1D546), (0x1D54A, 0x1D550), (0x1D552, 0x1D6A5), (0x1D6A8, 0x1D6C0),
   (0x1D6C2, 0x1D6DA), (0x1D6DC, 0x1D6FA), (0x1D6FC, 0x1D714), (0x1D716, 0x1D734),
   (0x1D736, 0x1D74E), (0x1D750, 0x1D76E), (0x1D770, 0x1D788), (0x1D78A, 0x1D7A8),
   (0x1D7AA, 0x1D7C2), (0x1D7C4, 0x1D7CB), (0x1DF00, 0x1DF09), (0x1DF0B, 0x1DF1E),
   (0x1E900, 0x1E943), (0x1F130, 0x1F149), (0x1F150, 0x1F169), (0x1F170, 0x1F189)]

/-- The code points with the property `Case_Ignorable`, as ranges `(first, last)`. -/
def caseIgnorableRanges : List (Nat × Nat) :=
  [(0x27, 0x27), (0x2E, 0x2E), (0x3A, 0x3A), (0x5E, 0x5E), (0x60, 0x60), (0xA8, 0xA8),
   (0xAD, 0xAD), (0xAF, 0xAF), (0xB4, 0xB4), (0xB7, 0xB8), (0x2B0, 0x36F), (0x374, 0x375),
   (0x37A, 0x37A), (0x384, 0x385), (0x387, 0x387), (0x483, 0x489), (0x559, 0x559), (0x55F, 0x55F),
   (0x591, 0x5BD), (0x5BF, 0x5BF), (0x5C1, 0x5C2), (0x5C4, 0x5C5), (0x5C7, 0x5C7), (0x5F4, 0x5F4),
   (0x600, 0x605), (0x610, 0x61A), (0x61C, 0x61C), (0x640, 0x640), (0x64B, 0x65F), (0x670, 0x670),
   (0x6D6, 0x6DD), (0x6DF, 0x6E8), (0x6EA, 0x6ED), (0x70F, 0x70F), (0x711, 0x711), (0x730, 0x74A),
   (0x7A6, 0x7B0), (0x7EB, 0x7F5), (0x7FA, 0x7FA), (0x7FD, 0x7FD), (0x816, 0x82D), (0x859, 0x85B),
   (0x888, 0x888), (0x890, 0x891), (0x898, 0x89F), (0x8C9, 0x902), (0x93A, 0x93A), (0x93C, 0x93C),
   (0x941, 0x948), (0x94D, 0x94D), (0x951, 0x957), (0x962, 0x963), (0x971, 0x971), (0x981, 0x981),
   (0x9BC, 0x9BC), (0x9C1, 0x9C4), (0x9CD, 0x9CD), (0x9E2, 0x9E3), (0x9FE, 0x9FE), (0xA01, 0xA02),
   (0xA3C, 0xA3C), (0xA41, 0xA42), (0xA47, 0xA48), (0xA4B, 0xA4D), (0xA51, 0xA51), (0xA70, 0xA71),
   (0xA75, 0xA75), (0xA81, 0xA82), (0xABC, 0xABC), (0xAC1, 0xAC5), (0xAC7, 0xAC8), (0xACD, 0xACD),
   (0xAE2, 0xAE3), (0xAFA, 0xAFF), (0xB01, 0xB01), (0xB3C, 0xB3C), (0xB3F, 0xB3F), (0xB41, 0xB44),
   (0xB4D, 0xB4D), (0xB55, 0xB56), (0xB62, 0xB63), (0xB82, 0xB82), (0xBC0, 0xBC0), (0xBCD, 0xBCD),
   (0xC00, 0xC00), (0xC04, 0xC04), (0xC3C, 0xC3C), (0xC3E, 0xC40), (0xC46, 0xC48), (0xC4A, 0xC4D),
   (0xC55, 0xC56), (0xC62, 0xC63), (0xC81, 0xC81), (0xCBC, 0xCBC), (0xCBF, 0xCBF), (0xCC6, 0xCC6),
   (0xCCC, 0xCCD), (0xCE2, 0xCE3), (0xD00, 0xD01), (0xD3B, 0xD3C), (0xD41, 0xD44), (0xD4D, 0xD4D),
   (0xD62, 0xD63), (0xD81, 0xD81), (0xDCA, 0xDCA), (0xDD2, 0xDD4), (0xDD6, 0xDD6), (0xE31, 0xE31),
   (0xE34, 0xE3A), (0xE46, 0xE4E), (0xEB1, 0xEB1), (0xEB4, 0xEBC), (0xEC6, 0xEC6), (0xEC8, 0xECD),
   (0xF18, 0xF19), (0xF35, 0xF35), (0xF37, 0xF37), (0xF39, 0xF39), (0xF71, 0xF7E), (0xF80, 0xF84),
   (0xF86, 0xF87), (0xF8D, 0xF97), (0xF99, 0xFBC), (0xFC6, 0xFC6), (0x102D, 0x1030),
   (0x1032, 0x1037), (0x1039, 0x103A), (0x103D, 0x103E), (0x1058, 0x1059), (0x105E, 0x1060),
   (0x1071, 0x1074), (0x1082, 0x1082), (0x1085, 0x1086), (0x108D, 0x108D), (0x109D, 0x109D),
   (0x10FC, 0x10FC), (0x135D, 0x135F), (0x1712, 0x1714), (0x1732, 0x1733), (0x1752, 0x1753),
   (0x1772, 0x1773), (0x17B4, 0x17B5), (0x17B7, 0x17BD), (0x17C6, 0x17C6), (0x17C9, 0x17D3),
   (0x17D7, 0x17D7), (0x17DD, 0x17DD), (0x180B, 0x180F), (0x1843, 0x1843), (0x1885, 0x1886),
   (0x18A9, 0x18A9), (0x1920, 0x1922), (0x1927, 0x1928), (0x1932, 0x1932), (0x1939, 0x193B),
   (0x1A17, 0x1A18), (0x1A1B, 0x1A1B), (0x1A56, 0x1A56), (0x1A58, 0x1A5E), (0x1A60, 0x1A60),
   (0x1A62, 0x1A62), (0x1A65, 0x1A6C), (0x1A73, 0x1A7C), (0x1A7F, 0x1A7F), (0x1AA7, 0x1AA7),
   (0x1AB0, 0x1ACE), (0x1B00, 0x1B03), (0x1B34, 0x1B34), (0x1B36, 0x1B3A), (0x1B3C, 0x1B3C),
   (0x1B42, 0x1B42), (0x1B6B, 0x1B73), (0x1B80, 0x1B81), (0x1BA2, 0x1BA5), (0x1BA8, 0x1BA9),
   (0x1BAB, 0x1BAD), (0x1BE6, 0x1BE6), (0x1BE8, 0x1BE9), (0x1BED, 0x1BED), (0x1BEF, 0x1BF1),
   (0x1C2C, 0x1C33), (0x1C36, 0x1C37), (0x1C78, 0x1C7D), (0x1CD0, 0x1CD2), (0x1CD4, 0x1CE0),
   (0x1CE2, 0x1CE8), (0x1CED, 0x1CED), (0x1CF4, 0x1CF4), (0x1CF8, 0x1CF9), (0x1D2C, 0x1D6A),
   (0x1D78, 0x1D78), (0x1D9B, 0x1DFF), (0x1FBD, 0x1FBD), (0x1FBF, 0x1FC1), (0x1FCD, 0x1FCF),
   (0x1FDD, 0x1FDF), (0x1FED, 0x1FEF), (0x1FFD, 0x1FFE), (0x200B, 0x200F), (0x2018, 0x2019),
   (0x2024, 0x2024), (0x2027, 0x2027), (0x202A, 0x202E), (0x2060, 0x2064), (0x2066, 0x206F),
   (0x2071, 0x2071), (0x207F, 0x207F), (0x2090, 0x209C), (0x20D0, 0x20F0), (0x2C7C, 0x2C7D),
   (0x2CEF, 0x2CF1), (0x2D6F, 0x2D6F), (0x2D7F, 0x2D7F), (0x2DE0, 0x2DFF), (0x2E2F, 0x2E2F),
   (0x3005, 0x3005), (0x302A, 0x302D), (0x3031, 0x3035), (0x303B, 0x303B), (0x3099, 0x309E),
   (0x30FC, 0x30FE), (0xA015, 0xA015), (0xA4F8, 0xA4FD), (0xA60C, 0xA60C), (0xA66F, 0xA672),
   (0xA674, 0xA67D), (0xA67F, 0xA67F), (0xA69C, 0xA69F), (0xA6F0, 0xA6F1), (0xA700, 0xA721),
   (0xA770, 0xA770), (0xA788, 0xA78A), (0xA7F2, 0xA7F4), (0xA7F8, 0xA7F9), (0xA802, 0xA802),
   (0xA806, 0xA806), (0xA80B, 0xA80B), (0xA825, 0xA826), (0xA82C, 0xA82C), (0xA8C4, 0xA8C5),
   (0xA8E0, 0xA8F1), (0xA8FF, 0xA8FF), (0xA926, 0xA92D), (0xA947, 0xA951), (0xA980, 0xA982),
   (0xA9B3, 0xA9B3), (0xA9B6, 0xA9B9), (0xA9BC, 0xA9BD), (0xA9CF, 0xA9CF), (0xA9E5, 0xA9E6),
   (0xAA29, 0xAA2E), (0xAA31, 0xAA32), (0xAA35, 0xAA36), (0xAA43, 0xAA43), (0xAA4C, 0xAA4C),
   (0xAA70, 0xAA70), (0xAA7C, 0xAA7C), (0xAAB0, 0xAAB0), (0xAAB2, 0xAAB4), (0xAAB7, 0xAAB8),
   (0xAABE, 0xAABF), (0xAAC1, 0xAAC1), (0xAADD, 0xAADD), (0xAAEC, 0xAAED), (0xAAF3, 0xAAF4),
   (0xAAF6, 0xAAF6), (0xAB5B, 0xAB5F), (0xAB69, 0xAB6B), (0xABE5, 0xABE5), (0xABE8, 0xABE8),
   (0xABED, 0xABED), (0xFB1E, 0xFB1E), (0xFBB2, 0xFBC2), (0xFE00, 0xFE0F), (0xFE13, 0xFE13),
   (0xFE20, 0xFE2F), (0xFE52, 0xFE52), (0xFE55, 0xFE55), (0xFEFF, 0xFEFF), (0xFF07, 0xFF07),
   (0xFF0E, 0xFF0E), (0xFF1A, 0xFF1A), (0xFF3E, 0xFF3E), (0xFF40, 0xFF40), (0xFF70, 0xFF70),
   (0xFF9E, 0xFF9F), (0xFFE3, 0xFFE3), (0xFFF9, 0xFFFB), (0x101FD, 0x101FD), (0x102E0, 0x102E0),
   (0x10376, 0x1037A), (0x10780, 0x10785), (0x10787, 0x107B0), (0x107B2, 0x107BA),
   (0x10A01, 0x10A03), (0x10A05, 0x10A06), (0x10A0C, 0x10A0F), (0x10A38, 0x10A3A),
   (0x10A3F, 0x10A3F), (0x10AE5, 0x10AE6), (0x10D24, 0x10D27), (0x10EAB, 0x10EAC),
   (0x10F46, 0x10F50), (0x10F82, 0x10F85), (0x11001, 0x11001), (0x11038, 0x11046),
   (0x11070, 0x11070), (0x11073, 0x11074), (0x1107F, 0x11081), (0x110B3, 0x110B6),
   (0x110B9, 0x110BA), (0x110BD, 0x110BD), (0x110C2, 0x110C2), (0x110CD, 0x110CD),
   (0x11100, 0x11102), (0x11127, 0x1112B), (0x1112D, 0x11134), (0x11173, 0x11173),
   (0x11180, 0x11181), (0x111B6, 0x111BE), (0x111C9, 0x111CC), (0x111CF, 0x111CF),
   (0x1122F, 0x11231), (0x11234, 0x11234), (0x11236, 0x11237), (0x1123E, 0x1123E),
   (0x112DF, 0x112DF), (0x112E3, 0x112EA), (0x11300, 0x11301), (0x1133B, 0x1133C),
   (0x11340, 0x11340), (0x11366, 0x1136C), (0x11370, 0x11374), (0x11438, 0x1143F),
   (0x11442, 0x11444), (0x11446, 0x11446), (0x1145E, 0x1145E), (0x114B3, 0x114B8),
   (0x114BA, 0x114BA), (0x114BF, 0x114C0), (0x114C2, 0x114C3), (0x115B2, 0x115B5),
   (0x115BC, 0x115BD), (0x115BF, 0x115C0), (0x115DC, 0x115DD), (0x11633, 0x1163A),
   (0x1163D, 0x1163D), (0x1163F, 0x11640), (0x116AB, 0x116AB), (0x116AD, 0x116AD),
   (0x116B0, 0x116B5), (0x116B7, 0x116B7), (0x1171D, 0x1171F), (0x11722, 0x11725),
   (0x11727, 0x1172B), (0x1182F, 0x11837), (0x11839, 0x1183A), (0x1193B, 0x1193C),
   (0x1193E, 0x1193E), (0x11943, 0x11943), (0x119D4, 0x119D7), (0x119DA, 0x119DB),
   (0x119E0, 0x119E0), (0x11A01, 0x11A0A), (0x11A33, 0x11A38), (0x11A3B, 0x11A3E),
   (0x11A47, 0x11A47), (0x11A51, 0x11A56), (0x11A59, 0x11A5B), (0x11A8A, 0x11A96),
   (0x11A98, 0x11A99), (0x11C30, 0x11C36), (0x11C38, 0x11C3D), (0x11C3F, 0x11C3F),
   (0x11C92, 0x11CA7), (0x11CAA, 0x11CB0), (0x11CB2, 0x11CB3), (0x11CB5, 0x11CB6),
   (0x11D31, 0x11D36), (0x11D3A, 0x11D3A), (0x11D3C, 0x11D3D), (0x11D3F, 0x11D45),
   (0x11D47, 0x11D47), (0x11D90, 0x11D91), (0x11D95, 0x11D95), (0x11D97, 0x11D97),
   (0x11EF3, 0x11EF4), (0x13430, 0x13438), (0x16AF0, 0x16AF4), (0x16B30, 0x16B36),
   (0x16B40, 0x16B43), (0x16F4F, 0x16F4F), (0x16F8F, 0x16F9F), (0x16FE0, 0x16FE1),
   (0x16FE3, 0x16FE4), (0x1AFF0, 0x1AFF3), (0x1AFF5, 0x1AFFB), (0x1AFFD, 0x1AFFE),
   (0x1BC9D, 0x1BC9E), (0x1BCA0, 0x1BCA3), (0x1CF00, 0x1CF2D), (0x1CF30, 0x1CF46),
   (0x1D167, 0x1D169), (0x1D173, 0x1D182), (0x1D185, 0x1D18B), (0x1D1AA, 0x1D1AD),
   (0x1D242, 0x1D244), (0x1DA00, 0x1DA36), (0x1DA3B, 0x1DA6C), (0x1DA75, 0x1DA75),
   (0x1DA84, 0x1DA84), (0x1DA9B, 0x1DA9F), (0x1DAA1, 0x1DAAF), (0x1E000, 0x1E006),
   (0x1E008, 0x1E018), (0x1E01B, 0x1E021), (0x1E023, 0x1E024), (0x1E026, 0x1E02A),
   (0x1E130, 0x1E13D), (0x1E2AE, 0x1E2AE), (0x1E2EC, 0x1E2EF), (0x1E8D0, 0x1E8D6),
   (0x1E944, 0x1E94B), (0x1F3FB, 0x1F3FF), (0xE0001, 0xE0001), (0xE0020, 0xE007F),
   (0xE0100, 0xE01EF)]

/-- Whether `n` lies in one of the ranges. -/
def inRanges (ranges : List (Nat × Nat)) (n : Nat) : Bool :=
  ranges.any (fun r => r.1 ≤ n && n ≤ r.2)

/-- The simple lowercase mapping of a code point above U+007F. -/
def simpleLowerCase (n : Nat) : Nat :=
  match lowerCaseRanges.find? (fun r => r.1 ≤ n && n ≤ r.2.1 && (n - r.1) % r.2.2.1 == 0) with
  | some r => r.2.2.2 + (n - r.1)
  | none => n

/-- The property `Cased` of a character. -/
def isCased (c : Char) : Bool :=
  inRanges casedRanges c.toNat

/-- The property `Case_Ignorable` of a character. -/
def isCaseIgnorable (c : Char) : Bool :=
  inRanges caseIgnorableRanges c.toNat

/-- Whether the list starts with a cased letter after any number of case-ignorable
characters. -/
def startsWithCasedLetter : List Char → Bool
  | [] => false
  | c :: cs => if isCaseIgnorable c then startsWithCasedLetter cs else isCased c

/-- The lowercase mapping of the character `c` that stands after the characters `before`
(the nearest first) and in front of the characters `after`.  A capital sigma (U+03A3) becomes
the final sigma when a cased letter stands before it and none after it, case-ignorable
characters skipped; the capital I with dot above (U+0130) becomes two characters. -/
def lowerCaseAt (before : List Char) (c : Char) (after : List Char) : List Char :=
  if c.toNat < 0x80 then [c.toLower]
  else if c.toNat = 0x3A3 then
    if startsWithCasedLetter before && !startsWithCasedLetter after then [Char.ofNat 0x3C2]
    else [Char.ofNat 0x3C3]
  else if c.toNat = 0x130 then [Char.ofNat 0x69, Char.ofNat 0x307]
  else [Char.ofNat (simpleLowerCase c.toNat)]

/-- Worker of `toLowerCase`: `before` holds the characters already passed, the nearest
first. -/
def toLowerCaseAux (before : List Char) : List Char → List Char
  | [] => []
  | c :: cs => lowerCaseAt before c cs ++ toLowerCaseAux (c :: before) cs

/-- `s.toLowerCase()`: the default case conversion of the Unicode Standard. -/
def toLowerCase (s : JsString) : JsString :=
  toLowerCaseAux [] s

/-- The UTF-16 code units of a character: one unit below U+10000, a surrogate pair from there
on. -/
def codeUnitsOf (c : Char) : List Nat :=
  if c.toNat < 0x10000 then [c.toNat]
  else [0xD800 + (c.toNat - 0x10000) / 0x400, 0xDC00 + (c.toNat - 0x10000) % 0x400]

/-- The UTF-16 code units of a string. -/
def toCodeUnits (s : JsString) : List Nat :=
  s.flatMap codeUnitsOf

/-- `s.length`: the number of UTF-16 code units of the string. -/
def utf16Length (s : JsString) : Nat :=
  (toCodeUnits s).length

/-- Worker of `splitRegex`: `cur` holds the piece being read, reversed, and `inSep` tells whether
the previous character belonged to a separator run. -/
def splitRegexAux (sep : Char → Bool) : List Char → List Char → Bool → List JsString
  | [], cur, _ => [cur.reverse]
  | c :: cs, cur, inSep =>
    if sep c then
      if inSep then splitRegexAux sep cs cur true
      else cur.reverse :: splitRegexAux sep cs [] true
    else splitRegexAux sep cs (c :: cur) false

/-- `s.split(/[...]+/)` for a character class given as a predicate: the pieces between maximal
runs of separator characters, an empty piece included where the string starts or ends with a
run. -/
def splitRegex (sep : Char → Bool) (s : JsString) : List JsString :=
  splitRegexAux sep s [] false

/-- `s.split(/\s+/)`. -/
def splitWhitespace (s : JsString) : List JsString :=
  splitRegex isWhiteSpace s

/-- `s.trim()`. -/
def trim (s : JsString) : JsString :=
  ((s.dropWhile isWhiteSpace).reverse.dropWhile isWhiteSpace).reverse

/-- `s.startsWith(p)`. -/
def startsWith (s p : JsString) : Bool :=
  p.isPrefixOf s

/-- `s.includes(p)`. -/
def includes : JsString → JsString → Bool
  | [], p => p.isEmpty
  | c :: cs, p => startsWith (c :: cs) p || includes cs p

/-- Worker of `splitString`: `skip` counts the characters of a matched separator still to be
passed over, `cur` holds the piece being read, reversed. -/
def splitStringAux (sep : JsString) : List Char → Nat → List Char → List JsString
  | [], _, cur => [cur.reverse]
  | _ :: cs, skip + 1, cur => splitStringAux sep cs skip cur
  | c :: cs, 0, cur =>
    if startsWith (c :: cs) sep then cur.reverse :: splitStringAux sep cs (sep.length - 1) []
    else splitStringAux sep cs 0 (c :: cur)

/-- `s.split(sep)` for a non-empty string separator: the scan goes left to right and resumes
after each separator found. -/
def splitString (s sep : JsString) : List JsString :=
  splitStringAux sep s 0 []

/-- Every index at which `p` occurs in `s`, counted from `i` for the head of `s`: the indexes
visited by a loop `pos = s.indexOf(p); while (pos !== -1) pos = s.indexOf(p, pos + 1)`. -/
def indexesOf (p : JsString) : JsString → Nat → List Nat
  | [], i => if p.isEmpty then [i] else []
  | c :: cs, i => (if startsWith (c :: cs) p then [i] else []) ++ indexesOf p cs (i + 1)

/-- `[...new Set(xs)]`: the distinct elements in order of first appearance. -/
def uniqueElements : List JsString → List JsString
  | [] => []
  | x :: xs => x :: (uniqueElements xs).filter (fun y => y != x)

/-! ## Values -/

/-- A JSON value: what a payload of the socket, a field of it, or a response body of the
upstream service can be.  A number is held with an integer value: the code tests a number for
truth, hands it on, or converts it to a string where the digits make no difference (a key
that no table has, a text without a tag). -/
inductive Json where
  | null
  | bool (b : Bool)
  | num (n : Int)
  | str (s : JsString)
  | arr (items : List Json)
  | obj (fields : List (String × Json))


mutual
/-- Equality of JSON values can be decided. -/
def Json.decEq : (a b : Json) → Decidable (a = b)
  | .null, .null => isTrue rfl
  | .null, .bool _ => isFalse (fun h => Json.noConfusion h)
  | .null, .num _ => isFalse (fun h => Json.noConfusion h)
  | .null, .str _ => isFalse (fun h => Json.noConfusion h)
  | .null, .arr _ => isFalse (fun h => Json.noConfusion h)
  | .null, .obj _ => isFalse (fun h => Json.noConfusion h)
  | .bool _, .null => isFalse (fun h => Json.noConfusion h)
  | .bool x, .bool y =>
    if h : x = y then isTrue (congrArg Json.bool h)
    else isFalse (fun h2 => h (Json.bool.inj h2))
  | .bool _, .num _ => isFalse (fun h => Json.noConfusion h)
  | .bool _, .str _ => isFalse (fun h => Json.noConfusion h)
  | .bool _, .arr _ => isFalse (fun h => Json.noConfusion h)
  | .bool _, .obj _ => isFalse (fun h => Json.noConfusion h)
  | .num _, .null => isFalse (fun h => Json.noConfusion h)
  | .num _, .bool _ => isFalse (fun h => Json.noConfusion h)
  | .num x, .num y =>
    if h : x = y then isTrue (congrArg Json.num h)
    else isFalse (fun h2 => h (Json.num.inj h2))
  | .num _, .str _ => isFalse (fun h => Json.noConfusion h)
  | .num _, .arr _ => isFalse (fun h => Json.noConfusion h)
  | .num _, .obj _ => isFalse (fun h => Json.noConfusion h)
  | .str _, .null => isFalse (fun h => Json.noConfusion h)
  | .str _, .bool _ => isFalse (fun h => Json.noConfusion h)
  | .str _, .num _ => isFalse (fun h => Json.noConfusion h)
  | .str x, .str y =>
    if h : x = y then isTrue (congrArg Json.str h)
    else isFalse (fun h2 => h (Json.str.inj h2))
  | .str _, .arr _ => isFalse (fun h => Json.noConfusion h)
  | .str _, .obj _ => isFalse (fun h => Json.noConfusion h)
  | .arr _, .null => isFalse (fun h => Json.noConfusion h)
  | .arr _, .bool _ => isFalse (fun h => Json.noConfusion h)
  | .arr _, .num _ => isFalse (fun h => Json.noConfusion h)
  | .arr _, .str _ => isFalse (fun h => Json.noConfusion h)
  | .arr x, .arr y =>
    match Json.decEqList x y with
    | isTrue h => isTrue (congrArg Json.arr h)
    | isFalse h => isFalse (fun h2 => h (Json.arr.inj h2))
  | .arr _, .obj _ => isFalse (fun h => Json.noConfusion h)
  | .obj _, .null => isFalse (fun h => Json.noConfusion h)
  | .obj _, .bool _ => isFalse (fun h => Json.noConfusion h)
  | .obj _, .num _ => isFalse (fun h => Json.noConfusion h)
  | .obj _, .str _ => isFalse (fun h => Json.noConfusion h)
  | .obj _, .arr _ => isFalse (fun h => Json.noConfusion h)
  | .obj x, .obj y =>
    match Json.decEqFields x y with
    | isTrue h => isTrue (congrArg Json.obj h)
    | isFalse h => isFalse (fun h2 => h (Json.obj.inj h2))
/-- Equality of lists of JSON values. -/
def Json.decEqList : (a b : List Json) → Decidable (a = b)
  | [], [] => isTrue rfl
  | [], _ :: _ => isFalse (fun h => List.noConfusion h)
  | _ :: _, [] => isFalse (fun h => List.noConfusion h)
  | x :: xs, y :: ys =>
    match Json.decEq x y, Json.decEqList xs ys with
    | isTrue h1, isTrue h2 => isTrue (by rw [h1, h2])
    | isFalse h1, _ => isFalse (fun h => h1 (List.cons.inj h).1)
    | _, isFalse h2 => isFalse (fun h => h2 (List.cons.inj h).2)
/-- Equality of lists of properties. -/
def Json.decEqFields : (a b : List (String × Json)) → Decidable (a = b)
  | [], [] => isTrue rfl
  | [], _ :: _ => isFalse (fun h => List.noConfusion h)
  | _ :: _, [] => isFalse (fun h => List.noConfusion h)
  | (k, x) :: xs, (l, y) :: ys =>
    if hk : k = l then
      match Json.decEq x y, Json.decEqFields xs ys with
      | isTrue h1, isTrue h2 => isTrue (by rw [hk, h1, h2])
      | isFalse h1, _ => isFalse (fun h => h1 (Prod.mk.inj (List.cons.inj h).1).2)
      | _, isFalse h2 => isFalse (fun h => h2 (List.cons.inj h).2)
    else isFalse (fun h => hk (Prod.mk.inj (List.cons.inj h).1).1)
end

instance : DecidableEq Json :=
  Json.decEq


/-- The property `key` of a JSON object, `none` when the value has no such property. -/
def Json.get (key : String) : Json → Option Json
  | .obj fields => (fields.find? (fun kv => kv.1 == key)).map (fun kv => kv.2)
  | _ => none

/-- The element `i` of a JSON array, `none` when there is none. -/
def Json.index (i : Nat) : Json → Option Json
  | .arr items => items.get? i
  | _ => none

/-- The decimal numeral of a natural number. -/
def natToString (n : Nat) : JsString :=
  Nat.toDigits 10 n

/-- The decimal numeral of an integer. -/
def intToString : Int → JsString
  | .ofNat n => natToString n
  | .negSucc n => '-' :: natToString (n + 1)

/-- The truth value of a JSON value. -/
def Json.truthy : Json → Bool
  | .null => false
  | .bool b => b
  | .num n => decide (n ≠ 0)
  | .str s => !s.isEmpty
  | .arr _ => true
  | .obj _ => true

/-- The property `0` of a value that is not `null`: the first element of an array, the start
of a string (of which the code reads no more than that it is there), the property named `0`
of an object. -/
def Json.first : Json → Option Json
  | .arr items => items.head?
  | .str s => s.head?.map (fun c => .str [c])
  | .obj fields => (fields.find? (fun kv => kv.1 == "0")).map (fun kv => kv.2)
  | _ => none

mutual
/-- The conversion of a value to a string, `none` when it throws a `TypeError`: an object
with an own property `toString`, which is not a function, cannot be converted. -/
def Json.toJsString : Json → Option JsString
  | .null => some "null".toList
  | .bool b => some (if b then "true".toList else "false".toList)
  | .num n => some (intToString n)
  | .str s => some s
  | .arr items => Json.joinElements items
  | .obj fields =>
    if fields.any (fun kv => kv.1 == "toString") then none else some "[object Object]".toList
/-- `items.join(',')`. -/
def Json.joinElements : List Json → Option JsString
  | [] => some []
  | x :: xs =>
    match Json.elementToJsString x, Json.joinElements xs with
    | some a, some b => some (if xs.isEmpty then a else a ++ ',' :: b)
    | _, _ => none
/-- The text of one element inside `join`: `null` gives the empty string. -/
def Json.elementToJsString : Json → Option JsString
  | .null => some []
  | .bool b => some (if b then "true".toList else "false".toList)
  | .num n => some (intToString n)
  | .str s => some s
  | .arr items => Json.joinElements items
  | .obj fields =>
    if fields.any (fun kv => kv.1 == "toString") then none else some "[object Object]".toList
end

/-- `value === s` for a string `s`. -/
def Json.strictEquals (value : Json) (s : JsString) : Bool :=
  match value with
  | .str t => decide (t = s)
  | _ => false

/-- A `TypeError` raised by the runtime, with its message. -/
structure TypeError where
  message : JsString
  deriving DecidableEq, Repr

/-- The receiver of a call `name.method(...)` of a string method.  A value that is not a
string has no such method (a property of a JSON value is never a function), and the call
throws. -/
def stringReceiver (name method : JsString) (value : Json) : Except TypeError JsString :=
  match value with
  | .str s => .ok s
  | .null =>
    .error ⟨"Cannot read properties of null (reading '".toList ++ method ++ "')".toList⟩
  | _ => .error ⟨name ++ '.' :: method ++ " is not a function".toList⟩

/-! ## Heuristic speech analyzer -/

/-- An entry of `grammarIssues`. -/
structure GrammarIssue where
  type : JsString
  issue : JsString
  suggestion : JsString
  severity : JsString
  deriving DecidableEq, Repr

/-- The issue pushed for a lowercase standalone "i". -/
def capitalizationIssue : GrammarIssue :=
  { type := "capitalization".toList
    issue := "The pronoun \"I\" should always be capitalized".toList
    suggestion := "Remember to capitalize \"I\" when referring to yourself".toList
    severity := "minor".toList }

/-- The issue pushed for a subject followed by "are". -/
def subjectVerbIssue : GrammarIssue :=
  { type := "subject_verb_agreement".toList
    issue := "Subject-verb disagreement detected".toList
    suggestion := "Use \"am\" with \"I\", \"is\" with \"he/she/it\", \"are\" with \"you/we/they\"".toList
    severity := "major".toList }

/-- The issue pushed for more than one negative marker. -/
def doubleNegativeIssue : GrammarIssue :=
  { type := "double_negative".toList
    issue := "Avoid using double negatives in English".toList
    suggestion := "Use only one negative word per clause".toList
    severity := "major".toList }

/-- The list `negatives` of `analyzeGrammar`. -/
def negatives : List JsString :=
  ["not".toList, "no".toList, "never".toList, "nothing".toList, "nobody".toList,
    "nowhere".toList]

/-- `text.split(/[.!?]+/).filter(s => s.trim().length > 0)`. -/
def sentencesOf (text : JsString) : List JsString :=
  (splitRegex isSentenceEnd text).filter (fun s => decide ((trim s).length > 0))

/-- `negatives.reduce((count, neg) => count + (trimmed.split(neg).length - 1), 0)`. -/
def negativeCount (trimmed : JsString) : Nat :=
  negatives.foldl (fun count neg => count + ((splitString trimmed neg).length - 1)) 0

/-- The capitalization check of one sentence (already trimmed and lower-cased). -/
def capitalizationCheck (trimmed : JsString) : List GrammarIssue :=
  if includes trimmed " i ".toList && !startsWith trimmed "i ".toList then
    let iPositions := (indexesOf " i ".toList trimmed 0).map (fun pos => pos + 1)
    if iPositions.length > 0 then [capitalizationIssue] else []
  else []

/-- The subject-verb agreement check of one sentence. -/
def subjectVerbCheck (trimmed : JsString) : List GrammarIssue :=
  if includes trimmed " are ".toList
      && (includes trimmed " i are ".toList || includes trimmed " he are ".toList
        || includes trimmed " she are ".toList) then
    [subjectVerbIssue]
  else []

/-- The double-negative check of one sentence. -/
def doubleNegativeCheck (trimmed : JsString) : List GrammarIssue :=
  if negativeCount trimmed > 1 then [doubleNegativeIssue] else []

/-- The body of the `forEach` callback of `analyzeGrammar`: the issues pushed for one
sentence, in the order they are pushed. -/
def sentenceIssues (sentence : JsString) : List GrammarIssue :=
  let trimmed := toLowerCase (trim sentence)
  capitalizationCheck trimmed ++ subjectVerbCheck trimmed ++ doubleNegativeCheck trimmed

/-- `analyzeGrammar(text)`. -/
def analyzeGrammar (text : JsString) : List GrammarIssue :=
  (sentencesOf text).flatMap sentenceIssues

/-- The list `basicWords` of `assessVocabularyLevel`. -/
def basicWords : List JsString :=
  ["the", "a", "an", "and", "or", "but", "is", "are", "was", "were", "have", "has", "had", "do",
    "does", "did", "will", "would", "can", "could", "should", "may", "might", "must"].map
    String.toList

/-- The list `intermediateWords` of `assessVocabularyLevel`. -/
def intermediateWords : List JsString :=
  ["although", "however", "therefore", "furthermore", "nevertheless", "consequently",
    "specifically", "particularly", "especially"].map String.toList

/-- The list `advancedWords` of `assessVocabularyLevel`. -/
def advancedWords : List JsString :=
  ["notwithstanding", "subsequently", "predominantly", "substantially", "comprehensively",
    "systematically"].map String.toList

/-- `text.toLowerCase().split(/\s+/)`, the token list of the vocabulary, pronunciation and
fluency functions. -/
def wordsOf (text : JsString) : List JsString :=
  splitWhitespace (toLowerCase text)

/-- `words.filter(word => list.includes(word)).length`. -/
def countIn (list words : List JsString) : Nat :=
  (words.filter (fun word => decide (word ∈ list))).length

/-- `intermediateCount / totalWords` of `assessVocabularyLevel`. -/
def intermediateRatio (text : JsString) : ℚ :=
  (countIn intermediateWords (wordsOf text) : ℚ) / ((wordsOf text).length : ℚ)

/-- `advancedCount / totalWords` of `assessVocabularyLevel`. -/
def advancedRatio (text : JsString) : ℚ :=
  (countIn advancedWords (wordsOf text) : ℚ) / ((wordsOf text).length : ℚ)

/-- `assessVocabularyLevel(text, targetLevel)`.  The target level, the unique-word list and the
basic-word ratio are computed by the source and never read. -/
def assessVocabularyLevel (text : JsString) (_targetLevel : Json) : JsString :=
  if advancedRatio text > 1 / 10 then "advanced".toList
  else if intermediateRatio text > 5 / 100 then "intermediate".toList
  else "beginner".toList

/-- The value found under a key of the object `difficultWords`. -/
inductive Tip where
  /-- One of the six tips of the object literal. -/
  | text (s : JsString)
  /-- The value of `difficultWords['constructor']`, inherited from `Object.prototype`. -/
  | objectConstructor
  /-- The value of `difficultWords['__proto__']`, the prototype object. -/
  | objectPrototype
  deriving DecidableEq, Repr

/-- `difficultWords[cleanWord]`, `none` when the lookup is `undefined`.  A lower-cased key
reaches two properties inherited from `Object.prototype`. -/
def difficultWords (cleanWord : JsString) : Option Tip :=
  if cleanWord = "through".toList then
    some (.text "pronounced as \"throo\", not \"throw\"".toList)
  else if cleanWord = "thought".toList then
    some (.text "pronounced as \"thawt\", with the \"th\" sound".toList)
  else if cleanWord = "three".toList then
    some (.text "practice the \"th\" sound at the beginning".toList)
  else if cleanWord = "world".toList then
    some (.text "pronounced as \"wurld\", not \"word\"".toList)
  else if cleanWord = "work".toList then
    some (.text "pronounced as \"wurk\", with a clear \"r\" sound".toList)
  else if cleanWord = "comfortable".toList then
    some (.text "pronounced as \"KUHM-fər-tə-bəl\", four syllables".toList)
  else if cleanWord = "constructor".toList then some .objectConstructor
  else if cleanWord = "__proto__".toList then some .objectPrototype
  else none

/-- An entry of `pronunciationConcerns`. -/
structure PronunciationConcern where
  word : JsString
  tip : Tip
  type : JsString
  deriving DecidableEq, Repr

/-- `identifyPronunciationConcerns(text)`. -/
def identifyPronunciationConcerns (text : JsString) : List PronunciationConcern :=
  (wordsOf text).filterMap (fun word =>
    let cleanWord := word.filter isWordChar
    (difficultWords cleanWord).map (fun tip =>
      { word := cleanWord, tip := tip, type := "pronunciation".toList }))

/-- The list `complexMarkers` of `calculateFluencyScore`. -/
def complexMarkers : List JsString :=
  ["although", "because", "since", "while", "whereas", "however", "therefore"].map String.toList

/-- `uniqueWords.length / words.length` of `calculateFluencyScore`. -/
def varietyRatio (text : JsString) : ℚ :=
  ((uniqueElements (wordsOf text)).length : ℚ) / ((wordsOf text).length : ℚ)

/-- `calculateFluencyScore(text, wordCount)`. -/
def calculateFluencyScore (text : JsString) (wordCount : Nat) : Int :=
  let score : Int := 50
  let score := if wordCount > 20 then score + 20
    else if wordCount > 10 then score + 10
    else if wordCount < 5 then score - 20
    else score
  let hasComplexStructure := complexMarkers.any (fun marker => includes (toLowerCase text) marker)
  let score := if hasComplexStructure then score + 15 else score
  let score := if varietyRatio text > 8 / 10 then score + 10
    else if varietyRatio text < 6 / 10 then score - 10
    else score
  min 100 (max 0 score)

/-- The analysis record built by `analyzeSpeechForLearning`; `error` is `none` while the
property is not set. -/
structure SpeechAnalysis where
  originalText : JsString
  wordCount : Nat
  sentenceCount : Nat
  grammarIssues : List GrammarIssue
  vocabularyLevel : JsString
  pronunciationConcerns : List PronunciationConcern
  fluencyScore : Int
  suggestions : List JsString
  error : Option JsString
  deriving DecidableEq, Repr

/-- `generateLearningSuggestions(analysis, learningMode, difficultyLevel)`.  The mode and the
level are compared with `===` and `!==`, which no value makes throw. -/
def generateLearningSuggestions (analysis : SpeechAnalysis) (learningMode difficultyLevel : Json) :
    List JsString :=
  (if learningMode.strictEquals "grammar".toList ∧ analysis.grammarIssues.length > 0 then
      ["Focus on the grammar corrections provided above".toList] else [])
  ++ (if learningMode.strictEquals "vocabulary".toList
        ∧ ¬ difficultyLevel.strictEquals analysis.vocabularyLevel then
      (if analysis.vocabularyLevel = "beginner".toList
          ∧ difficultyLevel.strictEquals "intermediate".toList
        then ["Try using more complex vocabulary and linking words".toList] else [])
      else [])
  ++ (if learningMode.strictEquals "fluency".toList ∧ analysis.fluencyScore < 70 then
      ["Try speaking in longer sentences and using connecting words".toList] else [])
  ++ (if analysis.wordCount < 10 then
      ["Try to elaborate more on your thoughts - give examples or details".toList] else [])

/-- The call `analyzeGrammar(text)` for any value `text`: the function starts with
`text.split(...)`. -/
def analyzeGrammar.call (text : Json) : Except TypeError (List GrammarIssue) :=
  (stringReceiver "text".toList "split".toList text).map analyzeGrammar

/-- The call `assessVocabularyLevel(text, targetLevel)` for any value `text`: the function
starts with `text.toLowerCase()`. -/
def assessVocabularyLevel.call (text targetLevel : Json) : Except TypeError JsString :=
  (stringReceiver "text".toList "toLowerCase".toList text).map
    (fun s => assessVocabularyLevel s targetLevel)

/-- The call `identifyPronunciationConcerns(text)` for any value `text`: the function starts
with `text.toLowerCase()`. -/
def identifyPronunciationConcerns.call (text : Json) :
    Except TypeError (List PronunciationConcern) :=
  (stringReceiver "text".toList "toLowerCase".toList text).map identifyPronunciationConcerns

/-- The call `calculateFluencyScore(text, wordCount)` for any value `text`: the first use of
`text` is `text.toLowerCase()`. -/
def calculateFluencyScore.call (text : Json) (wordCount : Nat) : Except TypeError Int :=
  (stringReceiver "text".toList "toLowerCase".toList text).map
    (fun s => calculateFluencyScore s wordCount)

/-- The `try` block of `analyzeSpeechForLearning`: the five assignments in order.  A call that
throws leaves the assignments made before it in place and hands its error to the `catch`
block. -/
def analysisSteps (analysis : SpeechAnalysis) (text difficultyLevel learningMode : Json) :
    SpeechAnalysis × Option TypeError :=
  match analyzeGrammar.call text with
  | .error e => (analysis, some e)
  | .ok grammarIssues =>
    let analysis := { analysis with grammarIssues := grammarIssues }
    match assessVocabularyLevel.call text difficultyLevel with
    | .error e => (analysis, some e)
    | .ok vocabularyLevel =>
      let analysis := { analysis with vocabularyLevel := vocabularyLevel }
      match identifyPronunciationConcerns.call text with
      | .error e => (analysis, some e)
      | .ok pronunciationConcerns =>
        let analysis := { analysis with pronunciationConcerns := pronunciationConcerns }
        match calculateFluencyScore.call text analysis.wordCount with
        | .error e => (analysis, some e)
        | .ok fluencyScore =>
          let analysis := { analysis with fluencyScore := fluencyScore }
          ({ analysis with
              suggestions := generateLearningSuggestions analysis learningMode difficultyLevel },
            none)

/-- `analyzeSpeechForLearning(text, difficultyLevel, learningMode)` for a string `text`, which
is what the relay calls it with: the object literal, the `try` block, and the `catch` block,
which sets `error` and returns what the `try` block had assigned. -/
def analyzeSpeechForLearning (text : JsString) (difficultyLevel learningMode : Json) :
    SpeechAnalysis :=
  let analysis : SpeechAnalysis :=
    { originalText := text
      wordCount := (splitWhitespace text).length
      sentenceCount := (sentencesOf text).length
      grammarIssues := []
      vocabularyLevel := []
      pronunciationConcerns := []
      fluencyScore := 0
      suggestions := []
      error := none }
  match analysisSteps analysis (.str text) difficultyLevel learningMode with
  | (analysis, none) => analysis
  | (analysis, some _) =>
    { analysis with error := some "Analysis temporarily unavailable".toList }

/-! ## Numbers -/

/-- A non-negative dyadic number `mantissa / 2 ^ scale`, which stands for a finite,
non-negative double when `roundToDouble` leaves it as it is.  The range of the exponent is
not part of it: where a value can leave the range, the overflow is tested apart. -/
structure JsNumber where
  mantissa : Nat
  scale : Nat
  deriving DecidableEq, Repr

/-- Worker of `bitLength`, with `fuel` halvings allowed. -/
def bitLengthAux : Nat → Nat → Nat
  | 0, _ => 0
  | fuel + 1, n => if n = 0 then 0 else bitLengthAux fuel (n / 2) + 1

/-- The number of binary digits of `n`. -/
def bitLength (n : Nat) : Nat :=
  bitLengthAux n n

/-- The double nearest to a dyadic number: the mantissa is cut to 53 binary digits, a tie
going to the even mantissa. -/
def roundToDouble (x : JsNumber) : JsNumber :=
  if bitLength x.mantissa ≤ 53 then x
  else
    let d := bitLength x.mantissa - 53
    let q := x.mantissa / 2 ^ d
    let r := x.mantissa % 2 ^ d
    let q' := if r > 2 ^ (d - 1) ∨ (r = 2 ^ (d - 1) ∧ q % 2 = 1) then q + 1 else q
    if d ≤ x.scale then ⟨q', x.scale - d⟩ else ⟨q' * 2 ^ (d - x.scale), 0⟩

/-- A double that holds an integer, or an infinity: a value of `parseInt` other than `NaN`,
a power of two, or the product of one of these and 1000.  The integer 0 stands for both
zeros. -/
inductive JsInteger where
  | finite (value : Int)
  | infinity (negative : Bool)
  deriving DecidableEq, Repr

/-- The double nearest to an integer: the magnitude is rounded to 53 binary digits, and a
rounded magnitude of more than 1024 binary digits, which is `2^1024` or more, is an
infinity. -/
def JsInteger.ofInt (n : Int) : JsInteger :=
  let magnitude := (roundToDouble ⟨n.natAbs, 0⟩).mantissa
  if bitLength magnitude ≤ 1024 then .finite (if n < 0 then -(magnitude : Int) else magnitude)
  else .infinity (decide (n < 0))

/-- `x * 1000` on doubles. -/
def JsInteger.timesThousand : JsInteger → JsInteger
  | .finite value => .ofInt (value * 1000)
  | .infinity negative => .infinity negative

/-! ## Completion client -/

/-- An entry of `messages`. -/
structure ChatMessage where
  role : JsString
  content : JsString
  deriving DecidableEq, Repr

/-- The request object handed to `makeAPICallWithRetry`. -/
structure CompletionRequest where
  model : Json
  messages : List ChatMessage
  max_tokens : Nat
  temperature : ℚ
  stream : Bool
  deriving DecidableEq

/-- What the client reads of a response object of `axios.post`. -/
structure AxiosResponse where
  status : Nat
  statusText : JsString
  /-- The header `response.headers['retry-after']`, `none` when the header is absent. -/
  retryAfter : Option JsString
  data : Json

/-- The value `makeAPICallWithRetry` resolves to: a response of the upstream service, or the
object `{ data: ... }` built by `createFallbackResponse`. -/
inductive ApiResult where
  | response (r : AxiosResponse)
  | fallback (data : Json)

/-- The property `data` of a result. -/
def ApiResult.data : ApiResult → Json
  | .response r => r.data
  | .fallback d => d

/-- The alternatives of the regular expression
`/hello|hi|hey|good morning|good afternoon|good evening/i`. -/
def greetingPatterns : List JsString :=
  ["hello", "hi", "hey", "good morning", "good afternoon", "good evening"].map String.toList

/-- The reply of the greeting branch. -/
def greetingReply : JsString :=
  "Hello! I'm your English tutor. I'm here to help you practice speaking English. Unfortunately, I'm currently running in demo mode without full AI capabilities, but I can still help you practice! Please continue speaking and I'll provide basic feedback.".toList

/-- The reply of the question branch. -/
def questionReply : JsString :=
  "That's a great question! I can see you're practicing your English well. In full mode, I would provide detailed feedback on your grammar, pronunciation, and vocabulary. For now, keep practicing - your speech is being analyzed and you're doing great!".toList

/-- The reply of the last branch. -/
def genericReply : JsString :=
  "Thank you for sharing that with me! I can see you're making good progress with your English speaking. Your message was clear and well-structured. Keep practicing and you'll continue to improve!".toList

/-- `requestData.messages?.[1]?.content || ''`. -/
def userMessageOf (requestData : CompletionRequest) : JsString :=
  ((requestData.messages.get? 1).map (fun m => m.content)).getD []

/-- The test of the greeting expression.  The flag `i` lets a letter of the pattern match that
letter in either case and no other character, so the test is a substring search in the string
with `A`..`Z` lowered. -/
def isGreeting (userMessage : JsString) : Bool :=
  greetingPatterns.any (fun pattern => includes (userMessage.map Char.toLower) pattern)

/-- `userMessage.includes('?')`. -/
def isQuestion (userMessage : JsString) : Bool :=
  includes userMessage ['?']

/-- The variable `fallbackReply` of `createFallbackResponse`. -/
def fallbackReply (requestData : CompletionRequest) : JsString :=
  let userMessage := userMessageOf requestData
  if isGreeting userMessage then greetingReply
  else if isQuestion userMessage then questionReply
  else genericReply

/-- `createFallbackResponse(requestData)`. -/
def createFallbackResponse (requestData : CompletionRequest) : ApiResult :=
  .fallback (.obj [("choices",
    .arr [.obj [("message", .obj [("content", .str (fallbackReply requestData))])]])])

/-- The value of a character as a digit of the given radix. -/
def digitValue (radix : Nat) (c : Char) : Option Nat :=
  let v : Option Nat :=
    if c.isDigit then some (c.toNat - '0'.toNat)
    else if c.isLower then some (c.toNat - 'a'.toNat + 10)
    else if c.isUpper then some (c.toNat - 'A'.toNat + 10)
    else none
  v.filter (fun d => decide (d < radix))

/-- `parseInt(s)` with no radix argument, `none` for `NaN`: leading white space is skipped, a
sign is read, a prefix `0x` or `0X` selects radix 16, the longest run of digits is read, and
the result is the double nearest to the signed value of the run. -/
def parseInt (s : JsString) : Option JsInteger :=
  let s := s.dropWhile isWhiteSpace
  let signed : Int × JsString :=
    match s with
    | '-' :: rest => (-1, rest)
    | '+' :: rest => (1, rest)
    | _ => (1, s)
  let based : Nat × JsString :=
    match signed.2 with
    | '0' :: 'x' :: rest => (16, rest)
    | '0' :: 'X' :: rest => (16, rest)
    | rest => (10, rest)
  let digits := (based.2.takeWhile (fun c => (digitValue based.1 c).isSome)).filterMap
    (digitValue based.1)
  if digits.isEmpty then none
  else some (.ofInt (signed.1 * (digits.foldl (fun acc d => acc * based.1 + d) 0 : Nat)))

/-- An effect of the client on the outside world. -/
inductive Effect where
  /-- One call `axios.post(CONFIG.apiUrl, requestData, ...)`. -/
  | post (requestData : CompletionRequest)
  /-- One call `sleep(ms)`. -/
  | sleep (ms : JsInteger)
  deriving DecidableEq

/-- How a call of `axios.post` ends. -/
inductive Outcome where
  /-- The service answered with a status line. -/
  | response (r : AxiosResponse)
  /-- No answer: network error, or no reply within `CONFIG.timeout`. -/
  | networkError

/-- The truth value of `process.env.OPENAI_API_KEY`: the variable is set and is not the empty
string. -/
def hasApiKey (apiKey : Option JsString) : Bool :=
  match apiKey with
  | some (_ :: _) => true
  | _ => false

/-- `validateStatus`: the promise of `axios.post` resolves for these statuses and rejects for
the others. -/
def validateStatus (status : Nat) : Bool :=
  decide (status < 500)

/-- `parseInt(response.headers['retry-after']) || Math.pow(2, attempt)`.  An absent header
parses to `NaN`; `NaN` and the zeros are falsy. -/
def retryAfterSeconds (r : AxiosResponse) (attempt : Nat) : JsInteger :=
  match r.retryAfter.bind parseInt with
  | some seconds => if seconds = .finite 0 then .ofInt (2 ^ attempt : Nat) else seconds
  | none => .ofInt (2 ^ attempt : Nat)

/-- `Math.min(1000 * Math.pow(2, attempt - 1), 10000)`, for an attempt from 1 on. -/
def backoffDelay (attempt : Nat) : Nat :=
  min (1000 * 2 ^ (attempt - 1)) 10000

/-- What one pass through the loop body leads to. -/
inductive AttemptResult where
  /-- The statement `return response`. -/
  | done (r : AxiosResponse)
  /-- The next iteration, after the recorded sleeps. -/
  | next (effects : List Effect)

/-- The `catch` block: the sleeps made before the next iteration. -/
def catchBlock (attempt : Nat) (maxRetries : Int) : List Effect :=
  if (attempt : Int) < maxRetries then [.sleep (.finite (backoffDelay attempt))] else []

/-- The body of the `for` loop after the call of `axios.post` ended with `outcome`. -/
def attemptBody (attempt : Nat) (maxRetries : Int) (outcome : Outcome) : AttemptResult :=
  match outcome with
  | .networkError => .next (catchBlock attempt maxRetries)
  | .response r =>
    if validateStatus r.status then
      if r.status = 429 then .next [.sleep (retryAfterSeconds r attempt).timesThousand]
      else if r.status ≥ 400 then .next (catchBlock attempt maxRetries)
      else .done r
    else .next (catchBlock attempt maxRetries)

/-- The `for` loop of `makeAPICallWithRetry` from the iteration `attempt` on, followed by the
fallback after the loop.  `upstream k` is how the `k`-th call of `axios.post` ends; `trace`
holds the effects so far. -/
def attemptLoop (requestData : CompletionRequest) (maxRetries : Int) (upstream : Nat → Outcome)
    (attempt : Nat) (trace : List Effect) : ApiResult × List Effect :=
  if (attempt : Int) ≤ maxRetries then
    match attemptBody attempt maxRetries (upstream attempt) with
    | .done r => (.response r, trace ++ [.post requestData])
    | .next effects =>
      attemptLoop requestData maxRetries upstream (attempt + 1)
        (trace ++ .post requestData :: effects)
  else (createFallbackResponse requestData, trace)
termination_by (maxRetries + 1 - attempt).toNat
decreasing_by omega

/-- `makeAPICallWithRetry(requestData, maxRetries)`, with the result and the effects in order.
`apiKey` is `process.env.OPENAI_API_KEY`, `none` when the variable is not set; the empty string
is falsy as well.  The caller passes `CONFIG.maxRetries`, which is 3. -/
def makeAPICallWithRetry (apiKey : Option JsString) (upstream : Nat → Outcome)
    (requestData : CompletionRequest) (maxRetries : Int) : ApiResult × List Effect :=
  if !hasApiKey apiKey then (createFallbackResponse requestData, [])
  else attemptLoop requestData maxRetries upstream 1 []

/-! ## Prompt composer -/

/-- The entry `grammar_tutor` of `PERSONALITY_PROMPTS`. -/
def PERSONALITY_PROMPTS.grammar_tutor : JsString :=
  "You are an expert English grammar tutor. Your role is to:\n".toList
    ++ "- Listen carefully to the user's speech and identify grammar errors\n".toList
    ++ "- Provide clear, constructive corrections with explanations\n".toList
    ++ "- Explain grammar rules in simple, understandable terms\n".toList
    ++ "- Encourage the user while pointing out areas for improvement\n".toList
    ++ "- Give specific examples of correct usage\n".toList
    ++ "- Be patient and supportive in your feedback\n".toList
    ++ "Format your response as: [FEEDBACK] for corrections, [EXPLANATION] for grammar rules, [EXAMPLE] for examples.".toList

/-- The entry `pronunciation_coach` of `PERSONALITY_PROMPTS`. -/
def PERSONALITY_PROMPTS.pronunciation_coach : JsString :=
  "You are a professional English pronunciation coach. Your role is to:\n".toList
    ++ "- Analyze the user's speech for pronunciation issues\n".toList
    ++ "- Provide specific feedback on word pronunciation\n".toList
    ++ "- Suggest mouth positioning and breathing techniques\n".toList
    ++ "- Break down difficult words syllable by syllable\n".toList
    ++ "- Encourage proper rhythm and intonation\n".toList
    ++ "- Give practical tips for accent reduction\n".toList
    ++ "Format your response with [PRONUNCIATION] for specific word feedback, [TIP] for techniques, [PRACTICE] for exercises.".toList

/-- The entry `conversation_partner` of `PERSONALITY_PROMPTS`. -/
def PERSONALITY_PROMPTS.conversation_partner : JsString :=
  "You are a friendly English conversation partner. Your role is to:\n".toList
    ++ "- Engage in natural, flowing conversations\n".toList
    ++ "- Ask follow-up questions to encourage more speaking\n".toList
    ++ "- Gently correct errors without interrupting the flow\n".toList
    ++ "- Introduce new vocabulary naturally in context\n".toList
    ++ "- Adapt your language level to match the user's ability\n".toList
    ++ "- Create a comfortable, encouraging environment for practice\n".toList
    ++ "Keep conversations natural while providing subtle learning opportunities.".toList

/-- The entry `vocabulary_builder` of `PERSONALITY_PROMPTS`. -/
def PERSONALITY_PROMPTS.vocabulary_builder : JsString :=
  "You are an English vocabulary specialist. Your role is to:\n".toList
    ++ "- Introduce new words naturally in conversation\n".toList
    ++ "- Explain word meanings with clear definitions and examples\n".toList
    ++ "- Teach synonyms, antonyms, and word families\n".toList
    ++ "- Show how words are used in different contexts\n".toList
    ++ "- Help with collocations and common phrases\n".toList
    ++ "- Build the user's active vocabulary through practice\n".toList
    ++ "Format responses with [VOCABULARY] for new words, [CONTEXT] for usage examples, [PRACTICE] for exercises.".toList

/-- The entry `fluency_coach` of `PERSONALITY_PROMPTS`. -/
def PERSONALITY_PROMPTS.fluency_coach : JsString :=
  "You are an English fluency coach focused on speaking confidence. Your role is to:\n".toList
    ++ "- Encourage natural speaking rhythm and flow\n".toList
    ++ "- Help reduce hesitations and filler words\n".toList
    ++ "- Provide confidence-building exercises\n".toList
    ++ "- Teach linking words and smooth transitions\n".toList
    ++ "- Focus on natural speech patterns\n".toList
    ++ "- Celebrate improvements and progress\n".toList
    ++ "- Create speaking challenges appropriate to the user's level\n".toList
    ++ "Emphasize building confidence and natural speech flow.".toList

/-- The entry `helpful` of `PERSONALITY_PROMPTS`. -/
def PERSONALITY_PROMPTS.helpful : JsString :=
  "You are a helpful and friendly AI assistant. Provide clear, accurate, and useful responses.".toList

/-- The entry `creative` of `PERSONALITY_PROMPTS`. -/
def PERSONALITY_PROMPTS.creative : JsString :=
  "You are a creative and imaginative AI assistant. Think outside the box and provide innovative, artistic responses.".toList

/-- The entry `technical` of `PERSONALITY_PROMPTS`. -/
def PERSONALITY_PROMPTS.technical : JsString :=
  "You are a technical expert AI assistant. Provide detailed, accurate technical information with examples and best practices.".toList

/-- The entry `casual` of `PERSONALITY_PROMPTS`. -/
def PERSONALITY_PROMPTS.casual : JsString :=
  "You are a casual, friendly AI assistant. Respond in a relaxed, conversational tone like talking to a good friend.".toList

/-- The entry `professional` of `PERSONALITY_PROMPTS`. -/
def PERSONALITY_PROMPTS.professional : JsString :=
  "You are a professional AI assistant. Provide formal, well-structured responses suitable for business contexts.".toList

/-- A value read from a string-keyed table written as an object literal.  A key that is not
in the literal reaches the properties the object inherits from `Object.prototype`. -/
inductive TableValue where
  /-- A string of the literal. -/
  | text (s : JsString)
  /-- No such property. -/
  | undefined
  /-- A built-in function, named `name`. -/
  | nativeFunction (name : JsString)
  /-- The object `Object.prototype`, the value of `__proto__`. -/
  | objectPrototype
  deriving DecidableEq, Repr

/-- The methods of `Object.prototype`. -/
def objectPrototypeMethods : List JsString :=
  ["__defineGetter__", "__defineSetter__", "hasOwnProperty", "__lookupGetter__",
    "__lookupSetter__", "isPrototypeOf", "propertyIsEnumerable", "toString", "valueOf",
    "toLocaleString"].map String.toList

/-- The property `key` of an object literal that has no own property `key`. -/
def inheritedProperty (key : JsString) : TableValue :=
  if key = "constructor".toList then .nativeFunction "Object".toList
  else if key = "__proto__".toList then .objectPrototype
  else if key ∈ objectPrototypeMethods then .nativeFunction key
  else .undefined

/-- The truth value of a table value; every string of the tables is non-empty. -/
def TableValue.truthy : TableValue → Bool
  | .text s => !s.isEmpty
  | .undefined => false
  | .nativeFunction _ => true
  | .objectPrototype => true

/-- The string a table value becomes inside a template literal. -/
def TableValue.toJsString : TableValue → JsString
  | .text s => s
  | .undefined => "undefined".toList
  | .nativeFunction name => "function ".toList ++ name ++ "() \x7b [native code] \x7d".toList
  | .objectPrototype => "[object Object]".toList

/-- `PERSONALITY_PROMPTS[key]`. -/
def PERSONALITY_PROMPTS (key : JsString) : TableValue :=
  if key = "grammar_tutor".toList then .text PERSONALITY_PROMPTS.grammar_tutor
  else if key = "pronunciation_coach".toList then .text PERSONALITY_PROMPTS.pronunciation_coach
  else if key = "conversation_partner".toList then .text PERSONALITY_PROMPTS.conversation_partner
  else if key = "vocabulary_builder".toList then .text PERSONALITY_PROMPTS.vocabulary_builder
  else if key = "fluency_coach".toList then .text PERSONALITY_PROMPTS.fluency_coach
  else if key = "helpful".toList then .text PERSONALITY_PROMPTS.helpful
  else if key = "creative".toList then .text PERSONALITY_PROMPTS.creative
  else if key = "technical".toList then .text PERSONALITY_PROMPTS.technical
  else if key = "casual".toList then .text PERSONALITY_PROMPTS.casual
  else if key = "professional".toList then .text PERSONALITY_PROMPTS.professional
  else inheritedProperty key

/-- `difficultyContext[key]` of `getEnhancedTutorPrompt`. -/
def difficultyContext (key : JsString) : TableValue :=
  if key = "beginner".toList then
    .text "The student is a beginner. Use simple vocabulary and basic grammar. Be very encouraging and patient.".toList
  else if key = "intermediate".toList then
    .text "The student has intermediate skills. You can use more complex vocabulary and grammar structures.".toList
  else if key = "advanced".toList then
    .text "The student is advanced. Feel free to use sophisticated vocabulary and complex grammar.".toList
  else if key = "native".toList then
    .text "The student aims for native-level proficiency. Use natural, idiomatic expressions and advanced structures.".toList
  else inheritedProperty key

/-- `feedbackContext[key]` of `getEnhancedTutorPrompt`. -/
def feedbackContext (key : JsString) : TableValue :=
  if key = "gentle".toList then
    .text "Provide feedback in a very encouraging and supportive way. Focus on positive reinforcement.".toList
  else if key = "detailed".toList then
    .text "Give comprehensive analysis with specific examples and explanations.".toList
  else if key = "immediate".toList then
    .text "Correct errors right away but keep the conversation flowing.".toList
  else if key = "summary".toList then
    .text "Focus on conversation flow now, save detailed feedback for the end.".toList
  else inheritedProperty key

/-- The last paragraph of the prompt. -/
def promptClosing : JsString :=
  "Based on the speech analysis provided, adapt your response to help the student improve while maintaining an engaging conversation.".toList

/-- The error of a conversion to a string or to a property key that finds no primitive
value. -/
def conversionError : TypeError :=
  ⟨"Cannot convert object to primitive value".toList⟩

/-- `getEnhancedTutorPrompt(personality, difficultyLevel, feedbackStyle, speechAnalysis)`; the
analysis is not read.  Each of the three values is used as a property key, for which it is
converted to a string; the conversion of an object with an own property `toString` throws. -/
def getEnhancedTutorPrompt (personality difficultyLevel feedbackStyle : Json)
    (_speechAnalysis : SpeechAnalysis) : Except TypeError JsString :=
  match personality.toJsString, difficultyLevel.toJsString, feedbackStyle.toJsString with
  | some personalityKey, some difficultyKey, some feedbackKey =>
    let basePrompt :=
      if (PERSONALITY_PROMPTS personalityKey).truthy then PERSONALITY_PROMPTS personalityKey
      else PERSONALITY_PROMPTS "conversation_partner".toList
    .ok (basePrompt.toJsString ++ "\n\nStudent Level: ".toList
      ++ (difficultyContext difficultyKey).toJsString ++ "\nFeedback Style: ".toList
      ++ (feedbackContext feedbackKey).toJsString ++ "\n\n".toList ++ promptClosing)
  | _, _, _ => .error conversionError

/-! ## JSON text of an analysis -/

/-- The digit `n` of a hexadecimal numeral, in lower case. -/
def hexDigit (n : Nat) : Char :=
  if n < 10 then Char.ofNat (n + '0'.toNat) else Char.ofNat (n - 10 + 'a'.toNat)

/-- The text of one character inside a JSON string. -/
def escapeJSONChar (c : Char) : JsString :=
  if c = '"' then ['\\', '"']
  else if c = '\\' then ['\\', '\\']
  else if c.toNat = 0x08 then ['\\', 'b']
  else if c.toNat = 0x09 then ['\\', 't']
  else if c.toNat = 0x0A then ['\\', 'n']
  else if c.toNat = 0x0C then ['\\', 'f']
  else if c.toNat = 0x0D then ['\\', 'r']
  else if c.toNat < 0x20 then ['\\', 'u', '0', '0', hexDigit (c.toNat / 16), hexDigit (c.toNat % 16)]
  else [c]

/-- `JSON.stringify(s)` for a string. -/
def quoteJSONString (s : JsString) : JsString :=
  '"' :: s.flatMap escapeJSONChar ++ ['"']

/-- The texts of the elements between brackets, separated by commas. -/
def stringifyArray (items : List JsString) : JsString :=
  '[' :: (List.intercalate [','] items) ++ [']']

/-- `JSON.stringify` of an entry of `grammarIssues`. -/
def stringifyGrammarIssue (i : GrammarIssue) : JsString :=
  "\x7b\"type\":".toList ++ quoteJSONString i.type
    ++ ",\"issue\":".toList ++ quoteJSONString i.issue
    ++ ",\"suggestion\":".toList ++ quoteJSONString i.suggestion
    ++ ",\"severity\":".toList ++ quoteJSONString i.severity ++ "\x7d".toList

/-- `JSON.stringify` of an entry of `pronunciationConcerns`: a tip that is a function is left
out, and the prototype object has no property to write. -/
def stringifyConcern (c : PronunciationConcern) : JsString :=
  "\x7b\"word\":".toList ++ quoteJSONString c.word
    ++ (match c.tip with
      | .text s => ",\"tip\":".toList ++ quoteJSONString s
      | .objectConstructor => []
      | .objectPrototype => ",\"tip\":\x7b\x7d".toList)
    ++ ",\"type\":".toList ++ quoteJSONString c.type ++ "\x7d".toList

/-- `JSON.stringify(speechAnalysis)`. -/
def stringifySpeechAnalysis (a : SpeechAnalysis) : JsString :=
  "\x7b\"originalText\":".toList ++ quoteJSONString a.originalText
    ++ ",\"wordCount\":".toList ++ natToString a.wordCount
    ++ ",\"sentenceCount\":".toList ++ natToString a.sentenceCount
    ++ ",\"grammarIssues\":".toList ++ stringifyArray (a.grammarIssues.map stringifyGrammarIssue)
    ++ ",\"vocabularyLevel\":".toList ++ quoteJSONString a.vocabularyLevel
    ++ ",\"pronunciationConcerns\":".toList
    ++ stringifyArray (a.pronunciationConcerns.map stringifyConcern)
    ++ ",\"fluencyScore\":".toList ++ intToString a.fluencyScore
    ++ ",\"suggestions\":".toList ++ stringifyArray (a.suggestions.map quoteJSONString)
    ++ (match a.error with
      | some e => ",\"error\":".toList ++ quoteJSONString e
      | none => [])
    ++ "\x7d".toList

/-! ## Session relay -/

/-- Worker of `tagCaptures`: `skip` counts the characters of the last match still to be passed
over, so that the search resumes at `lastIndex`. -/
def tagCapturesAux (tag : JsString) : List Char → Nat → List JsString
  | [], _ => []
  | _ :: cs, skip + 1 => tagCapturesAux tag cs skip
  | c :: cs, 0 =>
    if startsWith (c :: cs) tag then
      let capture := ((c :: cs).drop tag.length).takeWhile (fun x => x != '[')
      capture :: tagCapturesAux tag cs (tag.length + capture.length - 1)
    else tagCapturesAux tag cs 0

/-- The first groups of the successive matches of `/TAG(.*?)(?=\[|$)/gs` in `s`, where `TAG`
is the bracketed tag: each match is the tag followed by the characters up to the next `[` or
the end of the string. -/
def tagCaptures (tag s : JsString) : List JsString :=
  tagCapturesAux tag s 0

/-- The object returned by `extractLearningFeedback`. -/
structure LearningFeedback where
  grammar : List JsString
  pronunciation : List JsString
  vocabulary : List JsString
  general : List JsString
  deriving DecidableEq, Repr

/-- `extractLearningFeedback(aiResponse)` for a string. -/
def extractLearningFeedback (aiResponse : JsString) : LearningFeedback :=
  { grammar := (tagCaptures "[FEEDBACK]".toList aiResponse).map trim
    pronunciation := (tagCaptures "[PRONUNCIATION]".toList aiResponse).map trim
    vocabulary := (tagCaptures "[VOCABULARY]".toList aiResponse).map trim
    general := [] }

/-- The constants of `CONFIG` read by the relay. -/
def CONFIG.maxRetries : Int := 3

/-- The constant `CONFIG.maxMessageLength`. -/
def CONFIG.maxMessageLength : Nat := 1000

/-- An error thrown inside the `chat message` handler. -/
inductive RelayError where
  | invalidFormat
  | textRequired
  | tooLong
  | invalidApiResponse
  /-- A `TypeError` raised by the runtime. -/
  | typeError (error : TypeError)
  deriving DecidableEq, Repr

/-- `error.message`. -/
def RelayError.message : RelayError → JsString
  | .invalidFormat => "Invalid message format".toList
  | .textRequired => "Message text is required".toList
  | .tooLong =>
    "Message too long. Maximum ".toList ++ natToString CONFIG.maxMessageLength
      ++ " characters allowed.".toList
  | .invalidApiResponse => "Invalid API response format".toList
  | .typeError error => error.message

/-- An object payload of a `chat message` event: each of the six properties read by the
handler is any value, or absent. -/
structure MessageObject where
  text : Option Json
  model : Option Json
  personality : Option Json
  learningMode : Option Json
  difficultyLevel : Option Json
  feedbackStyle : Option Json

/-- The payload `data` of a `chat message` event. -/
inductive ChatPayload where
  /-- The old format: the text alone. -/
  | string (s : JsString)
  /-- An object that is not `null`. -/
  | object (o : MessageObject)
  /-- Any other value: `null`, `undefined`, a number, a boolean. -/
  | other

/-- `value || fallback` for a property that may be absent. -/
def orDefault (value : Option Json) (fallback : JsString) : Json :=
  match value with
  | some v => if v.truthy then v else .str fallback
  | none => .str fallback

/-- The variables assigned from the payload. -/
structure MessageFields where
  text : Option Json
  model : Json
  personality : Json
  learningMode : Json
  difficultyLevel : Json
  feedbackStyle : Json

/-- The two branches that read the payload, and the `throw` of the third. -/
def readPayload : ChatPayload → Except RelayError MessageFields
  | .string s =>
    .ok { text := some (.str s)
          model := .str "openai/gpt-3.5-turbo".toList
          personality := .str "conversation_partner".toList
          learningMode := .str "conversation".toList
          difficultyLevel := .str "intermediate".toList
          feedbackStyle := .str "gentle".toList }
  | .object o =>
    .ok { text := o.text
          model := orDefault o.model "openai/gpt-3.5-turbo".toList
          personality := orDefault o.personality "conversation_partner".toList
          learningMode := orDefault o.learningMode "conversation".toList
          difficultyLevel := orDefault o.difficultyLevel "intermediate".toList
          feedbackStyle := orDefault o.feedbackStyle "gentle".toList }
  | .other => .error .invalidFormat

/-- The two checks of `text`. -/
def validateText (text : Option Json) : Except RelayError JsString :=
  match text with
  | some (.str (c :: cs)) =>
    if utf16Length (c :: cs) > CONFIG.maxMessageLength then .error .tooLong else .ok (c :: cs)
  | _ => .error .textRequired

/-- The object built for `metadata`. -/
structure Metadata where
  processingTime : Nat
  model : Json
  personality : Json
  learningMode : Json
  difficultyLevel : Json
  timestamp : JsString
  deriving DecidableEq

/-- The payload of a `tutor response` event.  `reply` is `none` when the property is
`undefined`; `error` tells whether the property `error: true` is there. -/
structure TutorResponse where
  reply : Option Json
  speechAnalysis : Option SpeechAnalysis
  learningFeedback : Option LearningFeedback
  metadata : Option Metadata
  error : Bool

/-- The summary of an analysis inside a log entry. -/
structure AnalysisSummary where
  wordCount : Nat
  grammarIssuesCount : Nat
  fluencyScore : Int
  vocabularyLevel : JsString
  deriving DecidableEq, Repr

/-- The object `logEntry` of `logLearningInteraction`, without its time stamp and socket id.
The two cut strings are held as UTF-16 code units: the cut may fall inside a surrogate
pair. -/
structure LogEntry where
  userMessage : List Nat
  tutorReply : List Nat
  learningMode : Json
  difficultyLevel : Json
  speechAnalysis : Option AnalysisSummary
  processingTime : Nat
  success : Bool
  errorDetails : Option JsString
  deriving DecidableEq

/-- `value.substring(0, 100) + (value.length > 100 ? '...' : '')`, which throws a `TypeError`
unless the value is a string. -/
def truncateForLog (name : JsString) (value : Option Json) : Except RelayError (List Nat) :=
  match value with
  | some (.str s) =>
    .ok ((toCodeUnits s).take 100
      ++ (if utf16Length s > 100 then toCodeUnits "...".toList else []))
  | none =>
    .error (.typeError ⟨"Cannot read properties of undefined (reading 'substring')".toList⟩)
  | some .null =>
    .error (.typeError ⟨"Cannot read properties of null (reading 'substring')".toList⟩)
  | some _ => .error (.typeError ⟨name ++ ".substring is not a function".toList⟩)

/-- `logLearningInteraction(socketId, userMessage, tutorReply, speechAnalysis, learningMode,
difficultyLevel, processingTime, success, errorDetails)`: the entry it builds, or the error it
throws. -/
def logLearningInteraction (userMessage tutorReply : Option Json)
    (speechAnalysis : Option SpeechAnalysis) (learningMode difficultyLevel : Json)
    (processingTime : Nat) (success : Bool) (errorDetails : Option JsString) :
    Except RelayError LogEntry :=
  match truncateForLog "userMessage".toList userMessage with
  | .error e => .error e
  | .ok shortMessage =>
    match truncateForLog "tutorReply".toList tutorReply with
    | .error e => .error e
    | .ok shortReply =>
      .ok { userMessage := shortMessage
            tutorReply := shortReply
            learningMode := learningMode
            difficultyLevel := difficultyLevel
            speechAnalysis := speechAnalysis.map (fun a =>
              { wordCount := a.wordCount
                grammarIssuesCount := a.grammarIssues.length
                fluencyScore := a.fluencyScore
                vocabularyLevel := a.vocabularyLevel })
            processingTime := processingTime
            success := success
            errorDetails := errorDetails }

/-- Something the handler does that can be seen from outside. -/
inductive RelayEvent where
  /-- A call of `analyzeSpeechForLearning`. -/
  | analyzed (text : JsString) (difficultyLevel learningMode : Json)
  /-- A call of `makeAPICallWithRetry`, with the effects it had. -/
  | completionCall (requestData : CompletionRequest) (effects : List Effect)
  /-- `socket.emit("tutor response", response)`. -/
  | emitted (response : TutorResponse)
  /-- A call of `logLearningInteraction` that returned. -/
  | logged (entry : LogEntry)

/-- One run of the handler: what it did, and the error that left it, if any. -/
structure HandlerRun where
  events : List RelayEvent
  uncaught : Option RelayError

/-- The readings of the clock: the processing time computed in the `try` block, the one
computed in the `catch` block, and the time stamp of the metadata. -/
structure Clock where
  processingTime : Nat
  failedProcessingTime : Nat
  timestamp : JsString

/-- The content of the user turn of the request. -/
def userTurnContent (text : JsString) (speechAnalysis : SpeechAnalysis) : JsString :=
  "Student said: \"".toList ++ text ++ "\"\n\nSpeech Analysis: ".toList
    ++ stringifySpeechAnalysis speechAnalysis
    ++ "\n\nPlease provide appropriate feedback and continue the conversation.".toList

/-- The object `apiRequest`. -/
def buildApiRequest (model : Json) (systemPrompt text : JsString)
    (speechAnalysis : SpeechAnalysis) : CompletionRequest :=
  { model := model
    messages := [{ role := "system".toList, content := systemPrompt },
      { role := "user".toList, content := userTurnContent text speechAnalysis }]
    max_tokens := 600
    temperature := 7 / 10
    stream := false }

/-- The check of the response and the read of `response.data.choices[0].message.content`:
the reply (`none` for `undefined`), or the error thrown. -/
def readReply (response : ApiResult) : Except RelayError (Option Json) :=
  if !response.data.truthy then .error .invalidApiResponse
  else
    match response.data.get "choices" with
    | none => .error .invalidApiResponse
    | some choices =>
      if !choices.truthy then .error .invalidApiResponse
      else
        match choices.first with
        | none => .error .invalidApiResponse
        | some choice =>
          if !choice.truthy then .error .invalidApiResponse
          else
            match choice.get "message" with
            | none =>
              .error (.typeError
                ⟨"Cannot read properties of undefined (reading 'content')".toList⟩)
            | some .null =>
              .error (.typeError ⟨"Cannot read properties of null (reading 'content')".toList⟩)
            | some message => .ok (message.get "content")

/-- The text of a reply inside a template literal and as the subject of a regular expression,
`none` when the conversion throws. -/
def replyText (reply : Option Json) : Option JsString :=
  match reply with
  | none => some "undefined".toList
  | some v => v.toJsString

/-- The template literal of the first `console.log` of the `try` block, which converts the
mode and the level to strings: the error thrown, if any. -/
def logUserTurn (learningMode difficultyLevel : Json) : Option RelayError :=
  match learningMode.toJsString, difficultyLevel.toJsString with
  | some _, some _ => none
  | _, _ => some (.typeError conversionError)

/-- The `try` block from the first `console.log` on, for a text that passed the checks: the
events, and the error thrown, if any. -/
def processMessage (apiKey : Option JsString) (upstream : Nat → Outcome) (clock : Clock)
    (fields : MessageFields) (text : JsString) : List RelayEvent × Option RelayError :=
  match logUserTurn fields.learningMode fields.difficultyLevel with
  | some e => ([], some e)
  | none =>
    let speechAnalysis := analyzeSpeechForLearning text fields.difficultyLevel fields.learningMode
    let analyzed : List RelayEvent := [.analyzed text fields.difficultyLevel fields.learningMode]
    match getEnhancedTutorPrompt fields.personality fields.difficultyLevel fields.feedbackStyle
        speechAnalysis with
    | .error e => (analyzed, some (.typeError e))
    | .ok systemPrompt =>
      let apiRequest := buildApiRequest fields.model systemPrompt text speechAnalysis
      let call := makeAPICallWithRetry apiKey upstream apiRequest CONFIG.maxRetries
      let events : List RelayEvent := analyzed ++ [.completionCall apiRequest call.2]
      match readReply call.1 with
      | .error e => (events, some e)
      | .ok reply =>
        match replyText reply with
        | none => (events, some (.typeError conversionError))
        | some shown =>
          let response : TutorResponse :=
            { reply := reply
              speechAnalysis := some speechAnalysis
              learningFeedback := some (extractLearningFeedback shown)
              metadata := some
                { processingTime := clock.processingTime
                  model := fields.model
                  personality := fields.personality
                  learningMode := fields.learningMode
                  difficultyLevel := fields.difficultyLevel
                  timestamp := clock.timestamp }
              error := false }
          match logLearningInteraction (some (.str text)) reply (some speechAnalysis)
              fields.learningMode fields.difficultyLevel clock.processingTime true none with
          | .error e => (events ++ [.emitted response], some e)
          | .ok entry => (events ++ [.emitted response, .logged entry], none)

/-- The reply chosen in the `catch` block. -/
def errorReply (error : RelayError) : JsString :=
  if includes error.message "rate limit".toList then
    "Too many requests. Please wait a moment before trying again.".toList
  else if includes error.message "network".toList || includes error.message "timeout".toList then
    "Network error. Please check your connection and try again.".toList
  else if includes error.message "Invalid message format".toList
      || includes error.message "Message text is required".toList then
    "Please provide a valid message.".toList
  else if includes error.message "Message too long".toList then error.message
  else "I apologize, but I encountered an error. Please try again.".toList

/-- `typeof data === 'string' ? data : (data?.text || '')`. -/
def failedText : ChatPayload → Json
  | .string s => .str s
  | .object o =>
    match o.text with
    | some v => if v.truthy then v else .str []
    | none => .str []
  | .other => .str []

/-- `typeof data === 'object' ? (data?.learningMode || '') : ''`. -/
def failedMode : ChatPayload → Json
  | .object o => orDefault o.learningMode []
  | _ => .str []

/-- The `catch` block, entered with the events so far and the error caught. -/
def catchHandler (clock : Clock) (data : ChatPayload) (events : List RelayEvent)
    (error : RelayError) : HandlerRun :=
  let response : TutorResponse :=
    { reply := some (.str (errorReply error))
      speechAnalysis := none
      learningFeedback := none
      metadata := none
      error := true }
  match logLearningInteraction (some (failedText data)) (some (.str (errorReply error))) none
      (failedMode data) (.str []) clock.failedProcessingTime false (some error.message) with
  | .error e => { events := events ++ [.emitted response], uncaught := some e }
  | .ok entry => { events := events ++ [.emitted response, .logged entry], uncaught := none }

/-- The handler of `chat message` for the payload `data`.  The update of the connection
registry and `updateUserProgress`, which only writes to the console, are left out; of the
other console output the conversions to strings, which can throw, are kept. -/
def handleChatMessage (apiKey : Option JsString) (upstream : Nat → Outcome) (clock : Clock)
    (data : ChatPayload) : HandlerRun :=
  match readPayload data with
  | .error e => catchHandler clock data [] e
  | .ok fields =>
    match validateText fields.text with
    | .error e => catchHandler clock data [] e
    | .ok text =>
      match processMessage apiKey upstream clock fields text with
      | (events, none) => { events := events, uncaught := none }
      | (events, some e) => catchHandler clock data events e

/-! ## Client: the score update of `src/public/js/script.js` -/

/-- An integer as a double. -/
def JsNumber.ofNat (n : Nat) : JsNumber :=
  ⟨n, 0⟩

/-- `a * b` on doubles. -/
def JsNumber.mul (a b : JsNumber) : JsNumber :=
  roundToDouble ⟨a.mantissa * b.mantissa, a.scale + b.scale⟩

/-- `a + b` on doubles. -/
def JsNumber.add (a b : JsNumber) : JsNumber :=
  roundToDouble ⟨a.mantissa * 2 ^ b.scale + b.mantissa * 2 ^ a.scale, a.scale + b.scale⟩

/-- `a - b` on doubles, for `b` not above `a`. -/
def JsNumber.sub (a b : JsNumber) : JsNumber :=
  roundToDouble ⟨a.mantissa * 2 ^ b.scale - b.mantissa * 2 ^ a.scale, a.scale + b.scale⟩

/-- `Math.round(x)`: the integer below `x + 1/2`. -/
def mathRound (x : JsNumber) : Nat :=
  (2 * x.mantissa + 2 ^ x.scale) / 2 ^ (x.scale + 1)

/-- The constant `updateWeight`, the double of the literal `0.3`. -/
def updateWeight : JsNumber :=
  ⟨5404319552844595, 54⟩

/-- `Math.round((old * (1 - updateWeight)) + (score * updateWeight))` for two integers. -/
def weightedUpdate (old score : Nat) : Nat :=
  mathRound (JsNumber.add (JsNumber.mul (.ofNat old) (JsNumber.sub (.ofNat 1) updateWeight))
    (JsNumber.mul (.ofNat score) updateWeight))

/-- The object `AppState.scores`.  Its numbers are integers: they come from `parseInt` or from
`Math.round`. -/
structure Scores where
  grammar : Nat
  pronunciation : Nat
  vocabulary : Nat
  fluency : Nat
  overall : Nat
  deriving DecidableEq, Repr

/-- `updateComprehensiveScores(speechAnalysis)` for an analysis made by the server, as a
function of the scores before the call.  The analysis has no property `grammarScore`,
`pronunciationScore` or `vocabularyScore`, so the destructuring gives them the default 0; its
`fluencyScore` is not negative.  The sum of the four integers and its quotient by 4 are exact
in doubles.  The writes to `localStorage` and the display are left out. -/
def updateComprehensiveScores (scores : Scores) (speechAnalysis : SpeechAnalysis) : Scores :=
  let grammar := weightedUpdate scores.grammar 0
  let pronunciation := weightedUpdate scores.pronunciation 0
  let vocabulary := weightedUpdate scores.vocabulary 0
  let fluency := weightedUpdate scores.fluency speechAnalysis.fluencyScore.toNat
  { grammar := grammar
    pronunciation := pronunciation
    vocabulary := vocabulary
    fluency := fluency
    overall := mathRound ⟨grammar + pronunciation + vocabulary + fluency, 2⟩ }

/-! ## Notions used to state the properties -/

/-- The value read by the caller as `response.data.choices[0].message.content`. -/
def replyOf (result : ApiResult) : Option Json :=
  (((result.data.get "choices").bind (Json.index 0)).bind (Json.get "message")).bind
    (Json.get "content")

/-- Whether an effect is an HTTP call. -/
def isPost : Effect → Bool
  | .post _ => true
  | .sleep _ => false

/-- The number of HTTP calls in a trace. -/
def postCount (trace : List Effect) : Nat :=
  trace.countP isPost

/-- An attempt that fails: no answer at all, or an answer with a status of 500 or more. -/
def Outcome.isFailure : Outcome → Bool
  | .networkError => true
  | .response r => decide (500 ≤ r.status)

/-- The trace of `n` failed attempts in the words of the specification: attempt `k` is one
HTTP call, followed by a wait of `min(1000 * 2^(k-1), 10000)` ms when `k < n`. -/
def backoffTrace (requestData : CompletionRequest) (n : Nat) : List Effect :=
  (List.range' 1 n).flatMap (fun k =>
    .post requestData ::
      (if k < n then [.sleep (.finite (min (1000 * 2 ^ (k - 1)) 10000 : Nat))] else []))

/-- The string `content` contains the lower-case `pattern`, letter case of `content` ignored. -/
def ContainsIgnoringCase (content pattern : JsString) : Prop :=
  ∃ w, w <:+: content ∧ w.map Char.toLower = pattern

/-- A request with a system turn and the user turn "Hi there". -/
def sampleRequest : CompletionRequest :=
  { model := .str "openai/gpt-3.5-turbo".toList
    messages := [{ role := "system".toList, content := "You are a tutor.".toList },
      { role := "user".toList, content := "Hi there".toList }]
    max_tokens := 600
    temperature := 7 / 10
    stream := false }

/-- An upstream service that cannot be reached. -/
def unreachableUpstream : Nat → Outcome :=
  fun _ => .networkError

/-- A response with status 429 and the given `retry-after` header. -/
def rateLimitedResponse (retryAfter : Option JsString) : AxiosResponse :=
  { status := 429, statusText := "Too Many Requests".toList, retryAfter := retryAfter,
    data := .null }

/-- An upstream service that answers every call with status 429 and the given `retry-after`
header. -/
def rateLimitedUpstream (retryAfter : Option JsString) : Nat → Outcome :=
  fun _ => .response (rateLimitedResponse retryAfter)

/-- The fluency score in the words of the specification: 50, plus 20 for more than 20 words,
else plus 10 for more than 10, else minus 20 for fewer than 5; plus 15 if the lower-cased text
contains a connective; plus 10 if the quotient of distinct tokens by all tokens is above 0.8,
else minus 10 if it is below 0.6; clamped to the interval from 0 to 100. -/
def fluencyScoreSpec (text : JsString) (w : Nat) : Int :=
  let tokens := splitWhitespace (toLowerCase text)
  let ratio : ℚ := (tokens.toFinset.card : ℚ) / (tokens.length : ℚ)
  let lengthTerm : Int := if w > 20 then 20 else if w > 10 then 10 else if w < 5 then -20 else 0
  let connectiveTerm : Int :=
    if ∃ m ∈ ["although", "because", "since", "while", "whereas", "however", "therefore"].map
        String.toList, m <:+: toLowerCase text then 15 else 0
  let varietyTerm : Int := if ratio > 8 / 10 then 10 else if ratio < 6 / 10 then -10 else 0
  max 0 (min 100 (50 + lengthTerm + connectiveTerm + varietyTerm))

/-- The fraction of the tokens that belong to a word list. -/
def fractionIn (list tokens : List JsString) : ℚ :=
  (tokens.countP (fun t => decide (t ∈ list)) : ℚ) / (tokens.length : ℚ)

/-- The order beginner < intermediate < advanced of the vocabulary levels. -/
def levelRank (level : JsString) : Nat :=
  if level = "advanced".toList then 2
  else if level = "intermediate".toList then 1
  else 0

/-- The number of positions of `s` at which the string `p` occurs. -/
def occurrences (p s : JsString) : Nat :=
  s.tails.countP (fun t => startsWith t p)

/-- The total number of substring occurrences of the markers not, no, never, nothing, nobody,
nowhere in a string. -/
def markerOccurrences (s : JsString) : Nat :=
  ((["not", "no", "never", "nothing", "nobody", "nowhere"].map String.toList).map
    (fun marker => occurrences marker s)).sum

/-- No proper non-empty suffix of `p` is a prefix of `p`: two occurrences of `p` in a string
never overlap. -/
def Unbordered (p : JsString) : Prop :=
  ∀ k, 0 < k → k < p.length → ¬ (p.drop k <+: p)

/-- The entries of an issue list that have the type `double_negative`. -/
def doubleNegatives (issues : List GrammarIssue) : List GrammarIssue :=
  issues.filter (fun i => decide (i.type = "double_negative".toList))

/-- The entries of an issue list that have the type `capitalization`. -/
def capitalizations (issues : List GrammarIssue) : List GrammarIssue :=
  issues.filter (fun i => decide (i.type = "capitalization".toList))

/-- The entries of an issue list that have the type `subject_verb_agreement`. -/
def subjectVerbs (issues : List GrammarIssue) : List GrammarIssue :=
  issues.filter (fun i => decide (i.type = "subject_verb_agreement".toList))

/-- The text of a payload as the handler reads it: the payload itself when it is a string,
its property `text` when it is an object. -/
def payloadText : ChatPayload → Option Json
  | .string s => some (.str s)
  | .object o => o.text
  | .other => none

/-- The text of the payload is a string whose length, in UTF-16 code units, is from 1 to
1000. -/
def ValidText (data : ChatPayload) : Prop :=
  ∃ text, payloadText data = some (.str text) ∧ 1 ≤ utf16Length text ∧ utf16Length text ≤ 1000

/-- The mode, the level, the personality and the feedback style read from a payload can be
converted to strings. -/
def ConvertibleFields (fields : MessageFields) : Prop :=
  fields.learningMode.toJsString.isSome = true ∧ fields.difficultyLevel.toJsString.isSome = true
    ∧ fields.personality.toJsString.isSome = true ∧ fields.feedbackStyle.toJsString.isSome = true

/-- The payloads of the `tutor response` events of a run, in order. -/
def emittedResponses (events : List RelayEvent) : List TutorResponse :=
  events.filterMap (fun e => match e with
    | .emitted response => some response
    | _ => none)

/-- The number of calls of the analyzer in a run. -/
def analyzerCalls (events : List RelayEvent) : Nat :=
  events.countP (fun e => match e with
    | .analyzed _ _ _ => true
    | _ => false)

/-- The number of calls of the completion client in a run. -/
def completionCalls (events : List RelayEvent) : Nat :=
  events.countP (fun e => match e with
    | .completionCall _ _ => true
    | _ => false)

/-- The response `{reply, speechAnalysis: null, learningFeedback: null, error: true}`. -/
def errorResponse (reply : JsString) : TutorResponse :=
  { reply := some (.str reply)
    speechAnalysis := none
    learningFeedback := none
    metadata := none
    error := true }

/-- An upstream service that answers every call with status 200 and the given body. -/
def okUpstream (data : Json) : Nat → Outcome :=
  fun _ => .response { status := 200, statusText := "OK".toList, retryAfter := none, data := data }

/-- A completion whose message has the content `null`. -/
def nullContentBody : Json :=
  .obj [("choices", .arr [.obj [("message", .obj [("content", .null)])]])]

/-- Some readings of the clock. -/
def sampleClock : Clock :=
  { processingTime := 12, failedProcessingTime := 3, timestamp := "2024-01-01T00:00:00.000Z".toList }

/-- An object payload with its missing or falsy optional fields set to the defaults. -/
def fillDefaults (o : MessageObject) : MessageObject :=
  { text := o.text
    model := some (orDefault o.model "openai/gpt-3.5-turbo".toList)
    personality := some (orDefault o.personality "conversation_partner".toList)
    learningMode := some (orDefault o.learningMode "conversation".toList)
    difficultyLevel := some (orDefault o.difficultyLevel "intermediate".toList)
    feedbackStyle := some (orDefault o.feedbackStyle "gentle".toList) }

/-- The request the relay builds for a text that passed the checks, with the system prompt
`systemPrompt`. -/
def relayRequest (fields : MessageFields) (text systemPrompt : JsString) : CompletionRequest :=
  buildApiRequest fields.model systemPrompt text
    (analyzeSpeechForLearning text fields.difficultyLevel fields.learningMode)

/-- The object payload `{text: s}`, with no optional field. -/
def textOnlyObject (s : JsString) : MessageObject :=
  { text := some (.str s)
    model := none
    personality := none
    learningMode := none
    difficultyLevel := none
    feedbackStyle := none }

/-- Worker of `wordRuns`: `inWord` tells whether the previous character belonged to a word. -/
def wordRunsAux : List Char → Bool → Nat
  | [], _ => 0
  | c :: cs, inWord =>
    if isWhiteSpace c then wordRunsAux cs false
    else (if inWord then 0 else 1) + wordRunsAux cs true

/-- The number of words of a text: the number of maximal runs of characters that are not
white space. -/
def wordRuns (text : JsString) : Nat :=
  wordRunsAux text false

/-- The object payload `{text: 5}`. -/
def numberTextObject : MessageObject :=
  { text := some (.num 5)
    model := none
    personality := none
    learningMode := none
    difficultyLevel := none
    feedbackStyle := none }

/-- The log entries of a run. -/
def loggedEntries (events : List RelayEvent) : List LogEntry :=
  events.filterMap (fun e => match e with
    | .logged entry => some entry
    | _ => none)

/-- The arguments of the calls of `sleep` in a trace, in milliseconds. -/
def sleepDelays (trace : List Effect) : List JsInteger :=
  trace.filterMap (fun e => match e with
    | .sleep ms => some ms
    | .post _ => none)

/-- The variables read from the bare-string payload. -/
def defaultFields (text : JsString) : MessageFields :=
  { text := some (.str text)
    model := .str "openai/gpt-3.5-turbo".toList
    personality := .str "conversation_partner".toList
    learningMode := .str "conversation".toList
    difficultyLevel := .str "intermediate".toList
    feedbackStyle := .str "gentle".toList }

/-- The time in milliseconds after which the timer set by `setTimeout(resolve, ms)` fires:
Node.js sets a delay below 1 or above 2147483647 to 1. -/
def timerDelay : JsInteger → Nat
  | .finite ms => if 1 ≤ ms ∧ ms ≤ 2147483647 then ms.toNat else 1
  | .infinity _ => 1

/-- The character U+1F600, which takes two UTF-16 code units. -/
def grinningFace : Char :=
  Char.ofNat 0x1F600

/-- The object payload `{text: "hello", learningMode: {toString: null}}`. -/
def unprintableModeObject : MessageObject :=
  { text := some (.str "hello".toList)
    model := none
    personality := none
    learningMode := some (.obj [("toString", .null)])
    difficultyLevel := none
    feedbackStyle := none }

/-- The object payload `{text: "hello", personality: {toString: null}}`. -/
def unprintablePersonalityObject : MessageObject :=
  { text := some (.str "hello".toList)
    model := none
    personality := some (.obj [("toString", .null)])
    learningMode := none
    difficultyLevel := none
    feedbackStyle := none }

/-- The captures of a tag in the words of the specification: for each position of `s` at
which the tag occurs, in order, the text from just after the tag up to the next `[` or the
end of `s`. -/
def tagOccurrenceCaptures (tag : JsString) : JsString → List JsString
  | [] => []
  | c :: cs =>
    (if startsWith (c :: cs) tag then
        [((c :: cs).drop tag.length).takeWhile (fun x => x != '[')] else [])
      ++ tagOccurrenceCaptures tag cs

/-- The integer `new` is a nearest integer to 0.7 times `old`. -/
def NearestToSevenTenths (new old : Nat) : Prop :=
  10 * (new : Int) - 7 * (old : Int) ≤ 5 ∧ 7 * (old : Int) - 10 * (new : Int) ≤ 5

/-- The scores a client starts with when nothing is stored. -/
def initialScores : Scores :=
  { grammar := 75, pronunciation := 78, vocabulary := 82, fluency := 80, overall := 79 }

/-- The code points of the white space characters. -/
def whiteSpaceCodes : List Nat :=
  [0x09, 0x0A, 0x0B, 0x0C, 0x0D, 0x20, 0xA0, 0x1680, 0x2000, 0x2001, 0x2002, 0x2003, 0x2004,
    0x2005, 0x2006, 0x2007, 0x2008, 0x2009, 0x200A, 0x2028, 0x2029, 0x202F, 0x205F, 0x3000,
    0xFEFF]

/-! ## Strings: lemmas -/

theorem startsWith_iff (s p : JsString) : startsWith s p = true ↔ p <+: s := by
  simp [startsWith]

theorem includes_iff (s p : JsString) : includes s p = true ↔ p <:+: s := by
  induction s with
  | nil => simp [includes]
  | cons c cs ih =>
    rw [includes, Bool.or_eq_true, ih, startsWith_iff, List.infix_cons_iff]

theorem infix_map_iff {α β : Type} (f : α → β) (p : List β) (s : List α) :
    p <:+: s.map f ↔ ∃ w, w <:+: s ∧ w.map f = p := by
  constructor
  · rintro ⟨a, b, h⟩
    refine ⟨(s.drop a.length).take p.length, ?_, ?_⟩
    · exact (List.take_prefix _ _).isInfix.trans (List.drop_suffix _ _).isInfix
    · rw [List.map_take, List.map_drop, ← h]
      simp
  · rintro ⟨w, hw, rfl⟩
    exact hw.map f

theorem singleton_infix_iff (c : Char) (s : JsString) : [c] <:+: s ↔ c ∈ s := by
  constructor
  · rintro ⟨a, b, rfl⟩
    simp
  · intro h
    obtain ⟨a, b, rfl⟩ := List.append_of_mem h
    exact ⟨a, b, by simp⟩

/-! ## Completion client: the retry loop -/

theorem attemptBody_done {attempt : Nat} {maxRetries : Int} {o : Outcome} {r : AxiosResponse}
    (h : attemptBody attempt maxRetries o = .done r) : o = .response r ∧ r.status < 400 := by
  unfold attemptBody at h
  split at h
  · cases h
  · split_ifs at h with h1 h2 h3
    cases h
    exact ⟨rfl, by omega⟩

theorem postCount_catchBlock (attempt : Nat) (maxRetries : Int) :
    postCount (catchBlock attempt maxRetries) = 0 := by
  unfold catchBlock
  split_ifs <;> simp [postCount, isPost]

theorem attemptBody_next {attempt : Nat} {maxRetries : Int} {o : Outcome} {effects : List Effect}
    (h : attemptBody attempt maxRetries o = .next effects) :
    postCount effects = 0 ∧ ∀ r, o = .response r → 400 ≤ r.status := by
  unfold attemptBody at h
  split at h
  · cases h
    exact ⟨postCount_catchBlock _ _, fun r hr => by cases hr⟩
  · split_ifs at h with h1 h2 h3
    · cases h
      refine ⟨by simp [postCount, isPost], fun r hr => ?_⟩
      cases hr
      omega
    · cases h
      refine ⟨postCount_catchBlock _ _, fun r hr => ?_⟩
      cases hr
      omega
    · cases h
      refine ⟨postCount_catchBlock _ _, fun r hr => ?_⟩
      cases hr
      simp [validateStatus] at h1
      omega

theorem attemptBody_of_failure {o : Outcome} (attempt : Nat) (maxRetries : Int)
    (h : o.isFailure = true) :
    attemptBody attempt maxRetries o = .next (catchBlock attempt maxRetries) := by
  cases o with
  | networkError => rfl
  | response r =>
    have h500 : 500 ≤ r.status := by simpa [Outcome.isFailure] using h
    simp only [attemptBody, validateStatus]
    rw [if_neg (by simp; omega)]

/-- The loop from iteration `attempt` on makes at most one HTTP call for each iteration left.
It ends with the fallback when no iteration left gets an answer below 400, and with the first
such answer otherwise. -/
theorem attemptLoop_spec (req : CompletionRequest) (maxRetries : Int) (upstream : Nat → Outcome) :
    ∀ (d attempt : Nat) (trace : List Effect), (maxRetries + 1 - attempt).toNat = d →
      postCount (attemptLoop req maxRetries upstream attempt trace).2 ≤ postCount trace + d ∧
      (((attemptLoop req maxRetries upstream attempt trace).1 = createFallbackResponse req ∧
          ∀ j : Nat, attempt ≤ j → (j : Int) ≤ maxRetries →
            ∀ r', upstream j = .response r' → 400 ≤ r'.status) ∨
        ∃ (k : Nat) (r : AxiosResponse), attempt ≤ k ∧ (k : Int) ≤ maxRetries ∧
          upstream k = .response r ∧ r.status < 400 ∧
          (attemptLoop req maxRetries upstream attempt trace).1 = .response r ∧
          ∀ j, attempt ≤ j → j < k → ∀ r', upstream j = .response r' → 400 ≤ r'.status) := by
  intro d
  induction d with
  | zero =>
    intro attempt trace hd
    rw [attemptLoop, if_neg (by omega)]
    exact ⟨by simp, Or.inl ⟨rfl, fun j h1 h2 => by omega⟩⟩
  | succ d ih =>
    intro attempt trace hd
    rw [attemptLoop, if_pos (by omega)]
    cases hb : attemptBody attempt maxRetries (upstream attempt) with
    | done r =>
      obtain ⟨hup, hst⟩ := attemptBody_done hb
      refine ⟨by simp [postCount, isPost, List.countP_append],
        Or.inr ⟨attempt, r, le_refl _, by omega, hup, hst, rfl, ?_⟩⟩
      intro j h1 h2
      omega
    | next effects =>
      obtain ⟨hc, hst⟩ := attemptBody_next hb
      obtain ⟨h1, h2⟩ := ih (attempt + 1) (trace ++ .post req :: effects) (by omega)
      refine ⟨?_, ?_⟩
      · simp only [postCount, List.countP_append, List.countP_cons, isPost] at h1 hc ⊢
        simp only [hc] at h1
        simp at h1 ⊢
        omega
      · rcases h2 with ⟨h2, hnone⟩ | ⟨k, r, hk1, hk2, hup, hs, hres, hfirst⟩
        · refine Or.inl ⟨h2, ?_⟩
          intro j hj1 hj2 r' hr'
          rcases Nat.eq_or_lt_of_le hj1 with heq | hlt
          · subst heq
            exact hst r' hr'
          · exact hnone j (by omega) hj2 r' hr'
        · refine Or.inr ⟨k, r, by omega, hk2, hup, hs, hres, ?_⟩
          intro j hj1 hj2 r' hr'
          rcases Nat.eq_or_lt_of_le hj1 with heq | hlt
          · subst heq
            exact hst r' hr'
          · exact hfirst j (by omega) hj2 r' hr'

/-- With every attempt failing, the loop from iteration `attempt` on adds the rest of the
backoff trace and ends with the fallback. -/
theorem attemptLoop_all_failing (req : CompletionRequest) (n : Nat) (upstream : Nat → Outcome)
    (hfail : ∀ k, (upstream k).isFailure = true) :
    ∀ (d attempt : Nat) (trace : List Effect), attempt + d = n + 1 →
      attemptLoop req (n : Int) upstream attempt trace =
        (createFallbackResponse req,
          trace ++ (List.range' attempt d).flatMap (fun k =>
            .post req ::
              (if k < n then [.sleep (.finite (min (1000 * 2 ^ (k - 1)) 10000 : Nat))]
                else []))) := by
  intro d
  induction d with
  | zero =>
    intro attempt trace hd
    rw [attemptLoop, if_neg (by omega)]
    simp
  | succ d ih =>
    intro attempt trace hd
    rw [attemptLoop, if_pos (by omega), attemptBody_of_failure attempt n (hfail attempt)]
    simp only
    rw [ih (attempt + 1) _ (by omega)]
    simp only [List.range'_succ, List.flatMap_cons, List.append_assoc, List.cons_append,
      catchBlock, backoffDelay, Nat.cast_lt]

theorem postCount_flatMap_one (l : List Nat) (f : Nat → List Effect)
    (h : ∀ k, postCount (f k) = 1) : postCount (l.flatMap f) = l.length := by
  induction l with
  | nil => rfl
  | cons a l ih =>
    simp only [postCount, List.flatMap_cons, List.countP_append, List.length_cons] at ih ⊢
    have := h a
    simp only [postCount] at this
    omega

/-! ## Completion client: properties -/

/-- C1: with a credential configured and `maxRetries ≥ 0`, whatever the upstream outcomes are,
`makeAPICallWithRetry` (a total function: no error leaves it) makes at most `maxRetries` HTTP
calls, and its result is the first upstream response with a status below 400 if one of the
first `maxRetries` calls gets such a response, and `createFallbackResponse(request)` if none
does. -/
theorem makeAPICallWithRetry_bounded_result (apiKey : Option JsString)
    (upstream : Nat → Outcome) (req : CompletionRequest) (maxRetries : Int)
    (hkey : hasApiKey apiKey = true) (hmax : 0 ≤ maxRetries) :
    (postCount (makeAPICallWithRetry apiKey upstream req maxRetries).2 : Int) ≤ maxRetries ∧
    (((makeAPICallWithRetry apiKey upstream req maxRetries).1 = createFallbackResponse req ∧
        ∀ j : Nat, 1 ≤ j → (j : Int) ≤ maxRetries →
          ∀ r', upstream j = .response r' → 400 ≤ r'.status) ∨
      ∃ (k : Nat) (r : AxiosResponse), 1 ≤ k ∧ (k : Int) ≤ maxRetries ∧
        upstream k = .response r ∧ r.status < 400 ∧
        (makeAPICallWithRetry apiKey upstream req maxRetries).1 = .response r ∧
        ∀ j, 1 ≤ j → j < k → ∀ r', upstream j = .response r' → 400 ≤ r'.status) := by
  have h := attemptLoop_spec req maxRetries upstream (maxRetries + 1 - (1 : Nat)).toNat 1 [] rfl
  simp only [makeAPICallWithRetry, hkey, Bool.not_true, Bool.false_eq_true, if_false]
  refine ⟨?_, h.2⟩
  have h1 := h.1
  simp only [postCount, List.countP_nil, Nat.zero_add] at h1 ⊢
  omega

theorem makeAPICallWithRetry_bounded_result_witness :
    hasApiKey (some ['k']) = true ∧ (0 : Int) ≤ 3 ∧
    (postCount (makeAPICallWithRetry (some ['k']) unreachableUpstream sampleRequest 3).2 : Int)
      ≤ 3 ∧
    (((makeAPICallWithRetry (some ['k']) unreachableUpstream sampleRequest 3).1
          = createFallbackResponse sampleRequest ∧
        ∀ j : Nat, 1 ≤ j → (j : Int) ≤ 3 →
          ∀ r', unreachableUpstream j = .response r' → 400 ≤ r'.status) ∨
      ∃ (k : Nat) (r : AxiosResponse), 1 ≤ k ∧ (k : Int) ≤ 3 ∧
        unreachableUpstream k = .response r ∧ r.status < 400 ∧
        (makeAPICallWithRetry (some ['k']) unreachableUpstream sampleRequest 3).1 = .response r ∧
        ∀ j, 1 ≤ j → j < k → ∀ r', unreachableUpstream j = .response r' → 400 ≤ r'.status) :=
  ⟨by decide, by decide,
    makeAPICallWithRetry_bounded_result (some ['k']) unreachableUpstream sampleRequest 3
      (by decide) (by decide)⟩

/-- C2: with a credential configured and every attempt failing (no answer, or a status of 500
or more), `makeAPICallWithRetry(request, n)` makes exactly `n` HTTP calls, sleeps
`min(1000 * 2^(k-1), 10000)` ms after the failed attempt `k` for `k < n` and not after the
`n`-th, and returns the fallback. -/
theorem makeAPICallWithRetry_all_failing (apiKey : Option JsString) (upstream : Nat → Outcome)
    (req : CompletionRequest) (n : Nat) (hkey : hasApiKey apiKey = true)
    (hfail : ∀ k, (upstream k).isFailure = true) :
    makeAPICallWithRetry apiKey upstream req n
      = (createFallbackResponse req, backoffTrace req n) ∧
    postCount (backoffTrace req n) = n := by
  constructor
  · simp only [makeAPICallWithRetry, hkey, Bool.not_true, Bool.false_eq_true, if_false]
    rw [attemptLoop_all_failing req n upstream hfail n 1 [] (by omega)]
    simp [backoffTrace]
  · unfold backoffTrace
    rw [postCount_flatMap_one]
    · simp
    · intro k
      split_ifs <;> simp [postCount, isPost]

theorem makeAPICallWithRetry_all_failing_witness :
    hasApiKey (some ['k']) = true ∧ (∀ k, (unreachableUpstream k).isFailure = true) ∧
    (makeAPICallWithRetry (some ['k']) unreachableUpstream sampleRequest ((3 : Nat) : Int)
      = (createFallbackResponse sampleRequest, backoffTrace sampleRequest 3) ∧
    postCount (backoffTrace sampleRequest 3) = 3) ∧
    backoffTrace sampleRequest 3
      = [.post sampleRequest, .sleep (.finite 1000), .post sampleRequest,
          .sleep (.finite 2000), .post sampleRequest] :=
  ⟨by decide, fun _ => rfl,
    makeAPICallWithRetry_all_failing (some ['k']) unreachableUpstream sampleRequest 3
      (by decide) (fun _ => rfl),
    by simp [backoffTrace, List.range']⟩

theorem fallbackReply_ne_nil (req : CompletionRequest) : fallbackReply req ≠ [] := by
  unfold fallbackReply
  simp only
  split_ifs
  · decide
  · decide
  · decide

/-- C3: with no credential configured, `makeAPICallWithRetry` makes no HTTP call and no sleep
and returns `createFallbackResponse(request)`, whose `data.choices[0].message.content` is
present and is a non-empty string. -/
theorem makeAPICallWithRetry_no_credential (apiKey : Option JsString)
    (upstream : Nat → Outcome) (req : CompletionRequest) (maxRetries : Int)
    (hkey : hasApiKey apiKey = false) :
    makeAPICallWithRetry apiKey upstream req maxRetries = (createFallbackResponse req, []) ∧
    ∃ content, replyOf (createFallbackResponse req) = some (.str content) ∧ content ≠ [] := by
  refine ⟨by simp [makeAPICallWithRetry, hkey], fallbackReply req, ?_, fallbackReply_ne_nil req⟩
  simp [replyOf, createFallbackResponse, ApiResult.data, Json.get, Json.index]

theorem makeAPICallWithRetry_no_credential_witness :
    hasApiKey none = false ∧
    (makeAPICallWithRetry none unreachableUpstream sampleRequest 3
      = (createFallbackResponse sampleRequest, []) ∧
    ∃ content, replyOf (createFallbackResponse sampleRequest) = some (.str content)
      ∧ content ≠ []) :=
  ⟨rfl, makeAPICallWithRetry_no_credential none unreachableUpstream sampleRequest 3 rfl⟩

theorem attemptLoop_rate_limited (req : CompletionRequest) (maxRetries : Int)
    (upstream : Nat → Outcome) (k : Nat) (trace : List Effect) (r : AxiosResponse)
    (hk : (k : Int) ≤ maxRetries) (hup : upstream k = .response r) (h429 : r.status = 429) :
    attemptLoop req maxRetries upstream k trace
      = attemptLoop req maxRetries upstream (k + 1)
          (trace ++ [.post req, .sleep (retryAfterSeconds r k).timesThousand]) := by
  rw [attemptLoop, if_pos hk, hup]
  simp [attemptBody, validateStatus, h429]

theorem bitLengthAux_le : ∀ (fuel n k : Nat), n < 2 ^ k → bitLengthAux fuel n ≤ k := by
  intro fuel
  induction fuel with
  | zero => intro n k _; simp [bitLengthAux]
  | succ fuel ih =>
    intro n k h
    rw [bitLengthAux]
    split_ifs with h0
    · omega
    · cases k with
      | zero => simp at h; omega
      | succ k =>
        have h2 : n / 2 < 2 ^ k := by
          rw [Nat.div_lt_iff_lt_mul (by norm_num)]
          rw [pow_succ] at h
          exact h
        have := ih (n / 2) k h2
        omega

/-- An integer whose binary digits below the 53 leading ones are zero is a double. -/
theorem roundToDouble_of_dvd (m e : Nat) (hdiv : 2 ^ e ∣ m) (hlt : m < 2 ^ (53 + e)) :
    roundToDouble ⟨m, 0⟩ = ⟨m, 0⟩ := by
  have hb : bitLength m ≤ 53 + e := bitLengthAux_le m m (53 + e) hlt
  by_cases h1 : bitLength m ≤ 53
  · simp only [roundToDouble, if_pos h1]
  · have hd : 2 ^ (bitLength m - 53) ∣ m :=
      (pow_dvd_pow 2 (by omega : bitLength m - 53 ≤ e)).trans hdiv
    have hr : m % 2 ^ (bitLength m - 53) = 0 := Nat.mod_eq_zero_of_dvd hd
    have hpos : 0 < 2 ^ (bitLength m - 53 - 1) := pow_pos (by norm_num) _
    have hcond : ¬ (m % 2 ^ (bitLength m - 53) > 2 ^ (bitLength m - 53 - 1)
        ∨ (m % 2 ^ (bitLength m - 53) = 2 ^ (bitLength m - 53 - 1)
          ∧ m / 2 ^ (bitLength m - 53) % 2 = 1)) := by
      rw [hr]
      omega
    have hd0 : ¬ bitLength m - 53 ≤ 0 := by omega
    simp only [roundToDouble, if_neg h1, if_neg hcond, if_neg hd0, Nat.sub_zero,
      Nat.div_mul_cancel hd]

theorem ofInt_natCast (m e b : Nat) (hdiv : 2 ^ e ∣ m) (hlt : m < 2 ^ (53 + e))
    (hfin : m < 2 ^ b) (hb : b ≤ 1024) : JsInteger.ofInt (m : Int) = .finite m := by
  have hbits : bitLength m ≤ 1024 := le_trans (bitLengthAux_le m m b hfin) hb
  unfold JsInteger.ofInt
  simp only [Int.natAbs_ofNat, roundToDouble_of_dvd m e hdiv hlt]
  rw [if_pos hbits, if_neg (by omega)]

theorem ofInt_exact (n : Int) (h : n.natAbs < 2 ^ 53) : JsInteger.ofInt n = .finite n := by
  have hb : bitLength n.natAbs ≤ 1024 :=
    le_trans (bitLengthAux_le n.natAbs n.natAbs 53 h) (by norm_num)
  unfold JsInteger.ofInt
  simp only [roundToDouble_of_dvd n.natAbs 0 (by simp) (by simpa using h)]
  rw [if_pos hb]
  congr 1
  split_ifs <;> omega

theorem timesThousand_pow (k : Nat) (hk : k ≤ 1014) :
    (JsInteger.ofInt ((2 ^ k : Nat) : Int)).timesThousand = .finite (1000 * 2 ^ k) := by
  have hpos : 0 < 2 ^ k := pow_pos (by norm_num) _
  have hlt : 2 ^ k * 1000 < 2 ^ (k + 10) := by
    rw [pow_add]
    exact Nat.mul_lt_mul_of_pos_left (by norm_num) hpos
  have h1 : JsInteger.ofInt ((2 ^ k : Nat) : Int) = .finite (2 ^ k : Nat) :=
    ofInt_natCast (2 ^ k) k (k + 1) (dvd_refl _)
      (by rw [pow_add]; exact (Nat.lt_mul_iff_one_lt_left hpos).2 (by norm_num))
      (Nat.pow_lt_pow_right (by norm_num) (by omega)) (by omega)
  have h2 : JsInteger.ofInt ((2 ^ k * 1000 : Nat) : Int) = .finite (2 ^ k * 1000 : Nat) :=
    ofInt_natCast (2 ^ k * 1000) k (k + 10) (Dvd.intro _ rfl)
      (by rw [pow_add, mul_comm (2 ^ 53)]; exact Nat.mul_lt_mul_of_pos_left (by norm_num) hpos)
      hlt (by omega)
  rw [h1]
  simp only [JsInteger.timesThousand]
  push_cast at h2 ⊢
  rw [h2]
  congr 1
  ring

/-- C4, at a header the claim is wrong for: attempt 1 receives status 429 with
`retry-after: 0`, whose integer value is 0, and the client calls `sleep(2000)`, not
`sleep(0)`. -/
theorem retry_after_zero_counterexample :
    parseInt ['0'] = some (.finite 0) ∧
    (makeAPICallWithRetry (some ['k']) (rateLimitedUpstream (some ['0'])) sampleRequest 1).2
      = [.post sampleRequest, .sleep (.finite 2000)] ∧
    (makeAPICallWithRetry (some ['k']) (rateLimitedUpstream (some ['0'])) sampleRequest 1).2
      ≠ [.post sampleRequest, .sleep (.finite (0 * 1000))] := by
  have hp : parseInt ['0'] = some (.finite 0) := by decide
  have hs : (retryAfterSeconds (rateLimitedResponse (some ['0'])) 1).timesThousand
      = .finite 2000 := by decide
  have ht : (makeAPICallWithRetry (some ['k']) (rateLimitedUpstream (some ['0']))
      sampleRequest 1).2 = [.post sampleRequest, .sleep (.finite 2000)] := by
    simp only [makeAPICallWithRetry, rateLimitedUpstream]
    rw [if_neg (by decide),
      attemptLoop_rate_limited _ _ _ 1 [] (rateLimitedResponse (some ['0'])) (by decide) rfl rfl,
      attemptLoop, if_neg (by decide), hs]
    rfl
  refine ⟨hp, ht, ?_⟩
  rw [ht]
  simp

/-- C4, as amended: when attempt `k` receives status 429, the client makes the one call
`sleep(s * 1000)` and goes on with the iteration `k + 1`, where `s` is `parseInt` of the
`retry-after` header if that is a number other than 0, and `2^k` if the header is absent, does
not start with an integer, or has the value 0.  The product is a double: it is `1000 * n` for
a header value `n` of magnitude up to 9007199254740, and `1000 * 2^k` for `k` up to 1014.  The
timer of such a call lasts the given time when that is from 1 to 2147483647 ms: `n` seconds
for `n` from 1 to 2147483.  With `retry-after: 5` on attempt 1 the call is `sleep(5000)`, with
`retry-after: 2` on attempt 3 it is `sleep(2000)`. -/
theorem rate_limited_attempt_sleep (req : CompletionRequest) (maxRetries : Int)
    (upstream : Nat → Outcome) (k : Nat) (trace : List Effect) (r : AxiosResponse)
    (hk : (k : Int) ≤ maxRetries) (hup : upstream k = .response r) (h429 : r.status = 429) :
    attemptLoop req maxRetries upstream k trace
      = attemptLoop req maxRetries upstream (k + 1)
          (trace ++ [.post req, .sleep (retryAfterSeconds r k).timesThousand]) ∧
    (∀ seconds, r.retryAfter.bind parseInt = some seconds → seconds ≠ .finite 0 →
      retryAfterSeconds r k = seconds) ∧
    (∀ n : Int, r.retryAfter.bind parseInt = some (.finite n) → n ≠ 0 →
      n.natAbs ≤ 9007199254740 →
      (retryAfterSeconds r k).timesThousand = .finite (1000 * n)) ∧
    (r.retryAfter.bind parseInt = none ∨ r.retryAfter.bind parseInt = some (.finite 0) →
      k ≤ 1014 → (retryAfterSeconds r k).timesThousand = .finite (1000 * 2 ^ k)) ∧
    (∀ n : Nat, 1 ≤ n → n ≤ 2147483 → timerDelay (.finite (1000 * n)) = 1000 * n) ∧
    (∀ j : Nat, j ≤ 21 → timerDelay (.finite (1000 * 2 ^ j)) = 1000 * 2 ^ j) ∧
    (makeAPICallWithRetry (some ['k']) (rateLimitedUpstream (some ['5'])) sampleRequest 1).2
      = [.post sampleRequest, .sleep (.finite 5000)] ∧
    (attemptLoop sampleRequest 3 (rateLimitedUpstream (some ['2'])) 3 []).2
      = [.post sampleRequest, .sleep (.finite 2000)] := by
  have hloop := attemptLoop_rate_limited req maxRetries upstream k trace r hk hup h429
  refine ⟨hloop, ?_, ?_, ?_, ?_, ?_, ?_, ?_⟩
  · intro seconds hs hne
    unfold retryAfterSeconds
    rw [hs]
    simp only [if_neg hne]
  · intro n hn hn0 hsmall
    have hs : retryAfterSeconds r k = .finite n := by
      unfold retryAfterSeconds
      rw [hn]
      simp only [JsInteger.finite.injEq, if_neg hn0]
    rw [hs]
    simp only [JsInteger.timesThousand]
    rw [ofInt_exact (n * 1000) (by norm_num; omega)]
    congr 1
    ring
  · intro h hk14
    have hs : retryAfterSeconds r k = .ofInt ((2 ^ k : Nat) : Int) := by
      unfold retryAfterSeconds
      rcases h with h | h <;> rw [h]
      simp only [if_true]
    rw [hs]
    exact timesThousand_pow k hk14
  · intro n h1 h2
    simp only [timerDelay]
    rw [if_pos (by omega)]
    omega
  · intro j hj
    have hle : 2 ^ j ≤ 2 ^ 21 := Nat.pow_le_pow_right (by norm_num) hj
    have hpos : 0 < 2 ^ j := pow_pos (by norm_num) _
    have hcast : ((1000 : Int) * 2 ^ j) = ((1000 * 2 ^ j : Nat) : Int) := by push_cast; rfl
    simp only [timerDelay]
    rw [hcast, if_pos (by norm_num at hle; omega)]
    omega
  · have hs : (retryAfterSeconds (rateLimitedResponse (some ['5'])) 1).timesThousand
        = .finite 5000 := by decide
    simp only [makeAPICallWithRetry, rateLimitedUpstream]
    rw [if_neg (by decide),
      attemptLoop_rate_limited _ _ _ 1 [] (rateLimitedResponse (some ['5'])) (by decide) rfl rfl,
      attemptLoop, if_neg (by decide), hs]
    rfl
  · have hs : (retryAfterSeconds (rateLimitedResponse (some ['2'])) 3).timesThousand
        = .finite 2000 := by decide
    rw [attemptLoop_rate_limited _ _ _ 3 [] (rateLimitedResponse (some ['2'])) (by decide) rfl rfl,
      attemptLoop, if_neg (by decide), hs]
    rfl

theorem rate_limited_attempt_sleep_witness :
    ((1 : Nat) : Int) ≤ 3 ∧
    rateLimitedUpstream (some ['5']) 1 = .response (rateLimitedResponse (some ['5'])) ∧
    (rateLimitedResponse (some ['5'])).status = 429 ∧
    (retryAfterSeconds (rateLimitedResponse (some ['5'])) 1).timesThousand = .finite 5000 ∧
    (retryAfterSeconds (rateLimitedResponse none) 1).timesThousand = .finite 2000 ∧
    attemptLoop sampleRequest 3 (rateLimitedUpstream (some ['5'])) 1 []
      = attemptLoop sampleRequest 3 (rateLimitedUpstream (some ['5'])) (1 + 1)
          ([] ++ [.post sampleRequest,
            .sleep (retryAfterSeconds (rateLimitedResponse (some ['5'])) 1).timesThousand]) :=
  ⟨by decide, rfl, rfl, by decide, by decide,
    (rate_limited_attempt_sleep sampleRequest 3 (rateLimitedUpstream (some ['5'])) 1 []
      (rateLimitedResponse (some ['5'])) (by decide) rfl rfl).1⟩

theorem isGreeting_iff (content : JsString) :
    isGreeting content = true ↔ ∃ p ∈ greetingPatterns, ContainsIgnoringCase content p := by
  simp only [isGreeting, List.any_eq_true, includes_iff, infix_map_iff, ContainsIgnoringCase]

theorem isQuestion_iff (content : JsString) : isQuestion content = true ↔ '?' ∈ content := by
  simp only [isQuestion, includes_iff, singleton_infix_iff]

theorem replyOf_createFallbackResponse (req : CompletionRequest) :
    replyOf (createFallbackResponse req) = some (.str (fallbackReply req)) := by
  simp [replyOf, createFallbackResponse, ApiResult.data, Json.get, Json.index]

/-- C5: `createFallbackResponse` answers with the greeting reply if the user-turn content
contains, letter case ignored, one of 'hello', 'hi', 'hey', 'good morning', 'good afternoon',
'good evening'; otherwise with the question reply if the content contains '?'; otherwise with
the generic acknowledgement. -/
theorem createFallbackResponse_reply (req : CompletionRequest) :
    ((∃ p ∈ ["hello", "hi", "hey", "good morning", "good afternoon", "good evening"].map
          String.toList, ContainsIgnoringCase (userMessageOf req) p) →
      replyOf (createFallbackResponse req) = some (.str greetingReply)) ∧
    ((¬ ∃ p ∈ ["hello", "hi", "hey", "good morning", "good afternoon", "good evening"].map
          String.toList, ContainsIgnoringCase (userMessageOf req) p) →
      ('?' ∈ userMessageOf req →
        replyOf (createFallbackResponse req) = some (.str questionReply)) ∧
      ('?' ∉ userMessageOf req →
        replyOf (createFallbackResponse req) = some (.str genericReply))) := by
  have hg := isGreeting_iff (userMessageOf req)
  have hq := isQuestion_iff (userMessageOf req)
  rw [replyOf_createFallbackResponse]
  change (isGreeting (userMessageOf req) = true ↔ _) at hg
  simp only [greetingPatterns] at hg
  rw [← hg, ← hq]
  unfold fallbackReply
  simp only
  refine ⟨fun h => by rw [if_pos h], fun h => ⟨fun h2 => ?_, fun h2 => ?_⟩⟩
  · rw [if_neg h, if_pos h2]
  · rw [if_neg h, if_neg h2]

/-! ## Speech analyzer: properties -/

theorem mem_uniqueElements (l : List JsString) (x : JsString) :
    x ∈ uniqueElements l ↔ x ∈ l := by
  induction l with
  | nil => simp [uniqueElements]
  | cons a l ih =>
    simp only [uniqueElements, List.mem_cons, List.mem_filter, ih, bne_iff_ne, ne_eq]
    by_cases h : x = a <;> simp [h]

theorem nodup_uniqueElements (l : List JsString) : (uniqueElements l).Nodup := by
  induction l with
  | nil => simp [uniqueElements]
  | cons a l ih =>
    simp only [uniqueElements, List.nodup_cons, List.mem_filter, bne_iff_ne, ne_eq,
      not_true_eq_false, and_false, not_false_eq_true, true_and]
    exact ih.filter _

theorem length_uniqueElements (l : List JsString) :
    (uniqueElements l).length = l.toFinset.card := by
  rw [← List.toFinset_card_of_nodup (nodup_uniqueElements l)]
  congr 1
  ext x
  simp [mem_uniqueElements]

/-- On a string the `try` block of `analyzeSpeechForLearning` runs to its end: the analysis
holds the results of the five calls, and `error` is not set. -/
theorem analyzeSpeechForLearning_eq (text : JsString) (difficultyLevel learningMode : Json) :
    analyzeSpeechForLearning text difficultyLevel learningMode
      = { originalText := text
          wordCount := (splitWhitespace text).length
          sentenceCount := (sentencesOf text).length
          grammarIssues := analyzeGrammar text
          vocabularyLevel := assessVocabularyLevel text difficultyLevel
          pronunciationConcerns := identifyPronunciationConcerns text
          fluencyScore := calculateFluencyScore text (splitWhitespace text).length
          suggestions := generateLearningSuggestions
            { originalText := text
              wordCount := (splitWhitespace text).length
              sentenceCount := (sentencesOf text).length
              grammarIssues := analyzeGrammar text
              vocabularyLevel := assessVocabularyLevel text difficultyLevel
              pronunciationConcerns := identifyPronunciationConcerns text
              fluencyScore := calculateFluencyScore text (splitWhitespace text).length
              suggestions := []
              error := none } learningMode difficultyLevel
          error := none } :=
  rfl

/-- C6: the `fluencyScore` of `analyzeSpeechForLearning` is an integer between 0 and 100. -/
theorem analyzeSpeechForLearning_fluencyScore_range (text : JsString)
    (difficultyLevel learningMode : Json) :
    0 ≤ (analyzeSpeechForLearning text difficultyLevel learningMode).fluencyScore ∧
    (analyzeSpeechForLearning text difficultyLevel learningMode).fluencyScore ≤ 100 := by
  simp only [analyzeSpeechForLearning_eq, calculateFluencyScore]
  omega

set_option maxRecDepth 100000 in
theorem calculateFluencyScore_cafe : calculateFluencyScore "CAFÉ café".toList 2 = 20 := by
  have hw : wordsOf "CAFÉ café".toList = ["café".toList, "café".toList] := by decide
  have hm : complexMarkers.any (fun marker => includes (toLowerCase "CAFÉ café".toList) marker)
      = false := by decide
  have hu : uniqueElements ["café".toList, "café".toList] = ["café".toList] := by decide
  simp only [calculateFluencyScore, varietyRatio, hw, hm, hu]
  norm_num

/-- C7: `calculateFluencyScore(text, w)` is the score of the specification, for every text
and every word count; the lower-casing is that of Unicode, so that "CAFÉ café" with the word
count 2 has one distinct token of two and the score 20. -/
theorem calculateFluencyScore_eq_spec (text : JsString) (w : Nat) :
    calculateFluencyScore text w = fluencyScoreSpec text w ∧
    toLowerCase "CAFÉ café".toList = "café café".toList ∧
    calculateFluencyScore "CAFÉ café".toList 2 = 20 := by
  refine ⟨?_, by decide, calculateFluencyScore_cafe⟩
  have hmark : (complexMarkers.any (fun marker => includes (toLowerCase text) marker) = true)
      ↔ ∃ m ∈ ["although", "because", "since", "while", "whereas", "however", "therefore"].map
        String.toList, m <:+: toLowerCase text := by
    simp only [List.any_eq_true, includes_iff, complexMarkers]
  simp only [calculateFluencyScore, fluencyScoreSpec, varietyRatio, wordsOf,
    length_uniqueElements, hmark]
  split_ifs <;> omega

theorem countIn_eq_countP (list words : List JsString) :
    countIn list words = words.countP (fun t => decide (t ∈ list)) := by
  simp [countIn, List.countP_eq_length_filter]

theorem advancedRatio_eq (text : JsString) :
    advancedRatio text = fractionIn advancedWords (splitWhitespace (toLowerCase text)) := by
  simp [advancedRatio, fractionIn, wordsOf, countIn_eq_countP]

theorem intermediateRatio_eq (text : JsString) :
    intermediateRatio text
      = fractionIn intermediateWords (splitWhitespace (toLowerCase text)) := by
  simp [intermediateRatio, fractionIn, wordsOf, countIn_eq_countP]

/-- C8: `assessVocabularyLevel` returns one of 'beginner', 'intermediate', 'advanced':
'advanced' if the fraction of lower-cased whitespace tokens in the advanced word list is above
0.10; otherwise 'intermediate' if the fraction in the intermediate word list is above 0.05;
otherwise 'beginner'. -/
theorem assessVocabularyLevel_thresholds (text : JsString) (targetLevel : Json) :
    (assessVocabularyLevel text targetLevel = "beginner".toList
      ∨ assessVocabularyLevel text targetLevel = "intermediate".toList
      ∨ assessVocabularyLevel text targetLevel = "advanced".toList) ∧
    (fractionIn advancedWords (splitWhitespace (toLowerCase text)) > 10 / 100 →
      assessVocabularyLevel text targetLevel = "advanced".toList) ∧
    (¬ fractionIn advancedWords (splitWhitespace (toLowerCase text)) > 10 / 100 →
      (fractionIn intermediateWords (splitWhitespace (toLowerCase text)) > 5 / 100 →
        assessVocabularyLevel text targetLevel = "intermediate".toList) ∧
      (¬ fractionIn intermediateWords (splitWhitespace (toLowerCase text)) > 5 / 100 →
        assessVocabularyLevel text targetLevel = "beginner".toList)) := by
  have h10 : (10 : ℚ) / 100 = 1 / 10 := by norm_num
  rw [← advancedRatio_eq, ← intermediateRatio_eq, h10]
  unfold assessVocabularyLevel
  refine ⟨?_, fun h => by rw [if_pos h], fun h => ⟨fun h2 => ?_, fun h2 => ?_⟩⟩
  · split_ifs <;> simp
  · rw [if_neg h, if_pos h2]
  · rw [if_neg h, if_neg h2]

/-- C9: between two texts with the same intermediate-word ratio, the one with the larger or
equal advanced-word ratio gets a level that is not lower, in the order
beginner < intermediate < advanced. -/
theorem assessVocabularyLevel_monotone (text₁ text₂ : JsString) (target₁ target₂ : Json)
    (hinter : intermediateRatio text₁ = intermediateRatio text₂)
    (hadv : advancedRatio text₁ ≤ advancedRatio text₂) :
    levelRank (assessVocabularyLevel text₁ target₁)
      ≤ levelRank (assessVocabularyLevel text₂ target₂) := by
  unfold assessVocabularyLevel
  rw [hinter]
  by_cases h1 : advancedRatio text₁ > 1 / 10
  · have h2 : advancedRatio text₂ > 1 / 10 := lt_of_lt_of_le h1 hadv
    rw [if_pos h1, if_pos h2]
  · rw [if_neg h1]
    by_cases h2 : advancedRatio text₂ > 1 / 10
    · rw [if_pos h2]
      split_ifs <;> decide
    · rw [if_neg h2]

theorem assessVocabularyLevel_monotone_witness :
    intermediateRatio "hello however".toList = intermediateRatio "subsequently however".toList ∧
    advancedRatio "hello however".toList ≤ advancedRatio "subsequently however".toList ∧
    levelRank (assessVocabularyLevel "hello however".toList (.str "beginner".toList))
      ≤ levelRank (assessVocabularyLevel "subsequently however".toList (.str "beginner".toList)) ∧
    levelRank (assessVocabularyLevel "hello however".toList (.str "beginner".toList)) = 1 ∧
    levelRank (assessVocabularyLevel "subsequently however".toList (.str "beginner".toList)) = 2 := by
  have hi1 : countIn intermediateWords (wordsOf "hello however".toList) = 1 := by decide
  have hi2 : countIn intermediateWords (wordsOf "subsequently however".toList) = 1 := by decide
  have ha1 : countIn advancedWords (wordsOf "hello however".toList) = 0 := by decide
  have ha2 : countIn advancedWords (wordsOf "subsequently however".toList) = 1 := by decide
  have hl1 : (wordsOf "hello however".toList).length = 2 := by decide
  have hl2 : (wordsOf "subsequently however".toList).length = 2 := by decide
  have hinter : intermediateRatio "hello however".toList
      = intermediateRatio "subsequently however".toList := by
    simp only [intermediateRatio, hi1, hi2, hl1, hl2]
  have hadv : advancedRatio "hello however".toList
      ≤ advancedRatio "subsequently however".toList := by
    simp only [advancedRatio, ha1, ha2, hl1, hl2]
    norm_num
  refine ⟨hinter, hadv,
    assessVocabularyLevel_monotone "hello however".toList "subsequently however".toList
      (.str "beginner".toList) (.str "beginner".toList) hinter hadv, ?_, ?_⟩
  · simp only [assessVocabularyLevel, advancedRatio, intermediateRatio, hi1, ha1, hl1]
    norm_num
    decide
  · simp only [assessVocabularyLevel, advancedRatio, intermediateRatio, hi2, ha2, hl2]
    norm_num
    decide

/-! ## Grammar check: double negatives -/

theorem occurrences_nil (p : JsString) (hp : p ≠ []) : occurrences p [] = 0 := by
  cases p with
  | nil => exact absurd rfl hp
  | cons a p => simp [occurrences, startsWith]

theorem occurrences_cons (p : JsString) (c : Char) (cs : JsString) :
    occurrences p (c :: cs) = (if startsWith (c :: cs) p then 1 else 0) + occurrences p cs := by
  simp only [occurrences, List.tails, List.countP_cons]
  omega

theorem no_overlap_after_match (p : JsString) (hub : Unbordered p) (c : Char) (cs : JsString)
    (hpre : p <+: c :: cs) (j : Nat) (hj : j < p.length - 1) : ¬ p <+: cs.drop j := by
  intro h
  obtain ⟨t, ht⟩ := hpre
  cases p with
  | nil => simp at hj
  | cons a q =>
    simp only [List.cons_append, List.cons.injEq] at ht
    obtain ⟨rfl, rfl⟩ := ht
    simp only [List.length_cons, Nat.add_sub_cancel] at hj
    have h1 : q.drop j <+: (q ++ t).drop j := by
      rw [List.drop_append_of_le_length (by omega)]
      exact List.prefix_append _ _
    have h2 : q.drop j <+: a :: q :=
      List.prefix_of_prefix_length_le h1 h (by simp; omega)
    exact hub (j + 1) (by omega) (by simp; omega) (by simpa using h2)

theorem length_splitStringAux (p : JsString) (hp : p ≠ []) (hub : Unbordered p) :
    ∀ (s : JsString) (skip : Nat) (cur : List Char), (∀ j, j < skip → ¬ p <+: s.drop j) →
      (splitStringAux p s skip cur).length = 1 + occurrences p s := by
  intro s
  induction s with
  | nil =>
    intro skip cur _
    simp [splitStringAux, occurrences_nil p hp]
  | cons c cs ih =>
    intro skip cur h
    cases skip with
    | succ k =>
      have h0 : ¬ p <+: c :: cs := by simpa using h 0 (by omega)
      rw [splitStringAux, ih k cur (fun j hj => by simpa using h (j + 1) (by omega)),
        occurrences_cons, if_neg (by rwa [startsWith_iff])]
      omega
    | zero =>
      rw [splitStringAux, occurrences_cons]
      by_cases hpre : startsWith (c :: cs) p = true
      · rw [if_pos hpre, if_pos hpre, List.length_cons,
          ih (p.length - 1) [] (no_overlap_after_match p hub c cs ((startsWith_iff _ _).1 hpre))]
        omega
      · rw [if_neg hpre, if_neg hpre, ih 0 (c :: cur) (fun j hj => by omega)]
        omega

theorem splitString_count (p : JsString) (hp : p ≠ []) (hub : Unbordered p) (s : JsString) :
    (splitString s p).length - 1 = occurrences p s := by
  rw [splitString, length_splitStringAux p hp hub s 0 [] (fun j hj => by omega)]
  omega

theorem unbordered_of_check (p : JsString)
    (h : (List.range p.length).all (fun k => k == 0 || !(p.drop k).isPrefixOf p) = true) :
    Unbordered p := by
  intro k hk0 hk hpre
  rw [List.all_eq_true] at h
  have := h k (List.mem_range.2 hk)
  simp only [Bool.or_eq_true, beq_iff_eq, Bool.not_eq_true', List.isPrefixOf_iff_prefix] at this
  rcases this with h1 | h1
  · omega
  · have h2 : (p.drop k).isPrefixOf p = true := List.isPrefixOf_iff_prefix.2 hpre
    rw [h1] at h2
    cases h2

theorem negativeCount_eq (s : JsString) : negativeCount s = markerOccurrences s := by
  simp only [negativeCount, negatives, List.foldl, markerOccurrences, List.map, List.sum_cons,
    List.sum_nil]
  rw [splitString_count "not".toList (by decide) (unbordered_of_check _ (by decide)),
    splitString_count "no".toList (by decide) (unbordered_of_check _ (by decide)),
    splitString_count "never".toList (by decide) (unbordered_of_check _ (by decide)),
    splitString_count "nothing".toList (by decide) (unbordered_of_check _ (by decide)),
    splitString_count "nobody".toList (by decide) (unbordered_of_check _ (by decide)),
    splitString_count "nowhere".toList (by decide) (unbordered_of_check _ (by decide))]
  omega

theorem doubleNegatives_capitalizationCheck (trimmed : JsString) :
    doubleNegatives (capitalizationCheck trimmed) = [] := by
  unfold capitalizationCheck
  simp only
  split_ifs
  · decide
  · rfl
  · rfl

theorem doubleNegatives_subjectVerbCheck (trimmed : JsString) :
    doubleNegatives (subjectVerbCheck trimmed) = [] := by
  unfold subjectVerbCheck
  split_ifs
  · decide
  · rfl

theorem doubleNegatives_doubleNegativeCheck (trimmed : JsString) :
    doubleNegatives (doubleNegativeCheck trimmed)
      = if markerOccurrences trimmed > 1 then [doubleNegativeIssue] else [] := by
  unfold doubleNegativeCheck
  rw [negativeCount_eq]
  split_ifs
  · decide
  · rfl

theorem doubleNegatives_append (xs ys : List GrammarIssue) :
    doubleNegatives (xs ++ ys) = doubleNegatives xs ++ doubleNegatives ys := by
  simp [doubleNegatives]

theorem doubleNegatives_sentenceIssues (sentence : JsString) :
    doubleNegatives (sentenceIssues sentence)
      = if markerOccurrences (toLowerCase (trim sentence)) > 1 then [doubleNegativeIssue]
        else [] := by
  simp only [sentenceIssues, doubleNegatives_append, doubleNegatives_capitalizationCheck,
    doubleNegatives_subjectVerbCheck, doubleNegatives_doubleNegativeCheck, List.nil_append]

theorem doubleNegatives_flatMap (f : JsString → List GrammarIssue) (l : List JsString) :
    doubleNegatives (l.flatMap f) = l.flatMap (fun s => doubleNegatives (f s)) := by
  induction l with
  | nil => rfl
  | cons a l ih =>
    rw [List.flatMap_cons, List.flatMap_cons, doubleNegatives_append, ih]

theorem mem_whiteSpaceCodes (c : Char) (h : isWhiteSpace c = true) :
    c.toNat ∈ whiteSpaceCodes := by
  simp only [isWhiteSpace, Bool.or_eq_true, Bool.and_eq_true, decide_eq_true_eq] at h
  simp only [whiteSpaceCodes, List.mem_cons, List.mem_singleton, List.not_mem_nil, or_false]
  omega

set_option maxRecDepth 100000 in
theorem whiteSpaceCodes_lower :
    ∀ n ∈ whiteSpaceCodes, n ≠ 0x3A3 ∧ n ≠ 0x130 ∧ simpleLowerCase n = n
      ∧ ¬ (65 ≤ n ∧ n ≤ 90)
      ∧ (inRanges caseIgnorableRanges n = true ∨ inRanges casedRanges n = false) := by
  decide

theorem lowerCaseAt_whiteSpace (before after : List Char) (c : Char)
    (h : isWhiteSpace c = true) : lowerCaseAt before c after = [c] := by
  obtain ⟨h1, h2, h3, h4, -⟩ := whiteSpaceCodes_lower c.toNat (mem_whiteSpaceCodes c h)
  unfold lowerCaseAt
  split_ifs with ha
  · simp only [Char.toLower]
    rw [if_neg h4]
  · rw [h3, Char.ofNat_toNat]

theorem startsWithCasedLetter_whiteSpace (w : List Char)
    (hw : ∀ c ∈ w, isWhiteSpace c = true) : startsWithCasedLetter w = false := by
  induction w with
  | nil => rfl
  | cons c w ih =>
    obtain ⟨-, -, -, -, h5⟩ :=
      whiteSpaceCodes_lower c.toNat (mem_whiteSpaceCodes c (hw c (by simp)))
    rw [startsWithCasedLetter]
    split_ifs with hi
    · exact ih (fun d hd => hw d (List.mem_cons_of_mem c hd))
    · rcases h5 with h5 | h5
      · exact absurd h5 hi
      · exact h5

theorem startsWithCasedLetter_append (x w : List Char)
    (hw : startsWithCasedLetter w = false) :
    startsWithCasedLetter (x ++ w) = startsWithCasedLetter x := by
  induction x with
  | nil => exact hw
  | cons c x ih =>
    rw [List.cons_append, startsWithCasedLetter, startsWithCasedLetter, ih]

theorem lowerCaseAt_congr (b₁ b₂ a₁ a₂ : List Char) (c : Char)
    (hb : startsWithCasedLetter b₁ = startsWithCasedLetter b₂)
    (ha : startsWithCasedLetter a₁ = startsWithCasedLetter a₂) :
    lowerCaseAt b₁ c a₁ = lowerCaseAt b₂ c a₂ := by
  simp only [lowerCaseAt, hb, ha]

theorem toLowerCaseAux_before (w : List Char) (hw : startsWithCasedLetter w = false) :
    ∀ (s b : List Char), toLowerCaseAux (b ++ w) s = toLowerCaseAux b s := by
  intro s
  induction s with
  | nil => intro b; rfl
  | cons c cs ih =>
    intro b
    rw [toLowerCaseAux, toLowerCaseAux, ← List.cons_append, ih (c :: b),
      lowerCaseAt_congr (b ++ w) b cs cs c (startsWithCasedLetter_append b w hw) rfl]

theorem toLowerCaseAux_whiteSpace (w : List Char) (hw : ∀ c ∈ w, isWhiteSpace c = true) :
    ∀ (b s : List Char), toLowerCaseAux b (w ++ s) = w ++ toLowerCaseAux (w.reverse ++ b) s := by
  induction w with
  | nil => intro b s; rfl
  | cons c w ih =>
    intro b s
    rw [List.cons_append, toLowerCaseAux, lowerCaseAt_whiteSpace _ _ c (hw c (by simp)),
      ih (fun d hd => hw d (List.mem_cons_of_mem c hd))]
    simp

theorem toLowerCaseAux_append_whiteSpace (w : List Char) (hw : ∀ c ∈ w, isWhiteSpace c = true) :
    ∀ (s b : List Char), toLowerCaseAux b (s ++ w) = toLowerCaseAux b s ++ w := by
  intro s
  induction s with
  | nil =>
    intro b
    have h := toLowerCaseAux_whiteSpace w hw b []
    simpa [toLowerCaseAux] using h
  | cons c cs ih =>
    intro b
    rw [List.cons_append, toLowerCaseAux, toLowerCaseAux, ih (c :: b),
      lowerCaseAt_congr b b (cs ++ w) cs c rfl
        (startsWithCasedLetter_append cs w (startsWithCasedLetter_whiteSpace w hw)),
      List.append_assoc]

/-- Lower-casing goes through the white space at the two ends of a string. -/
theorem toLowerCase_whiteSpace_ends (w₁ t w₂ : List Char)
    (h1 : ∀ c ∈ w₁, isWhiteSpace c = true) (h2 : ∀ c ∈ w₂, isWhiteSpace c = true) :
    toLowerCase (w₁ ++ t ++ w₂) = w₁ ++ (toLowerCase t ++ w₂) := by
  have hrev : startsWithCasedLetter (w₁.reverse ++ []) = false :=
    startsWithCasedLetter_whiteSpace _ (fun c hc => h1 c (by simpa using hc))
  unfold toLowerCase
  rw [List.append_assoc, toLowerCaseAux_whiteSpace w₁ h1,
    toLowerCaseAux_append_whiteSpace w₂ h2]
  have h := toLowerCaseAux_before (w₁.reverse ++ []) hrev t []
  rw [List.nil_append] at h
  rw [h]

theorem lowerCaseAt_fixed (before after : List Char) (c : Char)
    (h : c.toNat < 0x80 ∧ c.toLower = c) :
    lowerCaseAt before c after = [c] := by
  unfold lowerCaseAt
  rw [if_pos h.1, h.2]

theorem prefix_toLowerCaseAux (p : List Char) (hp : ∀ c ∈ p, c.toNat < 0x80 ∧ c.toLower = c) :
    ∀ (s b : List Char), p <+: s → p <+: toLowerCaseAux b s := by
  induction p with
  | nil => intro s b _; exact List.nil_prefix
  | cons c p ih =>
    intro s b h
    obtain ⟨t, rfl⟩ := h
    rw [List.cons_append, toLowerCaseAux, lowerCaseAt_fixed _ _ c (hp c (by simp))]
    simp only [List.singleton_append, List.cons_prefix_cons, true_and]
    exact ih (fun d hd => hp d (List.mem_cons_of_mem c hd)) _ _ (List.prefix_append p t)

theorem infix_toLowerCaseAux (p : List Char) (hp : ∀ c ∈ p, c.toNat < 0x80 ∧ c.toLower = c) :
    ∀ (s b : List Char), p <:+: s → p <:+: toLowerCaseAux b s := by
  intro s
  induction s with
  | nil =>
    intro b h
    have : p = [] := List.eq_nil_of_infix_nil h
    subst this
    exact List.nil_infix
  | cons c cs ih =>
    intro b h
    rcases List.infix_cons_iff.1 h with h | h
    · exact (prefix_toLowerCaseAux p hp _ b h).isInfix
    · rw [toLowerCaseAux]
      exact (ih (c :: b) h).trans (List.suffix_append _ _).isInfix

theorem infix_toLowerCase (p s : List Char) (hp : ∀ c ∈ p, c.toNat < 0x80 ∧ c.toLower = c)
    (h : p <:+: s) :
    p <:+: toLowerCase s :=
  infix_toLowerCaseAux p hp s [] h

theorem prefix_of_prefix_append_whiteSpace (p x w : JsString)
    (hp : ∀ c ∈ p, isWhiteSpace c = false) (hw : ∀ c ∈ w, isWhiteSpace c = true)
    (h : p <+: x ++ w) : p <+: x := by
  rcases List.prefix_or_prefix_of_prefix h (List.prefix_append x w) with h1 | h1
  · exact h1
  · obtain ⟨t, rfl⟩ := h1
    rw [List.prefix_append_right_inj] at h
    cases t with
    | nil => simp
    | cons a t =>
      have h2 : a ∈ w := h.subset (List.mem_cons_self a t)
      have h3 := hp a (by simp)
      rw [hw a h2] at h3
      cases h3

theorem occurrences_whiteSpace_append (p w m : JsString) (hne : p ≠ [])
    (hp : ∀ c ∈ p, isWhiteSpace c = false) (hw : ∀ c ∈ w, isWhiteSpace c = true) :
    occurrences p (w ++ m) = occurrences p m := by
  induction w with
  | nil => rfl
  | cons a w ih =>
    rw [List.cons_append, occurrences_cons, ih (fun c hc => hw c (List.mem_cons_of_mem a hc)),
      if_neg]
    · omega
    · rw [startsWith_iff]
      intro h
      cases p with
      | nil => exact hne rfl
      | cons b q =>
        have hb : b = a := by
          obtain ⟨t, ht⟩ := h
          simp only [List.cons_append, List.cons.injEq] at ht
          exact ht.1
        have h1 := hp b (by simp)
        rw [hb, hw a (by simp)] at h1
        cases h1

theorem occurrences_append_whiteSpace (p m w : JsString) (hne : p ≠ [])
    (hp : ∀ c ∈ p, isWhiteSpace c = false) (hw : ∀ c ∈ w, isWhiteSpace c = true) :
    occurrences p (m ++ w) = occurrences p m := by
  induction m with
  | nil =>
    have h := occurrences_whiteSpace_append p w [] hne hp hw
    rw [List.append_nil] at h
    rw [List.nil_append, h]
  | cons a m ih =>
    rw [List.cons_append, occurrences_cons, occurrences_cons, ih]
    congr 1
    have hiff : startsWith (a :: (m ++ w)) p = startsWith (a :: m) p := by
      rw [Bool.eq_iff_iff, startsWith_iff, startsWith_iff, ← List.cons_append]
      exact ⟨prefix_of_prefix_append_whiteSpace p (a :: m) w hp hw,
        fun h => h.trans (List.prefix_append _ _)⟩
    rw [hiff]

theorem trim_decomposition (s : JsString) :
    ∃ w₁ w₂, s = w₁ ++ trim s ++ w₂ ∧ (∀ c ∈ w₁, isWhiteSpace c = true)
      ∧ (∀ c ∈ w₂, isWhiteSpace c = true) := by
  refine ⟨s.takeWhile isWhiteSpace,
    ((s.dropWhile isWhiteSpace).reverse.takeWhile isWhiteSpace).reverse, ?_, ?_, ?_⟩
  · have h1 := List.takeWhile_append_dropWhile isWhiteSpace s
    have h2 := List.takeWhile_append_dropWhile isWhiteSpace (s.dropWhile isWhiteSpace).reverse
    have h3 : ((s.dropWhile isWhiteSpace).reverse.dropWhile isWhiteSpace).reverse
        ++ ((s.dropWhile isWhiteSpace).reverse.takeWhile isWhiteSpace).reverse
        = s.dropWhile isWhiteSpace := by
      rw [← List.reverse_append, h2, List.reverse_reverse]
    rw [trim, List.append_assoc, h3, h1]
  · intro c hc
    exact List.mem_takeWhile_imp hc
  · intro c hc
    exact List.mem_takeWhile_imp (List.mem_reverse.1 hc)

theorem occurrences_toLowerCase_trim (p s : JsString) (hne : p ≠ [])
    (hp : ∀ c ∈ p, isWhiteSpace c = false) :
    occurrences p (toLowerCase (trim s)) = occurrences p (toLowerCase s) := by
  obtain ⟨w₁, w₂, hs, h1, h2⟩ := trim_decomposition s
  have hsplit : toLowerCase s = w₁ ++ (toLowerCase (trim s) ++ w₂) := by
    conv_lhs => rw [hs]
    exact toLowerCase_whiteSpace_ends w₁ (trim s) w₂ h1 h2
  rw [hsplit, occurrences_whiteSpace_append p _ _ hne hp h1,
    occurrences_append_whiteSpace p _ _ hne hp h2]

theorem markerOccurrences_toLowerCase_trim (s : JsString) :
    markerOccurrences (toLowerCase (trim s)) = markerOccurrences (toLowerCase s) := by
  simp only [markerOccurrences, List.map, List.sum_cons, List.sum_nil]
  rw [occurrences_toLowerCase_trim "not".toList s (by decide) (by decide),
    occurrences_toLowerCase_trim "no".toList s (by decide) (by decide),
    occurrences_toLowerCase_trim "never".toList s (by decide) (by decide),
    occurrences_toLowerCase_trim "nothing".toList s (by decide) (by decide),
    occurrences_toLowerCase_trim "nobody".toList s (by decide) (by decide),
    occurrences_toLowerCase_trim "nowhere".toList s (by decide) (by decide)]

/-- C10: `analyzeGrammar` reports one `double_negative` issue, of severity major, for each
sentence whose lower-cased form holds more than one substring occurrence of the markers not,
no, never, nothing, nobody, nowhere, and none for any other sentence; "I don't know nothing"
gets exactly one. -/
theorem analyzeGrammar_double_negative (text : JsString) :
    doubleNegatives (analyzeGrammar text)
      = (sentencesOf text).flatMap (fun sentence =>
          if markerOccurrences (toLowerCase sentence) > 1 then [doubleNegativeIssue]
          else []) ∧
    doubleNegativeIssue.type = "double_negative".toList ∧
    doubleNegativeIssue.severity = "major".toList ∧
    doubleNegatives (analyzeGrammar "I don't know nothing".toList) = [doubleNegativeIssue] := by
  refine ⟨?_, rfl, rfl, by decide⟩
  rw [analyzeGrammar, doubleNegatives_flatMap]
  simp only [doubleNegatives_sentenceIssues, markerOccurrences_toLowerCase_trim]

/-! ## Grammar check: capitalization and subject-verb agreement -/

theorem indexesOf_ne_nil (p : JsString) :
    ∀ (s : JsString) (i : Nat), includes s p = true → indexesOf p s i ≠ [] := by
  intro s
  induction s with
  | nil =>
    intro i h
    simp only [includes] at h
    simp [indexesOf, h]
  | cons c cs ih =>
    intro i h
    rw [includes, Bool.or_eq_true] at h
    rw [indexesOf]
    rcases h with h | h
    · simp [h]
    · intro hnil
      exact ih (i + 1) h (List.append_eq_nil.1 hnil).2

theorem capitalizationCheck_eq (trimmed : JsString) :
    capitalizationCheck trimmed
      = if includes trimmed " i ".toList && !startsWith trimmed "i ".toList then
          [capitalizationIssue] else [] := by
  unfold capitalizationCheck
  by_cases h : (includes trimmed " i ".toList && !startsWith trimmed "i ".toList) = true
  · rw [if_pos h, if_pos h]
    have hinc : includes trimmed " i ".toList = true := by
      rw [Bool.and_eq_true] at h
      exact h.1
    have hpos : 0 < (indexesOf " i ".toList trimmed 0).length :=
      List.length_pos.2 (indexesOf_ne_nil _ trimmed 0 hinc)
    simp only [List.length_map, gt_iff_lt, hpos, if_true]
  · rw [if_neg h, if_neg h]

theorem capitalizations_append (xs ys : List GrammarIssue) :
    capitalizations (xs ++ ys) = capitalizations xs ++ capitalizations ys := by
  simp [capitalizations]

theorem capitalizations_sentenceIssues (sentence : JsString) :
    capitalizations (sentenceIssues sentence)
      = if includes (toLowerCase (trim sentence)) " i ".toList
            && !startsWith (toLowerCase (trim sentence)) "i ".toList then
          [capitalizationIssue] else [] := by
  have h1 : ∀ t, capitalizations (subjectVerbCheck t) = [] := by
    intro t
    unfold subjectVerbCheck
    split_ifs
    · decide
    · rfl
  have h2 : ∀ t, capitalizations (doubleNegativeCheck t) = [] := by
    intro t
    unfold doubleNegativeCheck
    split_ifs
    · decide
    · rfl
  simp only [sentenceIssues, capitalizations_append, h1, h2, List.append_nil,
    capitalizationCheck_eq]
  split_ifs
  · decide
  · rfl

theorem sentenceIssues_subset (text sentence : JsString) (h : sentence ∈ sentencesOf text) :
    ∀ i ∈ sentenceIssues sentence, i ∈ analyzeGrammar text := by
  intro i hi
  rw [analyzeGrammar, List.mem_flatMap]
  exact ⟨sentence, h, hi⟩

/-- C11, at a text the claim is wrong for: the only sentence of
"i are happy today and i are excited" has a lowercase "i" between two spaces in its middle,
and the issue list is one `subject_verb_agreement` issue with no `capitalization` issue. -/
theorem capitalization_scenario_counterexample :
    sentencesOf "i are happy today and i are excited".toList
      = ["i are happy today and i are excited".toList] ∧
    " i ".toList <:+: "i are happy today and i are excited".toList ∧
    analyzeGrammar "i are happy today and i are excited".toList = [subjectVerbIssue] ∧
    capitalizations (analyzeGrammar "i are happy today and i are excited".toList) = [] := by
  refine ⟨by decide, ?_, by decide, by decide⟩
  rw [← includes_iff]
  decide

/-- C11, as amended: a sentence whose trimmed form holds a lowercase "i" between two spaces
and does not begin with "i " or "I " produces one `capitalization` issue, of severity minor;
"i are happy today and i are excited", which begins with "i ", yields one
`subject_verb_agreement` issue of severity major and no `capitalization` issue. -/
theorem capitalization_of_inner_i (text sentence : JsString)
    (hs : sentence ∈ sentencesOf text) (hi : " i ".toList <:+: trim sentence)
    (hstart : ¬ "i ".toList <+: toLowerCase (trim sentence)) :
    capitalizations (sentenceIssues sentence) = [capitalizationIssue] ∧
    capitalizationIssue ∈ analyzeGrammar text ∧
    capitalizationIssue.severity = "minor".toList ∧
    analyzeGrammar "i are happy today and i are excited".toList = [subjectVerbIssue] ∧
    subjectVerbIssue.severity = "major".toList := by
  have hlow : includes (toLowerCase (trim sentence)) " i ".toList = true := by
    rw [includes_iff]
    exact infix_toLowerCase _ _ (by decide) hi
  have hst : startsWith (toLowerCase (trim sentence)) "i ".toList = false := by
    rw [Bool.eq_false_iff, ne_eq, startsWith_iff]
    exact hstart
  have hcap : capitalizations (sentenceIssues sentence) = [capitalizationIssue] := by
    rw [capitalizations_sentenceIssues, hlow, hst]
    rfl
  refine ⟨hcap, ?_, rfl, by decide, rfl⟩
  apply sentenceIssues_subset text sentence hs
  have hmem : capitalizationIssue ∈ capitalizations (sentenceIssues sentence) := by
    rw [hcap]
    exact List.mem_singleton.2 rfl
  exact (List.mem_filter.1 hmem).1

theorem capitalization_of_inner_i_witness :
    "today i am happy".toList ∈ sentencesOf "today i am happy".toList ∧
    " i ".toList <:+: trim "today i am happy".toList ∧
    (¬ "i ".toList <+: toLowerCase (trim "today i am happy".toList)) ∧
    (capitalizations (sentenceIssues "today i am happy".toList) = [capitalizationIssue] ∧
    capitalizationIssue ∈ analyzeGrammar "today i am happy".toList ∧
    capitalizationIssue.severity = "minor".toList ∧
    analyzeGrammar "i are happy today and i are excited".toList = [subjectVerbIssue] ∧
    subjectVerbIssue.severity = "major".toList) :=
  ⟨by decide, by rw [← includes_iff]; decide, by rw [← startsWith_iff]; decide,
    capitalization_of_inner_i "today i am happy".toList "today i am happy".toList (by decide)
      (by rw [← includes_iff]; decide) (by rw [← startsWith_iff]; decide)⟩

theorem includes_of_infix (t p q : JsString) (h : includes t p = true) (hq : q <:+: p) :
    includes t q = true := by
  rw [includes_iff] at h ⊢
  exact hq.trans h

theorem subjectVerbCheck_eq (trimmed : JsString) :
    subjectVerbCheck trimmed
      = if ∃ p ∈ [" i are ", " he are ", " she are "].map String.toList, p <:+: trimmed then
          [subjectVerbIssue] else [] := by
  have hare : ∀ p ∈ [" i are ", " he are ", " she are "].map String.toList,
      " are ".toList <:+: p := by
    intro p hp
    rw [← includes_iff]
    revert p
    decide
  unfold subjectVerbCheck
  by_cases h : ∃ p ∈ [" i are ", " he are ", " she are "].map String.toList, p <:+: trimmed
  · rw [if_pos h, if_pos]
    obtain ⟨p, hp, hin⟩ := h
    have h1 : includes trimmed " are ".toList = true :=
      includes_of_infix trimmed p _ ((includes_iff _ _).2 hin) (hare p hp)
    simp only [List.map, List.mem_cons, List.mem_singleton, List.not_mem_nil, or_false] at hp
    rw [← includes_iff] at hin
    rw [Bool.and_eq_true, Bool.or_eq_true, Bool.or_eq_true]
    rcases hp with rfl | rfl | rfl
    · exact ⟨h1, Or.inl (Or.inl hin)⟩
    · exact ⟨h1, Or.inl (Or.inr hin)⟩
    · exact ⟨h1, Or.inr hin⟩
  · rw [if_neg h, if_neg]
    intro hc
    apply h
    simp only [Bool.and_eq_true, Bool.or_eq_true, includes_iff] at hc
    rcases hc.2 with (h1 | h1) | h1
    · exact ⟨_, by simp, h1⟩
    · exact ⟨_, by simp, h1⟩
    · exact ⟨_, by simp, h1⟩

theorem subjectVerbs_append (xs ys : List GrammarIssue) :
    subjectVerbs (xs ++ ys) = subjectVerbs xs ++ subjectVerbs ys := by
  simp [subjectVerbs]

theorem subjectVerbs_sentenceIssues (sentence : JsString) :
    subjectVerbs (sentenceIssues sentence)
      = if ∃ p ∈ [" i are ", " he are ", " she are "].map String.toList,
            p <:+: toLowerCase (trim sentence) then
          [subjectVerbIssue] else [] := by
  have h1 : ∀ t, subjectVerbs (capitalizationCheck t) = [] := by
    intro t
    rw [capitalizationCheck_eq]
    split_ifs
    · decide
    · rfl
  have h2 : ∀ t, subjectVerbs (doubleNegativeCheck t) = [] := by
    intro t
    unfold doubleNegativeCheck
    split_ifs
    · decide
    · rfl
  simp only [sentenceIssues, subjectVerbs_append, h1, h2, List.append_nil, List.nil_append,
    subjectVerbCheck_eq]
  split_ifs
  · decide
  · rfl

theorem subjectVerbs_flatMap (f : JsString → List GrammarIssue) (l : List JsString) :
    subjectVerbs (l.flatMap f) = l.flatMap (fun s => subjectVerbs (f s)) := by
  induction l with
  | nil => rfl
  | cons a l ih =>
    rw [List.flatMap_cons, List.flatMap_cons, subjectVerbs_append, ih]

/-- C12, at a text the claim is wrong for: the only sentence of "i are happy" begins with
"i are", and no issue is reported. -/
theorem subject_verb_at_start_counterexample :
    sentencesOf "i are happy".toList = ["i are happy".toList] ∧
    "i are".toList <+: toLowerCase "i are happy".toList ∧
    analyzeGrammar "i are happy".toList = [] := by
  refine ⟨by decide, ?_, by decide⟩
  rw [← startsWith_iff]
  decide

/-- C12, as amended: `analyzeGrammar` reports one `subject_verb_agreement` issue, of severity
major, for each sentence whose trimmed, lower-cased form contains " i are ", " he are " or
" she are ", the two words with a space before and a space after, and none for any other
sentence. -/
theorem analyzeGrammar_subject_verb (text : JsString) :
    subjectVerbs (analyzeGrammar text)
      = (sentencesOf text).flatMap (fun sentence =>
          if ∃ p ∈ [" i are ", " he are ", " she are "].map String.toList,
              p <:+: toLowerCase (trim sentence) then
            [subjectVerbIssue] else []) ∧
    subjectVerbIssue.type = "subject_verb_agreement".toList ∧
    subjectVerbIssue.severity = "major".toList := by
  refine ⟨?_, rfl, rfl⟩
  rw [analyzeGrammar, subjectVerbs_flatMap]
  simp only [subjectVerbs_sentenceIssues]

/-! ## Pronunciation concerns and prompt composer: inherited properties -/

/-- C13, at the failing input: for the text "constructor" the lookup `difficultWords[cleanWord]`
finds the function `Object` inherited from `Object.prototype`, and one entry is pushed whose
word is not a dictionary word and whose tip is not a string. -/
theorem identifyPronunciationConcerns_constructor :
    identifyPronunciationConcerns "constructor".toList
      = [{ word := "constructor".toList, tip := .objectConstructor,
           type := "pronunciation".toList }] := by
  decide

/-- C14, at the failing input: for the personality "constructor", which is none of the ten
keys, the prompt starts with the text of the function `Object` inherited from
`Object.prototype`, not with the `conversation_partner` template. -/
theorem getEnhancedTutorPrompt_constructor (speechAnalysis : SpeechAnalysis) :
    getEnhancedTutorPrompt (.str "constructor".toList) (.str "beginner".toList)
        (.str "gentle".toList) speechAnalysis
      = .ok ("function Object() \x7b [native code] \x7d".toList ++ "\n\nStudent Level: ".toList
        ++ (difficultyContext "beginner".toList).toJsString ++ "\nFeedback Style: ".toList
        ++ (feedbackContext "gentle".toList).toJsString ++ "\n\n".toList ++ promptClosing) ∧
    getEnhancedTutorPrompt (.str "constructor".toList) (.str "beginner".toList)
        (.str "gentle".toList) speechAnalysis
      ≠ .ok (PERSONALITY_PROMPTS.conversation_partner ++ "\n\nStudent Level: ".toList
        ++ (difficultyContext "beginner".toList).toJsString ++ "\nFeedback Style: ".toList
        ++ (feedbackContext "gentle".toList).toJsString ++ "\n\n".toList ++ promptClosing) := by
  have h : getEnhancedTutorPrompt (.str "constructor".toList) (.str "beginner".toList)
      (.str "gentle".toList) speechAnalysis
      = .ok ("function Object() \x7b [native code] \x7d".toList ++ "\n\nStudent Level: ".toList
        ++ (difficultyContext "beginner".toList).toJsString ++ "\nFeedback Style: ".toList
        ++ (feedbackContext "gentle".toList).toJsString ++ "\n\n".toList ++ promptClosing) := by
    rfl
  refine ⟨h, ?_⟩
  rw [h]
  intro hc
  have hhead := congrArg List.head? (Except.ok.inj hc)
  revert hhead
  decide

/-- C20: for every string `text` and all values `difficultyLevel` and `learningMode`, each of
the four calls of the `try` block that use the text returns, the text being a string with the
method the call starts with, and the fifth only compares its arguments; so the `try` block
ends without an error, the `catch` block is not entered, and `analyzeSpeechForLearning` returns
an analysis whose `error` is not set, whose `grammarIssues` and `pronunciationConcerns` are
the lists of `analyzeGrammar` and `identifyPronunciationConcerns`, and whose `originalText` is
the text.  For a text that is not a string the first call of the block throws. -/
theorem analyzeSpeechForLearning_shape (text : JsString) (difficultyLevel learningMode : Json) :
    analyzeGrammar.call (.str text) = .ok (analyzeGrammar text) ∧
    assessVocabularyLevel.call (.str text) difficultyLevel
      = .ok (assessVocabularyLevel text difficultyLevel) ∧
    identifyPronunciationConcerns.call (.str text) = .ok (identifyPronunciationConcerns text) ∧
    (∀ wordCount, calculateFluencyScore.call (.str text) wordCount
      = .ok (calculateFluencyScore text wordCount)) ∧
    (∀ analysis, (analysisSteps analysis (.str text) difficultyLevel learningMode).2 = none) ∧
    (∀ analysis, (analysisSteps analysis (.num 5) difficultyLevel learningMode).2
      = some ⟨"text.split is not a function".toList⟩) ∧
    (analyzeSpeechForLearning text difficultyLevel learningMode).error = none ∧
    (analyzeSpeechForLearning text difficultyLevel learningMode).grammarIssues
      = analyzeGrammar text ∧
    (analyzeSpeechForLearning text difficultyLevel learningMode).pronunciationConcerns
      = identifyPronunciationConcerns text ∧
    (analyzeSpeechForLearning text difficultyLevel learningMode).originalText = text := by
  refine ⟨rfl, rfl, rfl, fun _ => rfl, fun _ => rfl, fun _ => rfl, ?_, ?_, ?_, ?_⟩
  · rw [analyzeSpeechForLearning_eq]
  · rw [analyzeSpeechForLearning_eq]
  · rw [analyzeSpeechForLearning_eq]
  · rw [analyzeSpeechForLearning_eq]

/-! ## Session relay: validation -/

theorem catchHandler_events (clock : Clock) (data : ChatPayload) (events : List RelayEvent)
    (error : RelayError) :
    emittedResponses (catchHandler clock data events error).events
      = emittedResponses events ++ [errorResponse (errorReply error)] ∧
    analyzerCalls (catchHandler clock data events error).events = analyzerCalls events ∧
    completionCalls (catchHandler clock data events error).events = completionCalls events := by
  unfold catchHandler
  simp only
  split <;>
    simp [emittedResponses, analyzerCalls, completionCalls, errorResponse, List.filterMap_append,
      List.countP_append, List.countP_cons]

theorem length_codeUnitsOf (c : Char) : 1 ≤ (codeUnitsOf c).length := by
  unfold codeUnitsOf
  split_ifs <;> simp

theorem utf16Length_cons (c : Char) (cs : JsString) :
    utf16Length (c :: cs) = (codeUnitsOf c).length + utf16Length cs := by
  simp [utf16Length, toCodeUnits]

theorem utf16Length_replicate (n : Nat) (c : Char) :
    utf16Length (List.replicate n c) = n * (codeUnitsOf c).length := by
  induction n with
  | zero => simp [utf16Length, toCodeUnits]
  | succ n ih =>
    rw [List.replicate_succ, utf16Length_cons, ih]
    ring

theorem validateText_ok_iff (value : Option Json) (text : JsString) :
    validateText value = .ok text
      ↔ value = some (.str text) ∧ 1 ≤ utf16Length text ∧ utf16Length text ≤ 1000 := by
  unfold validateText
  split
  · rename_i c cs
    have hpos : 1 ≤ utf16Length (c :: cs) := by
      rw [utf16Length_cons]
      have := length_codeUnitsOf c
      omega
    by_cases h : utf16Length (c :: cs) > CONFIG.maxMessageLength
    · rw [if_pos h]
      simp only [CONFIG.maxMessageLength] at h
      constructor
      · intro hc
        cases hc
      · rintro ⟨h1, -, h3⟩
        simp only [Option.some.injEq, Json.str.injEq] at h1
        subst h1
        omega
    · rw [if_neg h]
      simp only [CONFIG.maxMessageLength] at h
      constructor
      · intro hc
        cases hc
        exact ⟨rfl, hpos, by omega⟩
      · rintro ⟨h1, -, -⟩
        simp only [Option.some.injEq, Json.str.injEq] at h1
        rw [h1]
  · rename_i hne
    constructor
    · intro hc
      cases hc
    · rintro ⟨h1, h2, -⟩
      cases text with
      | nil => simp [utf16Length, toCodeUnits] at h2
      | cons c cs => exact absurd h1 (hne c cs)

theorem readPayload_text (data : ChatPayload) (fields : MessageFields)
    (h : readPayload data = .ok fields) : fields.text = payloadText data := by
  cases data with
  | string s =>
    simp only [readPayload, Except.ok.injEq] at h
    rw [← h]
    rfl
  | object o =>
    simp only [readPayload, Except.ok.injEq] at h
    rw [← h]
    rfl
  | other => simp [readPayload] at h

theorem readPayload_error (data : ChatPayload) (e : RelayError)
    (h : readPayload data = .error e) : payloadText data = none := by
  cases data with
  | string s => simp [readPayload] at h
  | object o => simp [readPayload] at h
  | other => rfl

theorem logUserTurn_of_convertible (fields : MessageFields) (h : ConvertibleFields fields) :
    logUserTurn fields.learningMode fields.difficultyLevel = none := by
  obtain ⟨h1, h2, -, -⟩ := h
  obtain ⟨a, ha⟩ := Option.isSome_iff_exists.1 h1
  obtain ⟨b, hb⟩ := Option.isSome_iff_exists.1 h2
  simp only [logUserTurn, ha, hb]

theorem getEnhancedTutorPrompt_of_convertible (fields : MessageFields)
    (h : ConvertibleFields fields) (speechAnalysis : SpeechAnalysis) :
    ∃ systemPrompt, getEnhancedTutorPrompt fields.personality fields.difficultyLevel
      fields.feedbackStyle speechAnalysis = .ok systemPrompt := by
  obtain ⟨-, h2, h3, h4⟩ := h
  obtain ⟨b, hb⟩ := Option.isSome_iff_exists.1 h2
  obtain ⟨c, hc⟩ := Option.isSome_iff_exists.1 h3
  obtain ⟨d, hd⟩ := Option.isSome_iff_exists.1 h4
  simp only [getEnhancedTutorPrompt, hb, hc, hd]
  exact ⟨_, rfl⟩

theorem errorReply_conversionError :
    errorReply (.typeError conversionError)
      = "I apologize, but I encountered an error. Please try again.".toList := by
  decide

theorem processMessage_calls (apiKey : Option JsString) (upstream : Nat → Outcome)
    (clock : Clock) (fields : MessageFields) (text : JsString) (h : ConvertibleFields fields) :
    analyzerCalls (processMessage apiKey upstream clock fields text).1 = 1 ∧
    completionCalls (processMessage apiKey upstream clock fields text).1 = 1 := by
  obtain ⟨systemPrompt, hp⟩ := getEnhancedTutorPrompt_of_convertible fields h
    (analyzeSpeechForLearning text fields.difficultyLevel fields.learningMode)
  unfold processMessage
  simp only [logUserTurn_of_convertible fields h, hp]
  split
  · simp [analyzerCalls, completionCalls]
  · split
    · simp [analyzerCalls, completionCalls]
    · split <;> simp [analyzerCalls, completionCalls, List.countP_append, List.countP_cons]

/-- When one of the four values cannot be converted to a string, the `try` block ends with a
`TypeError` before the completion client is called and before anything is emitted. -/
theorem processMessage_not_convertible (apiKey : Option JsString) (upstream : Nat → Outcome)
    (clock : Clock) (fields : MessageFields) (text : JsString) (h : ¬ ConvertibleFields fields) :
    ∃ events, processMessage apiKey upstream clock fields text
        = (events, some (.typeError conversionError)) ∧
      completionCalls events = 0 ∧ emittedResponses events = [] ∧ analyzerCalls events ≤ 1 ∧
      (fields.learningMode.toJsString = none ∨ fields.difficultyLevel.toJsString = none →
        analyzerCalls events = 0) := by
  unfold ConvertibleFields at h
  unfold processMessage
  cases h1 : fields.learningMode.toJsString <;> cases h2 : fields.difficultyLevel.toJsString
    <;> cases h3 : fields.personality.toJsString <;> cases h4 : fields.feedbackStyle.toJsString
    <;> simp [logUserTurn, getEnhancedTutorPrompt, h1, h2, h3, h4, completionCalls,
      emittedResponses, analyzerCalls] at h ⊢

/-- A payload with a valid text, whose optional values can be converted to strings, reaches
the analyzer and the completion client once each. -/
theorem handleChatMessage_of_valid (apiKey : Option JsString) (upstream : Nat → Outcome)
    (clock : Clock) (data : ChatPayload) (h : ValidText data)
    (hconv : ∀ fields, readPayload data = .ok fields → ConvertibleFields fields) :
    analyzerCalls (handleChatMessage apiKey upstream clock data).events = 1 ∧
    completionCalls (handleChatMessage apiKey upstream clock data).events = 1 := by
  obtain ⟨text, htext, h1, h2⟩ := h
  unfold handleChatMessage
  cases hr : readPayload data with
  | error e =>
    rw [readPayload_error data e hr] at htext
    cases htext
  | ok fields =>
    have hv : validateText fields.text = .ok text := by
      rw [validateText_ok_iff, readPayload_text data fields hr]
      exact ⟨htext, h1, h2⟩
    simp only [hv]
    have hc := processMessage_calls apiKey upstream clock fields text (hconv fields hr)
    cases hp : processMessage apiKey upstream clock fields text with
    | mk events err =>
      rw [hp] at hc
      cases err with
      | none => exact hc
      | some e =>
        have hk := catchHandler_events clock data events e
        simp only
        rw [hk.2.1, hk.2.2]
        exact hc

/-- A payload with a valid text and an optional value that cannot be converted to a string
is answered by the apology, and the completion client is not called. -/
theorem handleChatMessage_of_unconvertible (apiKey : Option JsString)
    (upstream : Nat → Outcome) (clock : Clock) (data : ChatPayload) (fields : MessageFields)
    (h : ValidText data) (hr : readPayload data = .ok fields) (hn : ¬ ConvertibleFields fields) :
    completionCalls (handleChatMessage apiKey upstream clock data).events = 0 ∧
    analyzerCalls (handleChatMessage apiKey upstream clock data).events ≤ 1 ∧
    emittedResponses (handleChatMessage apiKey upstream clock data).events
      = [errorResponse "I apologize, but I encountered an error. Please try again.".toList] := by
  obtain ⟨text, htext, h1, h2⟩ := h
  have hv : validateText fields.text = .ok text := by
    rw [validateText_ok_iff, readPayload_text data fields hr]
    exact ⟨htext, h1, h2⟩
  obtain ⟨events, hp, hc, he, ha, -⟩ :=
    processMessage_not_convertible apiKey upstream clock fields text hn
  have hk := catchHandler_events clock data events (.typeError conversionError)
  unfold handleChatMessage
  simp only [hr, hv, hp]
  rw [hk.1, hk.2.1, hk.2.2, he, errorReply_conversionError]
  exact ⟨hc, ha, rfl⟩

/-- A payload without a valid text goes to the `catch` block before any call. -/
theorem handleChatMessage_of_invalid (apiKey : Option JsString) (upstream : Nat → Outcome)
    (clock : Clock) (data : ChatPayload) (h : ¬ ValidText data) :
    ∃ e, handleChatMessage apiKey upstream clock data = catchHandler clock data [] e ∧
      (e = .invalidFormat ∨ e = .textRequired ∨ e = .tooLong) := by
  unfold handleChatMessage
  cases hr : readPayload data with
  | error e =>
    refine ⟨e, rfl, Or.inl ?_⟩
    cases data with
    | string s => simp [readPayload] at hr
    | object o => simp [readPayload] at hr
    | other =>
      simp only [readPayload, Except.error.injEq] at hr
      exact hr.symm
  | ok fields =>
    simp only
    cases hv : validateText fields.text with
    | error e =>
      refine ⟨e, rfl, Or.inr ?_⟩
      unfold validateText at hv
      split at hv
      · split_ifs at hv
        · cases hv
          exact Or.inr rfl
      · cases hv
        exact Or.inl rfl
    | ok text =>
      exfalso
      apply h
      rw [validateText_ok_iff, readPayload_text data fields hr] at hv
      exact ⟨text, hv⟩

theorem validateText_tooLong (text : JsString) (h : utf16Length text > 1000) :
    validateText (some (.str text)) = .error .tooLong := by
  cases text with
  | nil => simp [utf16Length, toCodeUnits] at h
  | cons c cs =>
    unfold validateText
    simp only [CONFIG.maxMessageLength]
    rw [if_pos h]

theorem readPayload_of_text (data : ChatPayload) (v : Json) (h : payloadText data = some v) :
    ∃ fields, readPayload data = .ok fields ∧ fields.text = some v := by
  cases data with
  | string s => exact ⟨_, rfl, h⟩
  | object o => exact ⟨_, rfl, h⟩
  | other => cases h

theorem errorReply_tooLong :
    errorReply .tooLong = "Message too long. Maximum 1000 characters allowed.".toList := by
  decide

/-- C15: for a payload whose text is a string of more than 1000 UTF-16 code units, which is
what `length` counts, the relay emits `{reply: "Message too long. Maximum 1000 characters
allowed.", speechAnalysis: null, learningFeedback: null, error: true}` and nothing else, and
calls neither the analyzer nor the completion client, through which alone the upstream service
is reached. -/
theorem relay_rejects_long_text (apiKey : Option JsString) (upstream : Nat → Outcome)
    (clock : Clock) (data : ChatPayload) (text : JsString)
    (htext : payloadText data = some (.str text)) (hlen : utf16Length text > 1000) :
    emittedResponses (handleChatMessage apiKey upstream clock data).events
      = [{ reply := some (.str "Message too long. Maximum 1000 characters allowed.".toList)
           speechAnalysis := none
           learningFeedback := none
           metadata := none
           error := true }] ∧
    analyzerCalls (handleChatMessage apiKey upstream clock data).events = 0 ∧
    completionCalls (handleChatMessage apiKey upstream clock data).events = 0 := by
  obtain ⟨fields, hr, hf⟩ := readPayload_of_text data _ htext
  have hrun : handleChatMessage apiKey upstream clock data
      = catchHandler clock data [] .tooLong := by
    unfold handleChatMessage
    simp only [hr, hf, validateText_tooLong text hlen]
  have hk := catchHandler_events clock data [] .tooLong
  rw [hrun, hk.1, hk.2.1, hk.2.2, errorReply_tooLong]
  exact ⟨rfl, rfl, rfl⟩

theorem relay_rejects_long_text_witness :
    payloadText (.string (List.replicate 501 grinningFace))
      = some (.str (List.replicate 501 grinningFace)) ∧
    utf16Length (List.replicate 501 grinningFace) > 1000 ∧
    (List.replicate 501 grinningFace).length = 501 ∧
    (emittedResponses (handleChatMessage none unreachableUpstream sampleClock
        (.string (List.replicate 501 grinningFace))).events
      = [{ reply := some (.str "Message too long. Maximum 1000 characters allowed.".toList)
           speechAnalysis := none
           learningFeedback := none
           metadata := none
           error := true }] ∧
    analyzerCalls (handleChatMessage none unreachableUpstream sampleClock
        (.string (List.replicate 501 grinningFace))).events = 0 ∧
    completionCalls (handleChatMessage none unreachableUpstream sampleClock
        (.string (List.replicate 501 grinningFace))).events = 0) :=
  have hlen : utf16Length (List.replicate 501 grinningFace) > 1000 := by
    rw [utf16Length_replicate]
    decide
  ⟨rfl, hlen, List.length_replicate _ _,
    relay_rejects_long_text none unreachableUpstream sampleClock
      (.string (List.replicate 501 grinningFace)) (List.replicate 501 grinningFace) rfl hlen⟩

/-- C16, at the failing input: the payload `{text: "hello", learningMode: {toString: null}}`
has a valid text, yet the relay calls neither the analyzer nor the completion client and
emits the apology with `error: true`, because the conversion of the mode to a string, in the
template literal at the head of the `try` block, throws.  Apart from such values the claim
holds: a payload whose mode, level, personality and feedback style can be converted to
strings goes on to the analyzer and the completion client if and only if its text is a string
of 1 to 1000 code units, and every payload without such a text is answered by one response
`{reply: string, speechAnalysis: null, learningFeedback: null, error: true}` with no call. -/
theorem relay_rejects_unprintable_mode (apiKey : Option JsString) (upstream : Nat → Outcome)
    (clock : Clock) (data : ChatPayload) :
    (ValidText (.object unprintableModeObject) ∧
      analyzerCalls
        (handleChatMessage apiKey upstream clock (.object unprintableModeObject)).events = 0 ∧
      completionCalls
        (handleChatMessage apiKey upstream clock (.object unprintableModeObject)).events = 0 ∧
      emittedResponses
        (handleChatMessage apiKey upstream clock (.object unprintableModeObject)).events
        = [{ reply := some
               (.str "I apologize, but I encountered an error. Please try again.".toList)
             speechAnalysis := none
             learningFeedback := none
             metadata := none
             error := true }]) ∧
    ((∀ fields, readPayload data = .ok fields → ConvertibleFields fields) →
      (ValidText data ↔
        analyzerCalls (handleChatMessage apiKey upstream clock data).events = 1 ∧
        completionCalls (handleChatMessage apiKey upstream clock data).events = 1)) ∧
    (¬ ValidText data →
      analyzerCalls (handleChatMessage apiKey upstream clock data).events = 0 ∧
      completionCalls (handleChatMessage apiKey upstream clock data).events = 0 ∧
      ∃ reply : JsString,
        emittedResponses (handleChatMessage apiKey upstream clock data).events
          = [{ reply := some (.str reply)
               speechAnalysis := none
               learningFeedback := none
               metadata := none
               error := true }]) := by
  have hinv : ¬ ValidText data →
      analyzerCalls (handleChatMessage apiKey upstream clock data).events = 0 ∧
      completionCalls (handleChatMessage apiKey upstream clock data).events = 0 ∧
      ∃ reply : JsString,
        emittedResponses (handleChatMessage apiKey upstream clock data).events
          = [{ reply := some (.str reply)
               speechAnalysis := none
               learningFeedback := none
               metadata := none
               error := true }] := by
    intro h
    obtain ⟨e, hrun, -⟩ := handleChatMessage_of_invalid apiKey upstream clock data h
    have hk := catchHandler_events clock data [] e
    rw [hrun, hk.1, hk.2.1, hk.2.2]
    exact ⟨rfl, rfl, errorReply e, rfl⟩
  refine ⟨⟨⟨"hello".toList, rfl, by decide, by decide⟩, ?_, ?_, ?_⟩, ?_, hinv⟩
  · have hrun : handleChatMessage apiKey upstream clock (.object unprintableModeObject)
        = catchHandler clock (.object unprintableModeObject) []
            (.typeError conversionError) := rfl
    rw [hrun, (catchHandler_events _ _ _ _).2.1]
    rfl
  · have hrun : handleChatMessage apiKey upstream clock (.object unprintableModeObject)
        = catchHandler clock (.object unprintableModeObject) []
            (.typeError conversionError) := rfl
    rw [hrun, (catchHandler_events _ _ _ _).2.2]
    rfl
  · have hrun : handleChatMessage apiKey upstream clock (.object unprintableModeObject)
        = catchHandler clock (.object unprintableModeObject) []
            (.typeError conversionError) := rfl
    rw [hrun, (catchHandler_events _ _ _ _).1, errorReply_conversionError]
    rfl
  · intro hconv
    refine ⟨fun h => handleChatMessage_of_valid apiKey upstream clock data h hconv, ?_⟩
    intro h
    by_contra hnv
    have h0 := (hinv hnv).1
    omega

/-! ## Session relay: replies -/

theorem makeAPICallWithRetry_okUpstream (apiKey : Option JsString) (data : Json)
    (req : CompletionRequest) (hkey : hasApiKey apiKey = true) :
    makeAPICallWithRetry apiKey (okUpstream data) req CONFIG.maxRetries
      = (.response { status := 200, statusText := "OK".toList, retryAfter := none,
                     data := data }, [.post req]) := by
  simp [makeAPICallWithRetry, hkey, attemptLoop, attemptBody, validateStatus, okUpstream,
    CONFIG.maxRetries]

/-- C17, at the failing input: with a credential configured, the payload "hello" and an
upstream answer of status 200 whose message has the content `null`, the relay emits two
`tutor response` events: the first with the reply `null`, which is not a string, the second
the error response sent after `logLearningInteraction` threw on `null.substring`. -/
theorem relay_null_content_emits_twice :
    (emittedResponses (handleChatMessage (some ['k']) (okUpstream nullContentBody) sampleClock
        (.string "hello".toList)).events).map (fun r => (r.reply, r.error))
      = [(some .null, false),
         (some (.str "I apologize, but I encountered an error. Please try again.".toList),
           true)] := by
  have hcall := fun req =>
    makeAPICallWithRetry_okUpstream (some ['k']) nullContentBody req rfl
  have hv : validateText (some (.str "hello".toList)) = .ok "hello".toList :=
    (validateText_ok_iff _ _).2 ⟨rfl, by decide, by decide⟩
  have hl : logUserTurn (.str "conversation".toList) (.str "intermediate".toList) = none := rfl
  have hp : ∀ a, ∃ systemPrompt,
      getEnhancedTutorPrompt (.str "conversation_partner".toList) (.str "intermediate".toList)
        (.str "gentle".toList) a = .ok systemPrompt := fun a => ⟨_, rfl⟩
  obtain ⟨systemPrompt, hprompt⟩ := hp
    (analyzeSpeechForLearning "hello".toList (.str "intermediate".toList)
      (.str "conversation".toList))
  simp only [handleChatMessage, readPayload, hv, processMessage, hl, hprompt, hcall]
  rfl

theorem readReply_createFallbackResponse (req : CompletionRequest) :
    readReply (createFallbackResponse req) = .ok (some (.str (fallbackReply req))) := by
  rfl

/-- Without a credential the `try` block runs to its end, and the reply of the one response
it emits is the fallback reply for the request. -/
theorem processMessage_without_credential (apiKey : Option JsString)
    (upstream : Nat → Outcome) (clock : Clock) (fields : MessageFields) (text : JsString)
    (systemPrompt : JsString) (hkey : hasApiKey apiKey = false)
    (hlog : logUserTurn fields.learningMode fields.difficultyLevel = none)
    (hprompt : getEnhancedTutorPrompt fields.personality fields.difficultyLevel
      fields.feedbackStyle
      (analyzeSpeechForLearning text fields.difficultyLevel fields.learningMode)
      = .ok systemPrompt) :
    ∃ events, processMessage apiKey upstream clock fields text = (events, none) ∧
      emittedResponses events
        = [{ reply := some (.str (fallbackReply (relayRequest fields text systemPrompt)))
             speechAnalysis := some
               (analyzeSpeechForLearning text fields.difficultyLevel fields.learningMode)
             learningFeedback := some
               (extractLearningFeedback (fallbackReply (relayRequest fields text systemPrompt)))
             metadata := some
               { processingTime := clock.processingTime
                 model := fields.model
                 personality := fields.personality
                 learningMode := fields.learningMode
                 difficultyLevel := fields.difficultyLevel
                 timestamp := clock.timestamp }
             error := false }] := by
  have hcall : ∀ req, makeAPICallWithRetry apiKey upstream req CONFIG.maxRetries
      = (createFallbackResponse req, []) := by
    intro req
    simp [makeAPICallWithRetry, hkey]
  simp only [processMessage, hlog, hprompt, hcall, readReply_createFallbackResponse, replyText,
    Json.toJsString, logLearningInteraction, truncateForLog, List.cons_append, List.nil_append]
  exact ⟨_, rfl, rfl⟩

theorem containsIgnoringCase_userTurnContent (text pattern : JsString)
    (speechAnalysis : SpeechAnalysis) (h : ContainsIgnoringCase text pattern) :
    ContainsIgnoringCase (userTurnContent text speechAnalysis) pattern := by
  obtain ⟨w, hw, hp⟩ := h
  refine ⟨w, ?_, hp⟩
  unfold userTurnContent
  exact hw.trans ⟨"Student said: \"".toList,
    "\"\n\nSpeech Analysis: ".toList ++ stringifySpeechAnalysis speechAnalysis
      ++ "\n\nPlease provide appropriate feedback and continue the conversation.".toList,
    by simp only [List.append_assoc]⟩

/-- C18, at the failing input: with no credential, the payload
`{text: "hello", personality: {toString: null}}` has a valid text that contains a greeting
word, yet the one response of the relay has the error flag and the apology as its reply: the
use of the personality as a property key throws after the analyzer has run.  Apart from such
values the claim holds: for every payload whose text is valid and contains a greeting word
in any letter case, and whose mode, level, personality and feedback style can be converted to
strings, the relay emits one response, without the error flag, whose reply is the greeting
reply, which contains "English tutor", and whose speechAnalysis is the result of the analyzer
for that text; for "hello how are you" its wordCount is 4. -/
theorem relay_greeting_without_credential (apiKey : Option JsString)
    (upstream : Nat → Outcome) (clock : Clock) (data : ChatPayload) (fields : MessageFields)
    (text : JsString) (hkey : hasApiKey apiKey = false)
    (hread : readPayload data = .ok fields) (htext : payloadText data = some (.str text))
    (hlen : 1 ≤ utf16Length text ∧ utf16Length text ≤ 1000)
    (hgreet : ∃ p ∈ ["hello", "hi", "hey", "good morning", "good afternoon",
        "good evening"].map String.toList, ContainsIgnoringCase text p)
    (hconv : ConvertibleFields fields) :
    emittedResponses (handleChatMessage apiKey upstream clock data).events
      = [{ reply := some (.str greetingReply)
           speechAnalysis := some
             (analyzeSpeechForLearning text fields.difficultyLevel fields.learningMode)
           learningFeedback := some (extractLearningFeedback greetingReply)
           metadata := some
             { processingTime := clock.processingTime
               model := fields.model
               personality := fields.personality
               learningMode := fields.learningMode
               difficultyLevel := fields.difficultyLevel
               timestamp := clock.timestamp }
           error := false }] ∧
    "English tutor".toList <:+: greetingReply ∧
    (analyzeSpeechForLearning "hello how are you".toList fields.difficultyLevel
      fields.learningMode).wordCount = 4 ∧
    (ContainsIgnoringCase "hello".toList "hello".toList ∧
      ValidText (.object unprintablePersonalityObject) ∧
      emittedResponses
        (handleChatMessage apiKey upstream clock (.object unprintablePersonalityObject)).events
        = [{ reply := some
               (.str "I apologize, but I encountered an error. Please try again.".toList)
             speechAnalysis := none
             learningFeedback := none
             metadata := none
             error := true }] ∧
      analyzerCalls
        (handleChatMessage apiKey upstream clock (.object unprintablePersonalityObject)).events
        = 1) := by
  refine ⟨?_, ?_, ?_, ⟨"hello".toList, List.infix_refl _, rfl⟩,
    ⟨"hello".toList, rfl, by decide, by decide⟩, ?_, ?_⟩
  · obtain ⟨systemPrompt, hprompt⟩ := getEnhancedTutorPrompt_of_convertible fields hconv
      (analyzeSpeechForLearning text fields.difficultyLevel fields.learningMode)
    obtain ⟨events, hproc, hemit⟩ :=
      processMessage_without_credential apiKey upstream clock fields text systemPrompt hkey
        (logUserTurn_of_convertible fields hconv) hprompt
    have hv : validateText fields.text = .ok text := by
      rw [validateText_ok_iff, readPayload_text data fields hread]
      exact ⟨htext, hlen⟩
    have hreply : fallbackReply (relayRequest fields text systemPrompt) = greetingReply := by
      obtain ⟨p, hp, hc⟩ := hgreet
      have hg : isGreeting (userMessageOf (relayRequest fields text systemPrompt)) = true := by
        rw [isGreeting_iff]
        exact ⟨p, hp, containsIgnoringCase_userTurnContent text p _ hc⟩
      unfold fallbackReply
      simp only [hg, if_true]
    unfold handleChatMessage
    simp only [hread, hv, hproc, hemit, hreply]
  · rw [← includes_iff]
    decide
  · rw [analyzeSpeechForLearning_eq]
    change (splitWhitespace "hello how are you".toList).length = 4
    decide
  · have hrun : handleChatMessage apiKey upstream clock (.object unprintablePersonalityObject)
        = catchHandler clock (.object unprintablePersonalityObject)
            [.analyzed "hello".toList (.str "intermediate".toList)
              (.str "conversation".toList)]
            (.typeError conversionError) := rfl
    rw [hrun, (catchHandler_events _ _ _ _).1, errorReply_conversionError]
    rfl
  · have hrun : handleChatMessage apiKey upstream clock (.object unprintablePersonalityObject)
        = catchHandler clock (.object unprintablePersonalityObject)
            [.analyzed "hello".toList (.str "intermediate".toList)
              (.str "conversation".toList)]
            (.typeError conversionError) := rfl
    rw [hrun, (catchHandler_events _ _ _ _).2.1]
    rfl

theorem relay_greeting_without_credential_witness :
    hasApiKey none = false ∧
    readPayload (.string "hello how are you".toList)
      = .ok (defaultFields "hello how are you".toList) ∧
    payloadText (.string "hello how are you".toList)
      = some (.str "hello how are you".toList) ∧
    (1 ≤ utf16Length "hello how are you".toList
      ∧ utf16Length "hello how are you".toList ≤ 1000) ∧
    (∃ p ∈ ["hello", "hi", "hey", "good morning", "good afternoon",
        "good evening"].map String.toList,
      ContainsIgnoringCase "hello how are you".toList p) ∧
    ConvertibleFields (defaultFields "hello how are you".toList) ∧
    (emittedResponses (handleChatMessage none unreachableUpstream sampleClock
        (.string "hello how are you".toList)).events
      = [{ reply := some (.str greetingReply)
           speechAnalysis := some
             (analyzeSpeechForLearning "hello how are you".toList (.str "intermediate".toList)
               (.str "conversation".toList))
           learningFeedback := some (extractLearningFeedback greetingReply)
           metadata := some
             { processingTime := sampleClock.processingTime
               model := .str "openai/gpt-3.5-turbo".toList
               personality := .str "conversation_partner".toList
               learningMode := .str "conversation".toList
               difficultyLevel := .str "intermediate".toList
               timestamp := sampleClock.timestamp }
           error := false }] ∧
    "English tutor".toList <:+: greetingReply ∧
    (analyzeSpeechForLearning "hello how are you".toList (.str "intermediate".toList)
      (.str "conversation".toList)).wordCount = 4) :=
  have hg : ∃ p ∈ ["hello", "hi", "hey", "good morning", "good afternoon",
      "good evening"].map String.toList,
      ContainsIgnoringCase "hello how are you".toList p :=
    ⟨"hello".toList, by simp, "hello".toList, ⟨[], " how are you".toList, rfl⟩, rfl⟩
  have hconv : ConvertibleFields (defaultFields "hello how are you".toList) :=
    ⟨rfl, rfl, rfl, rfl⟩
  have h := relay_greeting_without_credential none unreachableUpstream sampleClock
    (.string "hello how are you".toList) (defaultFields "hello how are you".toList)
    "hello how are you".toList rfl rfl rfl ⟨by decide, by decide⟩ hg hconv
  ⟨rfl, rfl, rfl, ⟨by decide, by decide⟩, hg, hconv, h.1, h.2.1, h.2.2.1⟩

/-! ## Session relay: payload formats -/

theorem orDefault_idem (value : Option Json) (fallback : JsString) :
    orDefault (some (orDefault value fallback)) fallback = orDefault value fallback := by
  cases value with
  | none => cases fallback <;> rfl
  | some v =>
    unfold orDefault
    by_cases hv : v.truthy = true
    · simp only [hv, if_true]
    · simp only [hv]
      cases fallback <;> rfl

theorem readPayload_fillDefaults (o : MessageObject) :
    readPayload (.object (fillDefaults o)) = readPayload (.object o) := by
  simp only [readPayload, fillDefaults, orDefault_idem]

/-- The responses emitted for a payload depend on the payload through the variables read from
it alone. -/
theorem emittedResponses_congr (apiKey : Option JsString) (upstream : Nat → Outcome)
    (clock : Clock) (data₁ data₂ : ChatPayload) (h : readPayload data₁ = readPayload data₂) :
    emittedResponses (handleChatMessage apiKey upstream clock data₁).events
      = emittedResponses (handleChatMessage apiKey upstream clock data₂).events := by
  unfold handleChatMessage
  rw [h]
  cases readPayload data₂ with
  | error e =>
    simp only
    rw [(catchHandler_events clock data₁ [] e).1, (catchHandler_events clock data₂ [] e).1]
  | ok fields =>
    simp only
    cases validateText fields.text with
    | error e =>
      simp only
      rw [(catchHandler_events clock data₁ [] e).1, (catchHandler_events clock data₂ [] e).1]
    | ok text =>
      simp only
      cases processMessage apiKey upstream clock fields text with
      | mk events err =>
        cases err with
        | none => rfl
        | some e =>
          simp only
          rw [(catchHandler_events clock data₁ events e).1,
            (catchHandler_events clock data₂ events e).1]

theorem catchHandler_string_object (clock : Clock) (s : JsString) (events : List RelayEvent)
    (e : RelayError) :
    catchHandler clock (.string s) events e
      = catchHandler clock (.object (textOnlyObject s)) events e := by
  cases s with
  | nil => rfl
  | cons c cs => rfl

/-- C19: handling the bare string `s` is the same run as handling the object `{text: s}`,
with the model 'openai/gpt-3.5-turbo', the personality 'conversation_partner', the
learningMode 'conversation', the difficultyLevel 'intermediate' and the feedbackStyle
'gentle'; and an object payload with optional fields missing is read, and answered, as the
same payload with those fields set to these defaults. -/
theorem relay_string_payload_as_object (apiKey : Option JsString) (upstream : Nat → Outcome)
    (clock : Clock) (s : JsString) (o : MessageObject) :
    handleChatMessage apiKey upstream clock (.string s)
      = handleChatMessage apiKey upstream clock (.object (textOnlyObject s)) ∧
    readPayload (.string s)
      = .ok { text := some (.str s)
              model := .str "openai/gpt-3.5-turbo".toList
              personality := .str "conversation_partner".toList
              learningMode := .str "conversation".toList
              difficultyLevel := .str "intermediate".toList
              feedbackStyle := .str "gentle".toList } ∧
    readPayload (.object o) = readPayload (.object (fillDefaults o)) ∧
    emittedResponses (handleChatMessage apiKey upstream clock (.object o)).events
      = emittedResponses
          (handleChatMessage apiKey upstream clock (.object (fillDefaults o))).events := by
  refine ⟨?_, rfl, (readPayload_fillDefaults o).symm,
    emittedResponses_congr apiKey upstream clock _ _ (readPayload_fillDefaults o).symm⟩
  have hr : readPayload (.object (textOnlyObject s)) = readPayload (.string s) := rfl
  unfold handleChatMessage
  rw [hr]
  simp only [catchHandler_string_object]

/-! ## Suggestions, counts and bounds -/

theorem strictEquals_iff (value : Json) (s : JsString) :
    value.strictEquals s = true ↔ value = .str s := by
  cases value <;> simp [Json.strictEquals]

/-- C21: `generateLearningSuggestions` includes 'Try speaking in longer sentences and using
connecting words' if and only if the mode is 'fluency' and the fluency score is below 70, and
includes the elaboration suggestion if and only if the word count is below 10, whatever the
mode. -/
theorem generateLearningSuggestions_iff (analysis : SpeechAnalysis)
    (learningMode difficultyLevel : Json) :
    ("Try speaking in longer sentences and using connecting words".toList
        ∈ generateLearningSuggestions analysis learningMode difficultyLevel
      ↔ learningMode = .str "fluency".toList ∧ analysis.fluencyScore < 70) ∧
    ("Try to elaborate more on your thoughts - give examples or details".toList
        ∈ generateLearningSuggestions analysis learningMode difficultyLevel
      ↔ analysis.wordCount < 10) := by
  have h1 : "Try speaking in longer sentences and using connecting words".toList
      ≠ "Focus on the grammar corrections provided above".toList := by decide
  have h2 : "Try speaking in longer sentences and using connecting words".toList
      ≠ "Try using more complex vocabulary and linking words".toList := by decide
  have h3 : "Try speaking in longer sentences and using connecting words".toList
      ≠ "Try to elaborate more on your thoughts - give examples or details".toList := by decide
  have h4 : "Try to elaborate more on your thoughts - give examples or details".toList
      ≠ "Focus on the grammar corrections provided above".toList := by decide
  have h5 : "Try to elaborate more on your thoughts - give examples or details".toList
      ≠ "Try using more complex vocabulary and linking words".toList := by decide
  unfold generateLearningSuggestions
  simp only [strictEquals_iff]
  constructor
  · simp only [List.mem_append]
    constructor
    · rintro (((h | h) | h) | h)
      · split_ifs at h <;> simp_all
      · split_ifs at h <;> simp_all
      · split_ifs at h with hc
        · exact hc
        · simp at h
      · split_ifs at h <;> simp_all
    · intro hc
      exact Or.inl (Or.inr (by rw [if_pos hc]; exact List.mem_singleton.2 rfl))
  · simp only [List.mem_append]
    constructor
    · rintro (((h | h) | h) | h)
      · split_ifs at h <;> simp_all
      · split_ifs at h <;> simp_all
      · split_ifs at h <;> simp_all
      · split_ifs at h with hc
        · exact hc
        · simp at h
    · intro hc
      exact Or.inr (by rw [if_pos hc]; exact List.mem_singleton.2 rfl)

theorem length_sentenceIssues_le (sentence : JsString) :
    (sentenceIssues sentence).length ≤ 3 := by
  have h1 : ∀ t, (capitalizationCheck t).length ≤ 1 := by
    intro t
    rw [capitalizationCheck_eq]
    split_ifs <;> simp
  have h2 : ∀ t, (subjectVerbCheck t).length ≤ 1 := by
    intro t
    unfold subjectVerbCheck
    split_ifs <;> simp
  have h3 : ∀ t, (doubleNegativeCheck t).length ≤ 1 := by
    intro t
    unfold doubleNegativeCheck
    split_ifs <;> simp
  simp only [sentenceIssues, List.length_append]
  have a := h1 (toLowerCase (trim sentence))
  have b := h2 (toLowerCase (trim sentence))
  have c := h3 (toLowerCase (trim sentence))
  omega

theorem length_flatMap_le (f : JsString → List GrammarIssue) (n : Nat)
    (h : ∀ s, (f s).length ≤ n) (l : List JsString) : (l.flatMap f).length ≤ n * l.length := by
  induction l with
  | nil => simp
  | cons a l ih =>
    rw [List.flatMap_cons, List.length_append, List.length_cons, Nat.mul_succ]
    have := h a
    omega

/-- C30: for each sentence `analyzeGrammar` produces at most one issue of each of the three
types, so the length of `grammarIssues` is at most 3 times the `sentenceCount` of the
analysis; and the list is empty when the text has no sentence that is not blank. -/
theorem analyzeGrammar_length_bound (text : JsString) (difficultyLevel learningMode : Json) :
    (∀ sentence, (capitalizations (sentenceIssues sentence)).length ≤ 1 ∧
      (subjectVerbs (sentenceIssues sentence)).length ≤ 1 ∧
      (doubleNegatives (sentenceIssues sentence)).length ≤ 1 ∧
      sentenceIssues sentence = capitalizations (sentenceIssues sentence)
        ++ subjectVerbs (sentenceIssues sentence) ++ doubleNegatives (sentenceIssues sentence)) ∧
    (analyzeSpeechForLearning text difficultyLevel learningMode).grammarIssues.length
      ≤ 3 * (analyzeSpeechForLearning text difficultyLevel learningMode).sentenceCount ∧
    (sentencesOf text = [] →
      (analyzeSpeechForLearning text difficultyLevel learningMode).grammarIssues = []) := by
  refine ⟨?_, ?_, ?_⟩
  · intro sentence
    rw [capitalizations_sentenceIssues, subjectVerbs_sentenceIssues,
      doubleNegatives_sentenceIssues]
    refine ⟨by split_ifs <;> simp, by split_ifs <;> simp, by split_ifs <;> simp, ?_⟩
    rw [← capitalizations_sentenceIssues, ← subjectVerbs_sentenceIssues,
      ← doubleNegatives_sentenceIssues]
    simp only [sentenceIssues, capitalizations_append, subjectVerbs_append,
      doubleNegatives_append]
    have hcap : ∀ t, capitalizations (capitalizationCheck t) = capitalizationCheck t ∧
        subjectVerbs (capitalizationCheck t) = [] ∧
        doubleNegatives (capitalizationCheck t) = [] := by
      intro t
      rw [capitalizationCheck_eq]
      split_ifs
      · exact ⟨by decide, by decide, by decide⟩
      · exact ⟨rfl, rfl, rfl⟩
    have hsv : ∀ t, capitalizations (subjectVerbCheck t) = [] ∧
        subjectVerbs (subjectVerbCheck t) = subjectVerbCheck t ∧
        doubleNegatives (subjectVerbCheck t) = [] := by
      intro t
      unfold subjectVerbCheck
      split_ifs
      · exact ⟨by decide, by decide, by decide⟩
      · exact ⟨rfl, rfl, rfl⟩
    have hdn : ∀ t, capitalizations (doubleNegativeCheck t) = [] ∧
        subjectVerbs (doubleNegativeCheck t) = [] ∧
        doubleNegatives (doubleNegativeCheck t) = doubleNegativeCheck t := by
      intro t
      unfold doubleNegativeCheck
      split_ifs
      · exact ⟨by decide, by decide, by decide⟩
      · exact ⟨rfl, rfl, rfl⟩
    simp only [(hcap _).1, (hcap _).2.1, (hcap _).2.2, (hsv _).1, (hsv _).2.1, (hsv _).2.2,
      (hdn _).1, (hdn _).2.1, (hdn _).2.2, List.append_nil, List.nil_append]
  · simp only [analyzeSpeechForLearning_eq, analyzeGrammar]
    exact length_flatMap_le sentenceIssues 3 length_sentenceIssues_le (sentencesOf text)
  · intro h
    simp only [analyzeSpeechForLearning_eq, analyzeGrammar, h, List.flatMap_nil]

theorem occurrences_pos (p s : JsString) (h : p <:+: s) : 1 ≤ occurrences p s := by
  obtain ⟨t, hpt, hts⟩ := List.infix_iff_prefix_suffix.1 h
  unfold occurrences
  apply List.countP_pos_iff.2
  exact ⟨t, (List.mem_tails _ _).2 hts, (startsWith_iff _ _).2 hpt⟩

theorem occurrences_mono (p q s : JsString) (hqp : q <+: p) :
    occurrences p s ≤ occurrences q s := by
  unfold occurrences
  apply List.countP_mono_left
  intro t _ ht
  rw [startsWith_iff] at ht ⊢
  exact hqp.trans ht

/-- C27: a sentence whose lower-cased form contains "not" gets a `double_negative` issue,
because each occurrence of "not" is counted once more as an occurrence of "no"; the single
negation "I do not know" gets one. -/
theorem double_negative_of_not (text sentence : JsString)
    (hs : sentence ∈ sentencesOf text) (hnot : "not".toList <:+: toLowerCase sentence) :
    occurrences "not".toList (toLowerCase sentence)
      ≤ occurrences "no".toList (toLowerCase sentence) ∧
    doubleNegatives (sentenceIssues sentence) = [doubleNegativeIssue] ∧
    doubleNegativeIssue ∈ analyzeGrammar text ∧
    analyzeGrammar "I do not know".toList = [doubleNegativeIssue] := by
  have hmono : occurrences "not".toList (toLowerCase sentence)
      ≤ occurrences "no".toList (toLowerCase sentence) :=
    occurrences_mono _ _ _ ⟨"t".toList, rfl⟩
  have hpos := occurrences_pos _ _ hnot
  have hcount : markerOccurrences (toLowerCase sentence) > 1 := by
    simp only [markerOccurrences, List.map, List.sum_cons, List.sum_nil]
    omega
  have hdn : doubleNegatives (sentenceIssues sentence) = [doubleNegativeIssue] := by
    rw [doubleNegatives_sentenceIssues, markerOccurrences_toLowerCase_trim, if_pos hcount]
  refine ⟨hmono, hdn, ?_, by decide⟩
  apply sentenceIssues_subset text sentence hs
  have hmem : doubleNegativeIssue ∈ doubleNegatives (sentenceIssues sentence) := by
    rw [hdn]
    exact List.mem_singleton.2 rfl
  exact (List.mem_filter.1 hmem).1

theorem double_negative_of_not_witness :
    "I do not know".toList ∈ sentencesOf "I do not know".toList ∧
    "not".toList <:+: toLowerCase "I do not know".toList ∧
    (occurrences "not".toList (toLowerCase "I do not know".toList)
      ≤ occurrences "no".toList (toLowerCase "I do not know".toList) ∧
    doubleNegatives (sentenceIssues "I do not know".toList) = [doubleNegativeIssue] ∧
    doubleNegativeIssue ∈ analyzeGrammar "I do not know".toList ∧
    analyzeGrammar "I do not know".toList = [doubleNegativeIssue]) :=
  ⟨by decide, by rw [← includes_iff]; decide,
    double_negative_of_not "I do not know".toList "I do not know".toList (by decide)
      (by rw [← includes_iff]; decide)⟩

/-- C22, at the failing input: for the text " hello", one word after a leading space, the
split on white space yields an empty first piece and `wordCount` is 2; without white space at
either end the count is right, as for "hello how are you". -/
theorem wordCount_leading_space (difficultyLevel learningMode : Json) :
    (analyzeSpeechForLearning " hello".toList difficultyLevel learningMode).wordCount = 2 ∧
    wordRuns " hello".toList = 1 ∧
    (analyzeSpeechForLearning "hello how are you".toList difficultyLevel
      learningMode).wordCount = 4 ∧
    wordRuns "hello how are you".toList = 4 := by
  simp only [analyzeSpeechForLearning_eq]
  decide

/-- C23, at the failing input: in "Today I am happy" the pronoun is in upper case, and the
issue list is one `capitalization` issue, because the sentence is lower-cased before the
search for " i ". -/
theorem capitalization_for_uppercase_I :
    analyzeGrammar "Today I am happy".toList = [capitalizationIssue] := by
  decide

/-- C25, at the failing input: for the payload `{text: 5}`, which fails the validation, the
handler emits the error response, then `logLearningInteraction` throws a `TypeError` on
`userMessage.substring` inside the `catch` block: no interaction is logged and the error
leaves the handler. -/
theorem relay_number_text_throws (apiKey : Option JsString) (upstream : Nat → Outcome)
    (clock : Clock) :
    (handleChatMessage apiKey upstream clock (.object numberTextObject)).uncaught
      = some (.typeError ⟨"userMessage.substring is not a function".toList⟩) ∧
    loggedEntries (handleChatMessage apiKey upstream clock (.object numberTextObject)).events
      = [] ∧
    emittedResponses (handleChatMessage apiKey upstream clock (.object numberTextObject)).events
      = [errorResponse "Please provide a valid message.".toList] := by
  have herr : errorReply .textRequired = "Please provide a valid message.".toList := by decide
  refine ⟨rfl, rfl, ?_⟩
  have hrun : handleChatMessage apiKey upstream clock (.object numberTextObject)
      = catchHandler clock (.object numberTextObject) [] .textRequired := rfl
  rw [hrun, (catchHandler_events _ _ _ _).1, herr]
  rfl

/-! ## Completion client: length of the waits -/

theorem sleepDelays_append (xs ys : List Effect) :
    sleepDelays (xs ++ ys) = sleepDelays xs ++ sleepDelays ys := by
  simp [sleepDelays, List.filterMap_append]

theorem sleepDelays_catchBlock (attempt : Nat) (maxRetries : Int) :
    ∀ ms ∈ sleepDelays (catchBlock attempt maxRetries),
      ∃ n : Nat, ms = .finite n ∧ n ≤ 10000 := by
  intro ms h
  unfold catchBlock at h
  split_ifs at h
  · simp only [sleepDelays, List.filterMap_cons, List.filterMap_nil, List.mem_singleton] at h
    refine ⟨backoffDelay attempt, h, ?_⟩
    unfold backoffDelay
    omega
  · simp [sleepDelays] at h

theorem attemptBody_sleeps_of_no_429 (attempt : Nat) (maxRetries : Int) (o : Outcome)
    (effects : List Effect) (hno : ∀ r, o = .response r → r.status ≠ 429)
    (h : attemptBody attempt maxRetries o = .next effects) :
    ∀ ms ∈ sleepDelays effects, ∃ n : Nat, ms = .finite n ∧ n ≤ 10000 := by
  unfold attemptBody at h
  split at h
  · cases h
    exact sleepDelays_catchBlock _ _
  · rename_i r
    split_ifs at h with h1 h2 h3
    · exact absurd h2 (hno r rfl)
    · cases h
      exact sleepDelays_catchBlock _ _
    · cases h
      exact sleepDelays_catchBlock _ _

theorem attemptLoop_sleeps_of_no_429 (req : CompletionRequest) (maxRetries : Int)
    (upstream : Nat → Outcome) (hno : ∀ k r, upstream k = .response r → r.status ≠ 429) :
    ∀ (d attempt : Nat) (trace : List Effect), (maxRetries + 1 - attempt).toNat = d →
      (∀ ms ∈ sleepDelays trace, ∃ n : Nat, ms = .finite n ∧ n ≤ 10000) →
      ∀ ms ∈ sleepDelays (attemptLoop req maxRetries upstream attempt trace).2,
        ∃ n : Nat, ms = .finite n ∧ n ≤ 10000 := by
  intro d
  induction d with
  | zero =>
    intro attempt trace hd htrace
    rw [attemptLoop, if_neg (by omega)]
    exact htrace
  | succ d ih =>
    intro attempt trace hd htrace
    rw [attemptLoop, if_pos (by omega)]
    cases hb : attemptBody attempt maxRetries (upstream attempt) with
    | done r =>
      simp only
      intro ms hms
      rw [sleepDelays_append] at hms
      rcases List.mem_append.1 hms with h | h
      · exact htrace ms h
      · simp [sleepDelays] at h
    | next effects =>
      simp only
      apply ih (attempt + 1) _ (by omega)
      intro ms hms
      rw [sleepDelays_append] at hms
      rcases List.mem_append.1 hms with h | h
      · exact htrace ms h
      · have h2 : ms ∈ sleepDelays effects := by
          simpa [sleepDelays] using h
        exact attemptBody_sleeps_of_no_429 attempt maxRetries _ effects (hno attempt) hb ms h2

/-- C24, at a response the claim is wrong for: attempt 1 receives status 429 with
`retry-after: 60` and the client calls `sleep(60000)`. -/
theorem retry_after_sixty_counterexample :
    sleepDelays (makeAPICallWithRetry (some ['k']) (rateLimitedUpstream (some ['6', '0']))
      sampleRequest 1).2 = [.finite 60000] ∧
    ¬ ∀ ms ∈ sleepDelays (makeAPICallWithRetry (some ['k'])
        (rateLimitedUpstream (some ['6', '0'])) sampleRequest 1).2,
      ∃ n : Nat, ms = .finite n ∧ n ≤ 10000 := by
  have hs : (retryAfterSeconds (rateLimitedResponse (some ['6', '0'])) 1).timesThousand
      = .finite 60000 := by decide
  have ht : sleepDelays (makeAPICallWithRetry (some ['k'])
      (rateLimitedUpstream (some ['6', '0'])) sampleRequest 1).2 = [.finite 60000] := by
    simp only [makeAPICallWithRetry, rateLimitedUpstream]
    rw [if_neg (by decide),
      attemptLoop_rate_limited _ _ _ 1 [] (rateLimitedResponse (some ['6', '0'])) (by decide)
        rfl rfl,
      attemptLoop, if_neg (by decide), hs]
    rfl
  refine ⟨ht, ?_⟩
  rw [ht]
  intro h
  obtain ⟨n, hn, hle⟩ := h (.finite 60000) (List.mem_singleton.2 rfl)
  simp only [JsInteger.finite.injEq] at hn
  omega

/-- C24, as amended: when no upstream response has the status 429, every delay that
`makeAPICallWithRetry` sleeps is at most 10 000 ms, for every attempt number and every
`maxRetries`; in every run the delays of the `catch` block are at most 10 000 ms. -/
theorem backoff_delays_bounded (apiKey : Option JsString) (upstream : Nat → Outcome)
    (req : CompletionRequest) (maxRetries : Int)
    (hno : ∀ k r, upstream k = .response r → r.status ≠ 429) :
    (∀ ms ∈ sleepDelays (makeAPICallWithRetry apiKey upstream req maxRetries).2,
      ∃ n : Nat, ms = .finite n ∧ n ≤ 10000) ∧
    (∀ attempt : Nat, ∀ ms ∈ sleepDelays (catchBlock attempt maxRetries),
      ∃ n : Nat, ms = .finite n ∧ n ≤ 10000) := by
  refine ⟨?_, fun attempt => sleepDelays_catchBlock attempt maxRetries⟩
  unfold makeAPICallWithRetry
  split_ifs
  · intro ms h
    simp [sleepDelays] at h
  · exact attemptLoop_sleeps_of_no_429 req maxRetries upstream hno _ 1 [] rfl
      (fun ms h => by simp [sleepDelays] at h)

theorem backoff_delays_bounded_witness :
    (∀ k r, unreachableUpstream k = .response r → r.status ≠ 429) ∧
    ((∀ ms ∈ sleepDelays (makeAPICallWithRetry (some ['k']) unreachableUpstream sampleRequest
        3).2, ∃ n : Nat, ms = .finite n ∧ n ≤ 10000) ∧
    (∀ attempt : Nat, ∀ ms ∈ sleepDelays (catchBlock attempt 3),
      ∃ n : Nat, ms = .finite n ∧ n ≤ 10000)) :=
  ⟨(fun _ _ h => by cases h),
    backoff_delays_bounded (some ['k']) unreachableUpstream sampleRequest 3
      (fun _ _ h => by cases h)⟩

/-! ## Session relay: the fallback reply and the serialized analysis -/

theorem userMessageOf_relayRequest (fields : MessageFields) (text systemPrompt : JsString) :
    userMessageOf (relayRequest fields text systemPrompt)
      = userTurnContent text
          (analyzeSpeechForLearning text fields.difficultyLevel fields.learningMode) :=
  rfl

set_option maxRecDepth 100000 in
/-- C26, at the failing input: with no credential, the valid text "so he are happy" holds no
greeting word and no question mark, yet the reply is the greeting reply: the user turn
embeds the serialized analysis, whose `subject_verb_agreement` suggestion ends in
"you/we/they", and the greeting test finds "hey" there. -/
theorem relay_greeting_from_analysis (upstream : Nat → Outcome) (clock : Clock) :
    isGreeting "so he are happy".toList = false ∧
    isQuestion "so he are happy".toList = false ∧
    includes
      (stringifySpeechAnalysis
        (analyzeSpeechForLearning "so he are happy".toList (.str "intermediate".toList)
          (.str "conversation".toList)))
      "you/we/they".toList = true ∧
    (emittedResponses (handleChatMessage none upstream clock
        (.string "so he are happy".toList)).events).map (fun r => (r.reply, r.error))
      = [(some (.str greetingReply), false)] := by
  refine ⟨by decide, by decide, by decide, ?_⟩
  have hp : ∃ systemPrompt,
      getEnhancedTutorPrompt (.str "conversation_partner".toList) (.str "intermediate".toList)
        (.str "gentle".toList)
        (analyzeSpeechForLearning "so he are happy".toList (.str "intermediate".toList)
          (.str "conversation".toList)) = .ok systemPrompt := ⟨_, rfl⟩
  obtain ⟨systemPrompt, hprompt⟩ := hp
  obtain ⟨events, hproc, hemit⟩ :=
    processMessage_without_credential none upstream clock
      (defaultFields "so he are happy".toList) "so he are happy".toList systemPrompt rfl rfl
      hprompt
  have hreply : fallbackReply
      (relayRequest (defaultFields "so he are happy".toList) "so he are happy".toList
        systemPrompt)
      = greetingReply := by
    have hinc : includes
        (userTurnContent "so he are happy".toList
          (analyzeSpeechForLearning "so he are happy".toList (.str "intermediate".toList)
            (.str "conversation".toList)))
        "hey".toList = true := by decide
    have hg : isGreeting
        (userMessageOf
          (relayRequest (defaultFields "so he are happy".toList) "so he are happy".toList
            systemPrompt))
        = true := by
      rw [userMessageOf_relayRequest]
      exact (isGreeting_iff _).2
        ⟨"hey".toList, by decide, "hey".toList, (includes_iff _ _).1 hinc, rfl⟩
    unfold fallbackReply
    simp only [hg, if_true]
  have hv : validateText (some (.str "so he are happy".toList))
      = .ok "so he are happy".toList :=
    (validateText_ok_iff _ _).2 ⟨rfl, by decide, by decide⟩
  have hrun : handleChatMessage none upstream clock (.string "so he are happy".toList)
      = { events := events, uncaught := none } := by
    simp only [handleChatMessage, readPayload, hv]
    simp only [defaultFields] at hproc
    simp only [hproc]
  rw [hrun, hemit, hreply]
  rfl

/-! ## Learning feedback -/

theorem tagCapturesAux_eq (rest : JsString) (hrest : ∀ x ∈ rest, x ≠ '[') :
    ∀ (s : JsString) (skip : Nat), (∀ x ∈ s.take skip, x ≠ '[') →
      tagCapturesAux ('[' :: rest) s skip = tagOccurrenceCaptures ('[' :: rest) s := by
  intro s
  induction s with
  | nil =>
    intro skip _
    rfl
  | cons c cs ih =>
    intro skip h
    cases skip with
    | succ k =>
      have hc : c ≠ '[' := h c (by simp)
      have hno : startsWith (c :: cs) ('[' :: rest) = false := by
        rw [Bool.eq_false_iff, ne_eq, startsWith_iff]
        rintro ⟨t, ht⟩
        simp only [List.cons_append, List.cons.injEq] at ht
        exact hc ht.1.symm
      rw [tagCapturesAux, tagOccurrenceCaptures, hno,
        ih k (fun x hx => h x (by simp [hx]))]
      rfl
    | zero =>
      rw [tagCapturesAux, tagOccurrenceCaptures]
      by_cases hpre : startsWith (c :: cs) ('[' :: rest) = true
      · rw [if_pos hpre, if_pos hpre]
        simp only [List.singleton_append, List.cons.injEq, true_and]
        apply ih
        obtain ⟨t, ht⟩ := (startsWith_iff _ _).1 hpre
        simp only [List.cons_append, List.cons.injEq] at ht
        obtain ⟨-, hcs⟩ := ht
        have hdrop : (c :: cs).drop ('[' :: rest).length = t := by
          rw [← hcs]
          simp
        rw [hdrop]
        have hpre2 : rest ++ t.takeWhile (fun x => x != '[') <+: cs := by
          rw [← hcs]
          exact (List.prefix_append_right_inj rest).2 (List.takeWhile_prefix _)
        have hlen : (cs.take (('[' :: rest).length
            + (t.takeWhile (fun x => x != '[')).length - 1)).length
            ≤ (rest ++ t.takeWhile (fun x => x != '[')).length := by
          simp only [List.length_take, List.length_cons, List.length_append]
          omega
        have hsub := List.prefix_of_prefix_length_le (List.take_prefix _ cs) hpre2 hlen
        intro x hx
        rcases List.mem_append.1 (hsub.subset hx) with hx1 | hx1
        · exact hrest x hx1
        · have := List.mem_takeWhile_imp hx1
          simpa using this
      · rw [if_neg hpre, if_neg hpre, ih 0 (fun x hx => by simp at hx)]
        rfl

theorem tagCaptures_eq (rest s : JsString) (hrest : ∀ x ∈ rest, x ≠ '[') :
    tagCaptures ('[' :: rest) s = tagOccurrenceCaptures ('[' :: rest) s :=
  tagCapturesAux_eq rest hrest s 0 (fun x hx => by simp at hx)

theorem length_tagOccurrenceCaptures (tag s : JsString) (htag : tag ≠ []) :
    (tagOccurrenceCaptures tag s).length = occurrences tag s := by
  induction s with
  | nil => rw [occurrences_nil tag htag]; rfl
  | cons c cs ih =>
    rw [tagOccurrenceCaptures, occurrences_cons, List.length_append, ih]
    split_ifs <;> rfl

theorem no_bracket_in_captures (tag s : JsString) :
    ∀ e ∈ tagOccurrenceCaptures tag s, '[' ∉ e := by
  induction s with
  | nil =>
    intro e he
    cases he
  | cons c cs ih =>
    intro e he
    rw [tagOccurrenceCaptures] at he
    rcases List.mem_append.1 he with h | h
    · split_ifs at h
      · rw [List.mem_singleton] at h
        intro hb
        rw [h] at hb
        have := List.mem_takeWhile_imp hb
        simp at this
      · cases h
    · exact ih e h

theorem mem_of_mem_trim (s : JsString) (c : Char) (h : c ∈ trim s) : c ∈ s := by
  obtain ⟨w₁, w₂, hs, -, -⟩ := trim_decomposition s
  rw [hs]
  simp [h]

set_option maxRecDepth 100000 in
/-- C29: the grammar, pronunciation and vocabulary lists of `extractLearningFeedback` hold,
for each occurrence of the tag `[FEEDBACK]`, `[PRONUNCIATION]`, `[VOCABULARY]` in order, the
trimmed text from just after the tag up to the next `[` or the end of the reply, so that no
entry contains `[`; the general list is empty; and for the three fallback replies all four
lists are empty. -/
theorem extractLearningFeedback_spec (reply : JsString) :
    (extractLearningFeedback reply).grammar
      = (tagOccurrenceCaptures "[FEEDBACK]".toList reply).map trim ∧
    (extractLearningFeedback reply).pronunciation
      = (tagOccurrenceCaptures "[PRONUNCIATION]".toList reply).map trim ∧
    (extractLearningFeedback reply).vocabulary
      = (tagOccurrenceCaptures "[VOCABULARY]".toList reply).map trim ∧
    (extractLearningFeedback reply).grammar.length
      = occurrences "[FEEDBACK]".toList reply ∧
    (extractLearningFeedback reply).pronunciation.length
      = occurrences "[PRONUNCIATION]".toList reply ∧
    (extractLearningFeedback reply).vocabulary.length
      = occurrences "[VOCABULARY]".toList reply ∧
    (∀ e ∈ (extractLearningFeedback reply).grammar ++ (extractLearningFeedback reply).pronunciation
        ++ (extractLearningFeedback reply).vocabulary, '[' ∉ e) ∧
    (extractLearningFeedback reply).general = [] ∧
    extractLearningFeedback greetingReply
      = { grammar := [], pronunciation := [], vocabulary := [], general := [] } ∧
    extractLearningFeedback questionReply
      = { grammar := [], pronunciation := [], vocabulary := [], general := [] } ∧
    extractLearningFeedback genericReply
      = { grammar := [], pronunciation := [], vocabulary := [], general := [] } := by
  have hf : tagCaptures "[FEEDBACK]".toList reply
      = tagOccurrenceCaptures "[FEEDBACK]".toList reply :=
    tagCaptures_eq "FEEDBACK]".toList reply (by decide)
  have hp : tagCaptures "[PRONUNCIATION]".toList reply
      = tagOccurrenceCaptures "[PRONUNCIATION]".toList reply :=
    tagCaptures_eq "PRONUNCIATION]".toList reply (by decide)
  have hv : tagCaptures "[VOCABULARY]".toList reply
      = tagOccurrenceCaptures "[VOCABULARY]".toList reply :=
    tagCaptures_eq "VOCABULARY]".toList reply (by decide)
  have hno : ∀ tag, ∀ e ∈ (tagOccurrenceCaptures tag reply).map trim, '[' ∉ e := by
    intro tag e he
    obtain ⟨cap, hcap, rfl⟩ := List.mem_map.1 he
    intro hb
    exact no_bracket_in_captures tag reply cap hcap (mem_of_mem_trim cap _ hb)
  have hg : extractLearningFeedback greetingReply
      = { grammar := [], pronunciation := [], vocabulary := [], general := [] } := by decide
  have hq : extractLearningFeedback questionReply
      = { grammar := [], pronunciation := [], vocabulary := [], general := [] } := by decide
  have hk : extractLearningFeedback genericReply
      = { grammar := [], pronunciation := [], vocabulary := [], general := [] } := by decide
  refine ⟨?_, ?_, ?_, ?_, ?_, ?_, ?_, rfl, hg, hq, hk⟩
  · simp only [extractLearningFeedback, hf]
  · simp only [extractLearningFeedback, hp]
  · simp only [extractLearningFeedback, hv]
  · simp only [extractLearningFeedback, hf, List.length_map]
    exact length_tagOccurrenceCaptures _ _ (by decide)
  · simp only [extractLearningFeedback, hp, List.length_map]
    exact length_tagOccurrenceCaptures _ _ (by decide)
  · simp only [extractLearningFeedback, hv, List.length_map]
    exact length_tagOccurrenceCaptures _ _ (by decide)
  simp only [extractLearningFeedback, hf, hp, hv]
  intro e he
  rcases List.mem_append.1 he with h | h
  · rcases List.mem_append.1 h with h | h
    · exact hno _ e h
    · exact hno _ e h
  · exact hno _ e h

/-! ## Client: decay of the scores -/

set_option maxRecDepth 1000000 in
theorem updateWeight_nearest :
    2 ^ 52 ≤ updateWeight.mantissa ∧ updateWeight.mantissa < 2 ^ 53 ∧
    10 * (updateWeight.mantissa : Int) - 3 * 2 ^ updateWeight.scale ≤ 5 ∧
    3 * 2 ^ updateWeight.scale - 10 * (updateWeight.mantissa : Int) ≤ 5 := by
  decide

set_option maxRecDepth 1000000 in
theorem weightedUpdate_zero_table :
    ∀ n < 101,
      (10 * (weightedUpdate n 0 : Int) - 7 * (n : Int) ≤ 5
        ∧ 7 * (n : Int) - 10 * (weightedUpdate n 0 : Int) ≤ 5)
      ∧ (2 ≤ n → weightedUpdate n 0 < n) := by
  decide

theorem weightedUpdate_zero (n : Nat) (h : n ≤ 100) :
    NearestToSevenTenths (weightedUpdate n 0) n ∧ (2 ≤ n → weightedUpdate n 0 < n) :=
  weightedUpdate_zero_table n (by omega)

/-- C28: for an analysis made by the server and scores between 0 and 100, the update puts, in
place of each of the grammar, pronunciation and vocabulary scores, a nearest integer to 0.7
times the score, which is below the score when the score was 2 or more, and sets `overall` to
the mean of the four new scores rounded to the integer below the mean plus one half. -/
theorem updateComprehensiveScores_decay (scores : Scores)
    (text : JsString) (difficultyLevel learningMode : Json)
    (hg : scores.grammar ≤ 100) (hp : scores.pronunciation ≤ 100)
    (hv : scores.vocabulary ≤ 100) :
    NearestToSevenTenths
      (updateComprehensiveScores scores
        (analyzeSpeechForLearning text difficultyLevel learningMode)).grammar scores.grammar ∧
    NearestToSevenTenths
      (updateComprehensiveScores scores
        (analyzeSpeechForLearning text difficultyLevel learningMode)).pronunciation
      scores.pronunciation ∧
    NearestToSevenTenths
      (updateComprehensiveScores scores
        (analyzeSpeechForLearning text difficultyLevel learningMode)).vocabulary
      scores.vocabulary ∧
    (2 ≤ scores.grammar →
      (updateComprehensiveScores scores
        (analyzeSpeechForLearning text difficultyLevel learningMode)).grammar
        < scores.grammar) ∧
    (2 ≤ scores.pronunciation →
      (updateComprehensiveScores scores
        (analyzeSpeechForLearning text difficultyLevel learningMode)).pronunciation
        < scores.pronunciation) ∧
    (2 ≤ scores.vocabulary →
      (updateComprehensiveScores scores
        (analyzeSpeechForLearning text difficultyLevel learningMode)).vocabulary
        < scores.vocabulary) ∧
    (updateComprehensiveScores scores
        (analyzeSpeechForLearning text difficultyLevel learningMode)).overall
      = ((updateComprehensiveScores scores
            (analyzeSpeechForLearning text difficultyLevel learningMode)).grammar
          + (updateComprehensiveScores scores
            (analyzeSpeechForLearning text difficultyLevel learningMode)).pronunciation
          + (updateComprehensiveScores scores
            (analyzeSpeechForLearning text difficultyLevel learningMode)).vocabulary
          + (updateComprehensiveScores scores
            (analyzeSpeechForLearning text difficultyLevel learningMode)).fluency + 2) / 4 := by
  have a := weightedUpdate_zero scores.grammar hg
  have b := weightedUpdate_zero scores.pronunciation hp
  have c := weightedUpdate_zero scores.vocabulary hv
  refine ⟨a.1, b.1, c.1, a.2, b.2, c.2, ?_⟩
  simp only [updateComprehensiveScores, mathRound]
  omega

theorem updateComprehensiveScores_decay_witness :
    initialScores.grammar ≤ 100 ∧ initialScores.pronunciation ≤ 100 ∧
    initialScores.vocabulary ≤ 100 ∧
    (NearestToSevenTenths
      (updateComprehensiveScores initialScores
        (analyzeSpeechForLearning "hello how are you".toList (.str "intermediate".toList)
          (.str "conversation".toList))).grammar initialScores.grammar ∧
    NearestToSevenTenths
      (updateComprehensiveScores initialScores
        (analyzeSpeechForLearning "hello how are you".toList (.str "intermediate".toList)
          (.str "conversation".toList))).pronunciation
      initialScores.pronunciation ∧
    NearestToSevenTenths
      (updateComprehensiveScores initialScores
        (analyzeSpeechForLearning "hello how are you".toList (.str "intermediate".toList)
          (.str "conversation".toList))).vocabulary
      initialScores.vocabulary ∧
    (2 ≤ initialScores.grammar →
      (updateComprehensiveScores initialScores
        (analyzeSpeechForLearning "hello how are you".toList (.str "intermediate".toList)
          (.str "conversation".toList))).grammar
        < initialScores.grammar) ∧
    (2 ≤ initialScores.pronunciation →
      (updateComprehensiveScores initialScores
        (analyzeSpeechForLearning "hello how are you".toList (.str "intermediate".toList)
          (.str "conversation".toList))).pronunciation
        < initialScores.pronunciation) ∧
    (2 ≤ initialScores.vocabulary →
      (updateComprehensiveScores initialScores
        (analyzeSpeechForLearning "hello how are you".toList (.str "intermediate".toList)
          (.str "conversation".toList))).vocabulary
        < initialScores.vocabulary) ∧
    (updateComprehensiveScores initialScores
        (analyzeSpeechForLearning "hello how are you".toList (.str "intermediate".toList)
          (.str "conversation".toList))).overall
      = ((updateComprehensiveScores initialScores
            (analyzeSpeechForLearning "hello how are you".toList (.str "intermediate".toList)
              (.str "conversation".toList))).grammar
          + (updateComprehensiveScores initialScores
            (analyzeSpeechForLearning "hello how are you".toList (.str "intermediate".toList)
              (.str "conversation".toList))).pronunciation
          + (updateComprehensiveScores initialScores
            (analyzeSpeechForLearning "hello how are you".toList (.str "intermediate".toList)
              (.str "conversation".toList))).vocabulary
          + (updateComprehensiveScores initialScores
            (analyzeSpeechForLearning "hello how are you".toList (.str "intermediate".toList)
              (.str "conversation".toList))).fluency + 2) / 4) :=
  ⟨by decide, by decide, by decide,
    updateComprehensiveScores_decay initialScores "hello how are you".toList
      (.str "intermediate".toList) (.str "conversation".toList) (by decide) (by decide)
      (by decide)⟩

end EnglishTutor
